import Mathlib

/-!
# charges-service: the charge synchronisation core

A shallow embedding of the Go handlers of `internal/handler`, of the repository
functions of `internal/supabase` and of the provider client of
`internal/integrations/asaas`.

Conventions of the embedding

* A Go `string` is a `String`, a `[]byte` that is only carried around is `Bytes`.
* A `float64` that is decoded from JSON, copied and compared with `0` is a `Rat`
  (every finite float64 is a rational, and JSON carries no NaN or infinity).
* `int` and `int32` values are `Int`; no arithmetic is performed on them.
* A Go pointer field (`*string`, `*int32`, ...) is an `Option`.
* A Go `(T, error)` result is `Except String T`, the message standing for the error.
* Everything outside the repository (the Tenant Data Store behind PostgREST, the
  provider behind HTTP, `encoding/json`, the process environment) is a field of
  `World`: the answer that collaborator gives to a given request.
* A handler returns an `Outcome`: the HTTP response it writes and the calls it made
  into the packages `supabase` and `asaas`, in order.  Log lines are not modelled.
-/

namespace ChargesService

/-! ## Go strings -/

/-- Code points for which Go's `unicode.IsSpace` holds. -/
def isSpace (c : Char) : Bool :=
  [0x09, 0x0A, 0x0B, 0x0C, 0x0D, 0x20, 0x85, 0xA0, 0x1680, 0x2028, 0x2029, 0x202F, 0x205F,
    0x3000].contains c.toNat || (0x2000 ≤ c.toNat && c.toNat ≤ 0x200A)

/-- Go `strings.TrimSpace`: drops leading and trailing white space. -/
def trimSpace (s : String) : String :=
  ⟨((s.data.dropWhile isSpace).reverse.dropWhile isSpace).reverse⟩

/-- Go `strings.TrimRight(s, cutset)` for a one-character cutset. -/
def trimRightChar (s : String) (c : Char) : String :=
  ⟨(s.data.reverse.dropWhile (fun x => x == c)).reverse⟩

/-- Go `strings.Trim(s, cutset)` for a one-character cutset. -/
def trimChar (s : String) (c : Char) : String :=
  ⟨((s.data.dropWhile (fun x => x == c)).reverse.dropWhile (fun x => x == c)).reverse⟩

/-- Go `strings.TrimPrefix(s, p)`: `s` without the leading `p`, or `s` itself. -/
def trimLeading (s p : String) : String :=
  if p.data.isPrefixOf s.data then ⟨s.data.drop p.data.length⟩ else s

/-! ## Data model (`internal/model`, `internal/integrations/asaas`) -/

/-- Values of Go type `float64` as this service meets them. -/
abbrev Float64 := Rat

/-- Go `[]byte` payloads (HTTP bodies, `json.RawMessage`), carried around unchanged. -/
abbrev Bytes := String

/-- Go `any` fields of a decoded JSON document, kept as their JSON text. -/
abbrev AnyJSON := String

/-- The `model.AsaasChargeDiscount` struct. -/
structure AsaasChargeDiscount where
  Value : Option Float64 := none
  DueDateLimitDays : Option Int := none
  Type_ : Option String := none
deriving DecidableEq, Repr

/-- The `model.AsaasChargeInterest` struct. -/
structure AsaasChargeInterest where
  Value : Option Float64 := none
deriving DecidableEq, Repr

/-- The `model.AsaasChargeFine` struct. -/
structure AsaasChargeFine where
  Value : Option Float64 := none
  Type_ : Option String := none
deriving DecidableEq, Repr

/-- The `model.AsaasCreateChargeRequest` struct: the body of `POST /v1/asaas/charges`. -/
structure AsaasCreateChargeRequest where
  BillingType : String := ""
  Value : Float64 := 0
  DueDate : String := ""
  Description : Option String := none
  DaysAfterDueDateToRegistrationCancellation : Option Int := none
  ExternalReference : Option String := none
  InstallmentCount : Option Int := none
  TotalValue : Option Float64 := none
  InstallmentValue : Option Float64 := none
  Discount : Option AsaasChargeDiscount := none
  Interest : Option AsaasChargeInterest := none
  Fine : Option AsaasChargeFine := none
  PostalService : Option Bool := none
deriving DecidableEq, Repr

/-- The `model.AsaasPaymentResponse` struct: the payment object of the provider. -/
structure AsaasPaymentResponse where
  Object : String := ""
  ID : String := ""
  DateCreated : String := ""
  Customer : String := ""
  Installment : String := ""
  CheckoutSession : AnyJSON := ""
  PaymentLink : AnyJSON := ""
  Value : Float64 := 0
  NetValue : Float64 := 0
  OriginalValue : AnyJSON := ""
  InterestValue : AnyJSON := ""
  Description : String := ""
  BillingType : String := ""
  CanBePaidAfterDueDate : Bool := false
  PixTransaction : AnyJSON := ""
  Status : String := ""
  DueDate : String := ""
  OriginalDueDate : String := ""
  PaymentDate : String := ""
  ClientPaymentDate : String := ""
  ConfirmedDate : String := ""
  InstallmentNumber : Int := 0
  ExternalReference : String := ""
  InvoiceURL : String := ""
  BankSlipURL : String := ""
  PaymentLink2 : String := ""
  InvoiceNumber : String := ""
  Deleted : Bool := false
  PostalService : Bool := false
  Anticipated : Bool := false
  Anticipable : Bool := false
  CreditDate : String := ""
  EstimatedCreditDate : String := ""
  TransactionReceiptURL : String := ""
  NossoNumero : String := ""
  LastInvoiceViewedDate : AnyJSON := ""
  LastBankSlipViewedDate : AnyJSON := ""
  Discount : AnyJSON := ""
  Fine : AnyJSON := ""
  Interest : AnyJSON := ""
  Escrow : AnyJSON := ""
  Refunds : AnyJSON := ""
deriving DecidableEq, Repr

/-- The `model.AsaasPaymentsListResponse` struct: the paginated list envelope. -/
structure AsaasPaymentsListResponse where
  Object : String := ""
  HasMore : Bool := false
  TotalCount : Int := 0
  Limit : Int := 0
  Offset : Int := 0
  Data : List AsaasPaymentResponse := []
deriving DecidableEq, Repr

/-- The `model.AsaasCustomerResponse` struct. -/
structure AsaasCustomerResponse where
  Object : String := ""
  ID : String := ""
  DateCreated : String := ""
  Name : String := ""
  Email : String := ""
  Phone : String := ""
  MobilePhone : String := ""
  Address : String := ""
  AddressNumber : String := ""
  Complement : String := ""
  Province : String := ""
  City : Int := 0
  CityName : String := ""
  State : String := ""
  Country : String := ""
  PostalCode : String := ""
  CpfCnpj : String := ""
  PersonType : String := ""
  Deleted : Bool := false
  AdditionalEmails : String := ""
  ExternalReference : String := ""
  NotificationDisabled : Bool := false
  Observations : String := ""
  ForeignCustomer : Bool := false
deriving DecidableEq, Repr

/-- The `model.IamChargeRow` struct: one row of `iam.charges`. -/
structure IamChargeRow where
  TenantID : String := ""
  AccountingOfficeID : String := ""
  CompanyID : String := ""
  ContractID : String := ""
  Provider : String := ""
  ProviderChargeID : String := ""
  ProviderInstallmentID : Option String := none
  InstallmentNumber : Option Int := none
  Value : Float64 := 0
  NetValue : Option Float64 := none
  Description : Option String := none
  BillingType : Option String := none
  Status : Option String := none
  DueDate : Option String := none
  OriginalDueDate : Option String := none
  InvoiceURL : Option String := none
  InvoiceNumber : Option String := none
  ExternalReference : Option String := none
  ProviderPayload : Bytes := ""
deriving DecidableEq, Repr

/-- The `model.BillingIntegrationRow` struct: one row of `iam.billing_integrations`. -/
structure BillingIntegrationRow where
  ID : String := ""
  AccountingOfficeID : String := ""
  Provider : String := ""
  Environment : String := ""
  BaseAPI : String := ""
  Token : String := ""
  IsActive : Bool := false
  IsDefault : Bool := false
  UpdatedAt : String := ""
  CreatedAt : String := ""
deriving DecidableEq, Repr

/-- The `supabase.CompanyAsaasCustomerPayload` struct. -/
structure CompanyAsaasCustomerPayload where
  Name : String := ""
  CpfCnpj : String := ""
  Email : String := ""
  MobilePhone : String := ""
  Company : Bool := false
  NotificationDisabled : Bool := false
deriving DecidableEq, Repr

/-- The `asaas.Client` struct (the `http.Client` with its 30 s timeout is left out). -/
structure Client where
  BaseURL : String
  Token : String
deriving DecidableEq, Repr

/-- The `asaas.CreateCustomerRequest` struct. -/
structure CreateCustomerRequest where
  Name : String := ""
  CpfCnpj : String := ""
  Email : String := ""
  MobilePhone : String := ""
  NotificationDisabled : Bool := false
  Company : Bool := false
deriving DecidableEq, Repr

/-- The `asaas.PaymentDiscount` struct. -/
structure PaymentDiscount where
  Value : Option Float64 := none
  DueDateLimitDays : Option Int := none
  Type_ : Option String := none
deriving DecidableEq, Repr

/-- The `asaas.PaymentInterest` struct. -/
structure PaymentInterest where
  Value : Option Float64 := none
deriving DecidableEq, Repr

/-- The `asaas.PaymentFine` struct. -/
structure PaymentFine where
  Value : Option Float64 := none
  Type_ : Option String := none
deriving DecidableEq, Repr

/-- The `asaas.CreatePaymentRequest` struct: the body sent to `POST /v3/payments`. -/
structure CreatePaymentRequest where
  Customer : String := ""
  BillingType : String := ""
  Value : Float64 := 0
  DueDate : String := ""
  Description : Option String := none
  DaysAfterDueDateToRegistrationCancellation : Option Int := none
  ExternalReference : Option String := none
  InstallmentCount : Option Int := none
  TotalValue : Option Float64 := none
  InstallmentValue : Option Float64 := none
  Discount : Option PaymentDiscount := none
  Interest : Option PaymentInterest := none
  Fine : Option PaymentFine := none
  PostalService : Option Bool := none
deriving DecidableEq, Repr

/-- The `model.AsaasCreateCustomerRequest` struct: the body of `POST /v1/asaas/customers`. -/
structure AsaasCreateCustomerRequest where
  Name : String := ""
  CpfCnpj : String := ""
  Email : String := ""
  MobilePhone : String := ""
  NotificationDisabled : Bool := false
  Company : Bool := false
deriving DecidableEq, Repr

/-- The `model.AsaasWebhookAccount` struct. -/
structure AsaasWebhookAccount where
  ID : String := ""
  OwnerID : Option String := none
deriving DecidableEq, Repr

/-- The `model.AsaasWebhookEvent` struct: the event object the provider posts. -/
structure AsaasWebhookEvent where
  ID : String := ""
  Event : String := ""
  DateCreated : String := ""
  Account : Option AsaasWebhookAccount := none
  Payment : Option AsaasPaymentResponse := none
deriving DecidableEq, Repr

/-- The `model.AsaasChargeSplit` struct. -/
structure AsaasChargeSplit where
  WalletID : String := ""
  FixedValue : Option Float64 := none
  PercentualValue : Option Float64 := none
  ExternalReference : Option String := none
  Description : Option String := none
deriving DecidableEq, Repr

/-- The `model.AsaasUpdateChargeRequest` struct: the body of `PUT /v1/asaas/charges/<id>`.
The free-form `Callback` map is kept as its JSON text. -/
structure AsaasUpdateChargeRequest where
  BillingType : Option String := none
  Value : Option Float64 := none
  DueDate : Option String := none
  Description : Option String := none
  DaysAfterDueDateToRegistrationCancellation : Option Int := none
  ExternalReference : Option String := none
  Discount : Option AsaasChargeDiscount := none
  Interest : Option AsaasChargeInterest := none
  Fine : Option AsaasChargeFine := none
  PostalService : Option Bool := none
  Callback : AnyJSON := ""
  Split : List AsaasChargeSplit := []
deriving DecidableEq, Repr

/-- The `asaas.PaymentSplit` struct. -/
structure PaymentSplit where
  WalletID : String := ""
  FixedValue : Option Float64 := none
  PercentualValue : Option Float64 := none
  ExternalReference : Option String := none
  Description : Option String := none
deriving DecidableEq, Repr

/-- The `asaas.UpdatePaymentRequest` struct: the body sent to `PUT /v3/payments/<id>`. -/
structure UpdatePaymentRequest where
  BillingType : Option String := none
  Value : Option Float64 := none
  DueDate : Option String := none
  Description : Option String := none
  DaysAfterDueDateToRegistrationCancellation : Option Int := none
  ExternalReference : Option String := none
  Discount : Option PaymentDiscount := none
  Interest : Option PaymentInterest := none
  Fine : Option PaymentFine := none
  PostalService : Option Bool := none
  Callback : AnyJSON := ""
  Split : List PaymentSplit := []
deriving DecidableEq, Repr

/-- The `model.AsaasUpdateCustomerRequest` struct: the body of a customer update, every
field optional. -/
structure AsaasUpdateCustomerRequest where
  Name : String := ""
  CpfCnpj : String := ""
  Email : String := ""
  Phone : String := ""
  MobilePhone : String := ""
  Address : String := ""
  AddressNumber : String := ""
  Complement : String := ""
  Province : String := ""
  City : Option Int := none
  State : String := ""
  Country : String := ""
  PostalCode : String := ""
  AdditionalEmails : String := ""
  ExternalReference : String := ""
  Observations : String := ""
  PersonType : String := ""
  NotificationDisabled : Option Bool := none
  Company : Option Bool := none
  ForeignCustomer : Option Bool := none
deriving DecidableEq, Repr

/-- The `asaas.UpdateCustomerRequest` struct: the body sent to `PUT /v3/customers/<id>`. -/
structure UpdateCustomerRequest where
  Name : String := ""
  CpfCnpj : String := ""
  Email : String := ""
  Phone : String := ""
  MobilePhone : String := ""
  Address : String := ""
  AddressNumber : String := ""
  Complement : String := ""
  Province : String := ""
  City : Option Int := none
  State : String := ""
  Country : String := ""
  PostalCode : String := ""
  AdditionalEmails : String := ""
  ExternalReference : String := ""
  Observations : String := ""
  PersonType : String := ""
  NotificationDisabled : Option Bool := none
  Company : Option Bool := none
  ForeignCustomer : Option Bool := none
deriving DecidableEq, Repr

/-- Go `url.Values` as this service fills it: every key is written with `Set`, so it
holds one value per key. -/
abbrev Values := List (String × String)

/-- Go `url.Values.Set`: replaces the value of `key`, or adds the key. -/
def Values.set (v : Values) (key value : String) : Values :=
  if v.any (fun kv => kv.1 == key) then
    v.map (fun kv => if kv.1 == key then (key, value) else kv)
  else v ++ [(key, value)]

/-- Go `url.Values.Get`: the value of `key`, or the empty string. -/
def Values.get (v : Values) (key : String) : String :=
  match v.find? (fun kv => kv.1 == key) with
  | some kv => kv.2
  | none => ""

/-! ## Requests to the store -/

/-- One `Order(column, &postgrest.OrderOpts{Ascending, NullsFirst})` clause of a query. -/
structure OrderClause where
  column : String
  ascending : Bool
  nullsFirst : Bool
deriving DecidableEq, Repr

/-- A read query as the PostgREST builder assembles it: `From(table)`,
`Select(columns, count, head)`, the `Eq(column, value)` filters and the `Order` clauses
in call order, and `Limit(n, "")`. -/
structure SelectQuery where
  table : String
  columns : String
  count : String := ""
  head : Bool := false
  eq : Values := []
  order : List OrderClause := []
  limit : Option Nat := none
deriving DecidableEq, Repr

/-- An upsert as the PostgREST builder assembles it:
`From(table).Upsert(value, onConflict, returning, count)`. -/
structure UpsertRequest where
  table : String
  rows : List IamChargeRow
  onConflict : String
  returning : String
  count : String
deriving DecidableEq, Repr

/-! ## The credential table -/

/-- The table `iam.billing_integrations` as the store holds it: its rows, the instant
that the text of a timestamp column denotes (the store orders `updated_at` and
`created_at` as times) and the order of its collation on text. -/
structure BillingIntegrationsTable where
  rows : List BillingIntegrationRow
  instant : String → Int
  collation : String → String → Bool

/-- The columns of `iam.billing_integrations` that `model.BillingIntegrationRow` reads. -/
def BillingIntegrationsTable.columns : List String :=
  ["id", "accounting_office_id", "provider", "environment", "base_api", "token",
   "is_active", "is_default", "updated_at", "created_at"]

/-- The text of a column of a row, with which the store compares the value of an `eq`
filter; a boolean column reads `true` or `false`. -/
def BillingIntegrationRow.column (row : BillingIntegrationRow) (name : String) : String :=
  if name = "id" then row.ID
  else if name = "accounting_office_id" then row.AccountingOfficeID
  else if name = "provider" then row.Provider
  else if name = "environment" then row.Environment
  else if name = "base_api" then row.BaseAPI
  else if name = "token" then row.Token
  else if name = "is_active" then (if row.IsActive then "true" else "false")
  else if name = "is_default" then (if row.IsDefault then "true" else "false")
  else if name = "updated_at" then row.UpdatedAt
  else if name = "created_at" then row.CreatedAt
  else ""

/-- Whether the store orders the value of column `name` in `a` no later than that in `b`,
ascending: `false` before `true`, timestamps as instants, text by the collation. -/
def BillingIntegrationsTable.columnLe (t : BillingIntegrationsTable) (name : String)
    (a b : BillingIntegrationRow) : Bool :=
  if name = "is_active" then (!a.IsActive || b.IsActive)
  else if name = "is_default" then (!a.IsDefault || b.IsDefault)
  else if name = "updated_at" then decide (t.instant a.UpdatedAt ≤ t.instant b.UpdatedAt)
  else if name = "created_at" then decide (t.instant a.CreatedAt ≤ t.instant b.CreatedAt)
  else t.collation (a.column name) (b.column name)

/-- Whether the store places `a` no later than `b` under the `Order` clauses of a query:
the first clause on which the two rows differ decides, in its direction.  No column of
the row type is nullable, so `NullsFirst` has nothing to place. -/
def BillingIntegrationsTable.precedes (t : BillingIntegrationsTable) (order : List OrderClause)
    (a b : BillingIntegrationRow) : Bool :=
  match order with
  | [] => true
  | c :: rest =>
    if t.columnLe c.column a b && t.columnLe c.column b a then t.precedes rest a b
    else if c.ascending then t.columnLe c.column a b else t.columnLe c.column b a

/-- The answer of the store to a read query on `billing_integrations`: the rows that
pass every `Eq` filter, in the order of the `Order` clauses, cut to the `Limit`.  A query
on another table or on a column the table does not have is refused. -/
def BillingIntegrationsTable.run (t : BillingIntegrationsTable) (q : SelectQuery) :
    Except String (List BillingIntegrationRow) :=
  if q.table ≠ "billing_integrations" then .error ("relation does not exist: " ++ q.table)
  else if !(q.eq.all (fun kv => BillingIntegrationsTable.columns.contains kv.1) &&
      q.order.all (fun c => BillingIntegrationsTable.columns.contains c.column)) then
    .error "column does not exist"
  else
    let kept := t.rows.filter (fun row => q.eq.all (fun kv => row.column kv.1 == kv.2))
    let sorted := kept.insertionSort (fun a b => t.precedes q.order a b = true)
    match q.limit with
    | some n => .ok (sorted.take n)
    | none => .ok sorted

/-! ## The charges table -/

/-- The table `iam.charges` as the store holds it: one record per row, a nil pointer
standing for a NULL column and an empty payload for a NULL `provider_payload`. -/
abbrev ChargesTable := List IamChargeRow

/-- The key of the unique constraint that `UpsertCharges` requires of the table:
`(tenant_id, provider, provider_charge_id)`. -/
def chargeKey (row : IamChargeRow) : String × String × String :=
  (row.TenantID, row.Provider, row.ProviderChargeID)

/-- The unique constraint holds of a table: at most one row per key. -/
def ChargesTable.keysUnique (t : ChargesTable) : Prop :=
  (t.map chargeKey).Nodup

/-- The fields of a comma-separated list, as the store reads `on_conflict`. -/
def splitOnChar (s : String) (c : Char) : List String :=
  (s.data.foldr (fun ch acc =>
    if ch = c then [] :: acc
    else match acc with
      | [] => [[ch]]
      | field :: fields => (ch :: field) :: fields) [[]]).map String.mk

/-- The text of a NOT NULL text column of a charge row, by column name (the JSON tags of
`model.IamChargeRow`); `none` for another name. -/
def IamChargeRow.column (row : IamChargeRow) (name : String) : Option String :=
  if name = "tenant_id" then some row.TenantID
  else if name = "accounting_office_id" then some row.AccountingOfficeID
  else if name = "company_id" then some row.CompanyID
  else if name = "contract_id" then some row.ContractID
  else if name = "provider" then some row.Provider
  else if name = "provider_charge_id" then some row.ProviderChargeID
  else none

/-- The values of the columns of a conflict target in a row. -/
def IamChargeRow.conflictKey (row : IamChargeRow) (target : List String) :
    List (Option String) :=
  target.map row.column

/-- The value of an `omitempty` pointer column after `ON CONFLICT ... DO UPDATE`: a nil
pointer is left out of the JSON object, and a column that the object does not carry
keeps its stored value. -/
def keepStored {α : Type} (new old : Option α) : Option α :=
  match new with
  | some v => some v
  | none => old

/-- The stored row after an upsert of `new` hits the row `old` (`Upsert` of postgrest-go
sends `Prefer: resolution=merge-duplicates`): every column of the JSON object of `new`
is overwritten.  By the tags of `model.IamChargeRow` the object always carries the six
text columns and `value`, and carries an `omitempty` column only when its pointer is not
nil (for `provider_payload`: when it is not empty). -/
def IamChargeRow.mergeOnto (new old : IamChargeRow) : IamChargeRow :=
  { TenantID := new.TenantID
    AccountingOfficeID := new.AccountingOfficeID
    CompanyID := new.CompanyID
    ContractID := new.ContractID
    Provider := new.Provider
    ProviderChargeID := new.ProviderChargeID
    ProviderInstallmentID := keepStored new.ProviderInstallmentID old.ProviderInstallmentID
    InstallmentNumber := keepStored new.InstallmentNumber old.InstallmentNumber
    Value := new.Value
    NetValue := keepStored new.NetValue old.NetValue
    Description := keepStored new.Description old.Description
    BillingType := keepStored new.BillingType old.BillingType
    Status := keepStored new.Status old.Status
    DueDate := keepStored new.DueDate old.DueDate
    OriginalDueDate := keepStored new.OriginalDueDate old.OriginalDueDate
    InvoiceURL := keepStored new.InvoiceURL old.InvoiceURL
    InvoiceNumber := keepStored new.InvoiceNumber old.InvoiceNumber
    ExternalReference := keepStored new.ExternalReference old.ExternalReference
    ProviderPayload := if new.ProviderPayload = "" then old.ProviderPayload
      else new.ProviderPayload }

/-- The store's `INSERT ... ON CONFLICT (target) DO UPDATE` for one row: a stored row
with the same values in the target columns is overwritten by the columns sent, and the
row is added when there is none. -/
def ChargesTable.upsertRow (target : List String) (t : ChargesTable) (new : IamChargeRow) :
    ChargesTable :=
  if t.any (fun x => x.conflictKey target == new.conflictKey target) then
    t.map (fun x => if x.conflictKey target == new.conflictKey target then new.mergeOnto x
      else x)
  else t ++ [new]

/-- The charges table after the store applied an upsert: row by row, on the conflict
target that the request names.  An upsert into another table leaves it as it is. -/
def ChargesTable.exec (t : ChargesTable) (req : UpsertRequest) : ChargesTable :=
  if req.table = "charges" then
    req.rows.foldl (ChargesTable.upsertRow (splitOnChar req.onConflict (Char.ofNat 0x2C))) t
  else t

/-- The optional text columns of a charge row: the `*string` fields tagged `omitempty`. -/
def IamChargeRow.optionalText : List (IamChargeRow → Option String) :=
  [fun row => row.ProviderInstallmentID, fun row => row.Description,
   fun row => row.BillingType, fun row => row.Status, fun row => row.DueDate,
   fun row => row.OriginalDueDate, fun row => row.InvoiceURL, fun row => row.InvoiceNumber,
   fun row => row.ExternalReference]

/-! ## HTTP requests and responses -/

/-- An inbound HTTP request: its query string (`r.URL.Query()`), its body, its headers
(`r.Header`, keyed by canonical name as `net/http` stores them) and the URL parameters
bound by the router (`chi.URLParam`). -/
structure Request where
  query : Values := []
  body : Bytes := ""
  header : Values := []
  urlParams : Values := []
deriving DecidableEq, Repr

/-- Go `textproto.CanonicalMIMEHeaderKey` on a key of letters, digits and hyphens: the
first letter and every letter after a hyphen in upper case, the others in lower case. -/
def canonicalHeaderKey (key : String) : String :=
  let step := fun (acc : List Char × Bool) (c : Char) =>
    let up := if 0x61 ≤ c.toNat ∧ c.toNat ≤ 0x7A then Char.ofNat (c.toNat - 32) else c
    let low := if 0x41 ≤ c.toNat ∧ c.toNat ≤ 0x5A then Char.ofNat (c.toNat + 32) else c
    (acc.1 ++ [if acc.2 then up else low], c == Char.ofNat 0x2D)
  ⟨(key.data.foldl step ([], true)).1⟩

/-- Go `r.Header.Get(key)`: the first value stored under the canonical form of `key`. -/
def Request.headerGet (r : Request) (key : String) : String :=
  r.header.get (canonicalHeaderKey key)

/-- Values that the handlers place in a `map[string]any` response payload. -/
inductive JVal where
  | str (s : String)
  | bool (b : Bool)
deriving DecidableEq, Repr

/-- What a handler writes as response body: a payload handed to the JSON encoder
(`writeJSON`), bytes written as they are (`w.Write(body)`), or the message line of
`http.Error`. -/
inductive Body where
  | json (payload : List (String × JVal))
  | raw (bytes : Bytes)
  | text (msg : String)
deriving DecidableEq, Repr

/-- The HTTP response of a handler. -/
structure Response where
  contentType : String
  status : Int
  body : Body
deriving DecidableEq, Repr

/-- The handler helper `writeJSON`: content type, status code, JSON-encoded payload. -/
def writeJSON (status : Int) (payload : List (String × JVal)) : Response :=
  { contentType := "application/json", status := status, body := Body.json payload }

/-- Go `http.Error(w, msg, code)`: plain-text content type, status code, message line. -/
def httpError (msg : String) (code : Int) : Response :=
  { contentType := "text/plain; charset=utf-8", status := code, body := Body.text msg }

/-- Go constant `http.StatusOK`. -/
def StatusOK : Int := 200
/-- Go constant `http.StatusNoContent`. -/
def StatusNoContent : Int := 204
/-- Go constant `http.StatusUnauthorized`. -/
def StatusUnauthorized : Int := 401
/-- Go constant `http.StatusConflict`. -/
def StatusConflict : Int := 409
/-- Go constant `http.StatusInternalServerError`. -/
def StatusInternalServerError : Int := 500
/-- Go constant `http.StatusBadRequest`. -/
def StatusBadRequest : Int := 400
/-- Go constant `http.StatusNotFound`. -/
def StatusNotFound : Int := 404
/-- Go constant `http.StatusBadGateway`. -/
def StatusBadGateway : Int := 502

/-! ## Calls across the package boundary -/

/-- A call of a handler into package `supabase` (Tenant Data Store) or into the
provider client of package `asaas`, with its arguments. -/
inductive Call where
  | GetBillingIntegrationForOffice (accountingOfficeID provider : String)
  | GetCompanyAsaasCustomerID (companyID : String)
  | GetCompanyAsaasCustomerPayload (companyID : String)
  | UpsertCompanyAsaasIntegration (companyID asaasCustomerID : String)
  | GetCompanyTenantID (companyID : String)
  | UpsertCharges (rows : List IamChargeRow)
  | CreateCustomer (c : Client) (req : CreateCustomerRequest)
  | CreatePayment (c : Client) (req : CreatePaymentRequest)
  | ListPayments (c : Client) (params : Values)
  | GetChargeByProviderID (provider providerChargeID : String)
  | DeleteChargeByProviderID (provider providerChargeID : String)
  | UpdatePayment (c : Client) (paymentID : String) (req : UpdatePaymentRequest)
  | DeletePayment (c : Client) (paymentID : String)
  | UpdateCustomer (c : Client) (customerID : String) (req : UpdateCustomerRequest)
deriving DecidableEq, Repr

/-- What running a handler amounts to: the response written and the calls made, in order. -/
structure Outcome where
  resp : Response
  calls : List Call
deriving DecidableEq, Repr

/-- The batches handed to `supabase.UpsertCharges`, in call order. -/
def upsertBatches (calls : List Call) : List (List IamChargeRow) :=
  calls.filterMap (fun c => match c with
    | Call.UpsertCharges rows => some rows
    | _ => none)

/-- The parameters of the `ListPayments` calls, in call order. -/
def listQueries (calls : List Call) : List Values :=
  calls.filterMap (fun c => match c with
    | Call.ListPayments _ params => some params
    | _ => none)

/-- The companies whose tenant was looked up with `supabase.GetCompanyTenantID`. -/
def tenantLookups (calls : List Call) : List String :=
  calls.filterMap (fun c => match c with
    | Call.GetCompanyTenantID companyID => some companyID
    | _ => none)

/-- The requests submitted with `client.CreatePayment`, in call order. -/
def createPayments (calls : List Call) : List (Client × CreatePaymentRequest) :=
  calls.filterMap (fun c => match c with
    | Call.CreatePayment cl req => some (cl, req)
    | _ => none)

/-- The requests submitted with `client.CreateCustomer`, in call order. -/
def createCustomers (calls : List Call) : List (Client × CreateCustomerRequest) :=
  calls.filterMap (fun c => match c with
    | Call.CreateCustomer cl req => some (cl, req)
    | _ => none)

/-- The mappings handed to `supabase.UpsertCompanyAsaasIntegration`, in call order. -/
def mappingWrites (calls : List Call) : List (String × String) :=
  calls.filterMap (fun c => match c with
    | Call.UpsertCompanyAsaasIntegration companyID asaasCustomerID =>
      some (companyID, asaasCustomerID)
    | _ => none)

/-- The credential resolutions (`supabase.GetBillingIntegrationForOffice`), in call order. -/
def credentialLookups (calls : List Call) : List (String × String) :=
  calls.filterMap (fun c => match c with
    | Call.GetBillingIntegrationForOffice office provider => some (office, provider)
    | _ => none)

/-- The rows deleted with `supabase.DeleteChargeByProviderID`, in call order. -/
def chargeDeletes (calls : List Call) : List (String × String) :=
  calls.filterMap (fun c => match c with
    | Call.DeleteChargeByProviderID provider providerChargeID =>
      some (provider, providerChargeID)
    | _ => none)

/-! ## The world outside the repository -/

/-- Why an outbound HTTP exchange produced no response: `http.NewRequest` refused the
request, or the transport failed (`HTTP.Do`). -/
inductive HttpFailure where
  | newRequest (msg : String)
  | transport (msg : String)
deriving DecidableEq, Repr

/-- The collaborators of the service: what each of them answers to a given request.
Within one run of a handler every collaborator is asked a given question at most once,
so an answer that is a function of the question loses no behaviour; a sequence of runs
over a changing store is a sequence of worlds. -/
structure World where
  /-- Go `os.Getenv`. -/
  getenv : String → String
  /-- Go `strings.ToUpper` (Unicode case mapping of the Go runtime). -/
  toUpper : String → String
  /-- Go `strings.ToLower`. -/
  toLower : String → String
  /-- The six random bytes of `newRequestID`, hex-encoded. -/
  randHex : String
  /-- Go `json.NewDecoder(r.Body).Decode(&req)` for the charge request; `none` is an error. -/
  decodeCreateChargeRequest : Bytes → Option AsaasCreateChargeRequest
  /-- Go `json.Unmarshal(body, &payment)`: the struct after the call and the error, if any. -/
  unmarshalPayment : Bytes → AsaasPaymentResponse × Option String
  /-- Go `json.Unmarshal(body, &list)`: the struct after the call and the error, if any. -/
  unmarshalPaymentsList : Bytes → AsaasPaymentsListResponse × Option String
  /-- Go `json.Unmarshal(body, &customer)`: the struct after the call and the error, if any. -/
  unmarshalCustomer : Bytes → AsaasCustomerResponse × Option String
  /-- Go `json.Unmarshal([]byte(s), &out)` for a string `out`. -/
  unmarshalString : String → String × Option String
  /-- Go `json.Unmarshal([]byte(s), &out)` for a `CompanyAsaasCustomerPayload`. -/
  unmarshalCustomerPayload : String → Except String CompanyAsaasCustomerPayload
  /-- Go `json.NewDecoder(...).Decode(&row)` for the `tenant_id` row of `companies`. -/
  decodeTenantRow : Bytes → Except String String
  /-- Go `json.Marshal(p)` of a payment object (its error is dropped by every caller). -/
  marshalPayment : AsaasPaymentResponse → Bytes
  /-- Whether `InitClient` built the `iam` schema client (`GetIAMClient() != nil`). -/
  iamClient : Bool
  /-- Whether `InitClient` built the `company` schema client. -/
  companyClient : Bool
  /-- Package variable `supabaseURL`. -/
  supabaseURL : String
  /-- Package variable `supabaseKey`. -/
  supabaseKey : String
  /-- PostgREST answer to a read query on `billing_integrations` (`ExecuteTo(&rows)`). -/
  selectBillingIntegrations : SelectQuery → Except String (List BillingIntegrationRow)
  /-- PostgREST answer to `POST /rest/v1/rpc/<name>` with the given arguments. -/
  rpcPost : String → List (String × String) → Except HttpFailure (Int × String)
  /-- PostgREST answer to the single-row `companies` query of `GetCompanyTenantID`. -/
  selectCompanyTenant : String → Except String Bytes
  /-- PostgREST answer to an upsert into `charges` (`Execute()`). -/
  upsertChargesExec : UpsertRequest → Except String Unit
  /-- Provider answer to `POST /v3/customers`. -/
  postCustomers : Client → CreateCustomerRequest → Except HttpFailure (Int × Bytes)
  /-- Provider answer to `POST /v3/payments`. -/
  postPayments : Client → CreatePaymentRequest → Except HttpFailure (Int × Bytes)
  /-- Provider answer to `GET /v3/payments?<params>`. -/
  getPayments : Client → Values → Except HttpFailure (Int × Bytes)
  /-- Provider answer to `PUT /v3/payments/<id>`. -/
  putPayment : Client → String → UpdatePaymentRequest → Except HttpFailure (Int × Bytes)
  /-- Go `json.NewDecoder(r.Body).Decode(&req)` for the customer request; `none` is an error. -/
  decodeCreateCustomerRequest : Bytes → Option AsaasCreateCustomerRequest
  /-- Go `json.NewDecoder(r.Body).Decode(&event)` for a webhook event; `none` is an error. -/
  decodeWebhookEvent : Bytes → Option AsaasWebhookEvent
  /-- Go `json.NewDecoder(r.Body).Decode(&req)` for the update request; `none` is an error. -/
  decodeUpdateChargeRequest : Bytes → Option AsaasUpdateChargeRequest
  /-- PostgREST answer to the single-row `charges` query of `GetChargeByProviderID`
  (`provider` and `provider_charge_id` equal to the arguments); no row is an error. -/
  selectCharge : String → String → Except String Bytes
  /-- Go `json.Unmarshal(data, &charge)` for a row of `iam.charges`. -/
  unmarshalChargeRow : Bytes → Except String IamChargeRow
  /-- Provider answer to `DELETE /v3/payments/<id>`. -/
  deletePayment : Client → String → Except HttpFailure (Int × Bytes)
  /-- PostgREST answer to the `charges` delete of `DeleteChargeByProviderID` (`provider` and
  `provider_charge_id` equal to the arguments). -/
  deleteChargeExec : String → String → Except String Unit
  /-- Go `json.NewDecoder(r.Body).Decode(&req)` for the customer update; `none` is an error. -/
  decodeUpdateCustomerRequest : Bytes → Option AsaasUpdateCustomerRequest
  /-- Provider answer to `PUT /v3/customers/<id>`. -/
  putCustomer : Client → String → UpdateCustomerRequest → Except HttpFailure (Int × Bytes)

/-! ## Package `supabase` -/

/-- The function `supabase.RpcPublic` (`client.go`). -/
def RpcPublic (w : World) (name : String) (body : List (String × String)) :
    Except String String :=
  if trimSpace w.supabaseURL = "" ∨ trimSpace w.supabaseKey = "" then
    .error "supabase env não configurado (SUPABASE_URL/SUPABASE_KEY)"
  else
    match w.rpcPost name body with
    | .error (.newRequest m) => .error ("erro ao criar request RPC: " ++ m)
    | .error (.transport m) => .error ("erro ao executar RPC: " ++ m)
    | .ok (status, respBody) =>
      if status < 200 ∨ status ≥ 300 then
        .error ("rpc " ++ name ++ " failed: HTTP " ++ toString status ++ ": " ++
          trimSpace respBody)
      else .ok (trimSpace respBody)

/-- `GetBillingIntegrationForOffice`, lines 34-44: the query it builds for the trimmed
office and the trimmed, upper-cased provider. -/
def GetBillingIntegrationForOffice.query (accountingOfficeID provider : String) :
    SelectQuery :=
  { table := "billing_integrations"
    columns := "id, accounting_office_id, provider, environment, base_api, token, is_active, is_default, updated_at, created_at"
    count := "exact"
    head := false
    eq := [("accounting_office_id", accountingOfficeID), ("provider", provider),
           ("is_active", "true")]
    order := [{ column := "is_default", ascending := false, nullsFirst := false },
              { column := "updated_at", ascending := false, nullsFirst := false },
              { column := "created_at", ascending := false, nullsFirst := false }]
    limit := some 1 }

/-- The function `supabase.GetBillingIntegrationForOffice`. -/
def GetBillingIntegrationForOffice (w : World) (accountingOfficeID provider : String) :
    Except String BillingIntegrationRow :=
  if !w.iamClient then .error "supabase client não inicializado"
  else
    let accountingOfficeID := trimSpace accountingOfficeID
    let provider := w.toUpper (trimSpace provider)
    if accountingOfficeID = "" then .error "accounting_office_id vazio"
    else if provider = "" then .error "provider vazio"
    else
      match w.selectBillingIntegrations
          (GetBillingIntegrationForOffice.query accountingOfficeID provider) with
      | .error e => .error e
      | .ok [] => .error "billing integration not found"
      | .ok (row :: _) => .ok row

/-- The function `supabase.GetCompanyAsaasCustomerID`. -/
def GetCompanyAsaasCustomerID (w : World) (companyID : String) : Except String String :=
  match RpcPublic w "rpc_get_company_asaas_customer_id" [("p_company_id", companyID)] with
  | .error e => .error e
  | .ok raw =>
    let s := trimSpace raw
    if s = "" ∨ s = "null" then .ok ""
    else
      let out := w.unmarshalString s
      if out.2 = none ∧ trimSpace out.1 ≠ "" then .ok out.1
      else .ok (trimChar s (Char.ofNat 0x22))

/-- The function `supabase.UpsertCompanyAsaasIntegration`. -/
def UpsertCompanyAsaasIntegration (w : World) (companyID asaasCustomerID : String) :
    Except String Unit :=
  match RpcPublic w "rpc_upsert_company_asaas_integration"
      [("p_company_id", companyID), ("p_asaas_customer_id", asaasCustomerID)] with
  | .error e => .error ("rpc_upsert_company_asaas_integration failed: " ++ e)
  | .ok _ => .ok ()

/-- The function `supabase.GetCompanyAsaasCustomerPayload`; `.ok none` is Go's `(nil, nil)`. -/
def GetCompanyAsaasCustomerPayload (w : World) (companyID : String) :
    Except String (Option CompanyAsaasCustomerPayload) :=
  let companyID := trimSpace companyID
  if companyID = "" then .error "company_id is required"
  else
    match RpcPublic w "rpc_get_company_asaas_customer_payload" [("p_company_id", companyID)] with
    | .error e => .error e
    | .ok raw =>
      let s := trimSpace raw
      if s = "" ∨ s = "null" then .ok none
      else
        match w.unmarshalCustomerPayload s with
        | .error e => .error ("invalid rpc_get_company_asaas_customer_payload response: " ++ e)
        | .ok out0 =>
          let out := { out0 with
            Name := trimSpace out0.Name, CpfCnpj := trimSpace out0.CpfCnpj,
            Email := trimSpace out0.Email, MobilePhone := trimSpace out0.MobilePhone }
          if out.Name = "" ∨ out.CpfCnpj = "" then
            .error "company payload missing name or cpfCnpj"
          else .ok (some out)

/-- The function `supabase.GetCompanyTenantID`. -/
def GetCompanyTenantID (w : World) (companyID : String) : Except String String :=
  if !w.companyClient then .error "supabase company client não inicializado"
  else
    match w.selectCompanyTenant companyID with
    | .error e => .error e
    | .ok body =>
      match w.decodeTenantRow body with
      | .error e => .error ("erro ao decodificar companies.tenant_id: " ++ e)
      | .ok tenantID =>
        if tenantID = "" then .error ("tenant_id não encontrado para company_id=" ++ companyID)
        else .ok tenantID

/-- `UpsertCharges`, lines 21-24: the upsert it builds for a batch. -/
def UpsertCharges.request (rows : List IamChargeRow) : UpsertRequest :=
  { table := "charges", rows := rows, onConflict := "tenant_id,provider,provider_charge_id"
    returning := "minimal", count := "" }

/-- The function `supabase.UpsertCharges` over the charges table `t` it writes to: its
error result and the table after the call.  `Execute()` hands the upsert to the store,
which applies it when it accepts it. -/
def UpsertCharges.over (w : World) (t : ChargesTable) (rows : List IamChargeRow) :
    Except String Unit × ChargesTable :=
  if !w.iamClient then (.error "supabase iam client não inicializado", t)
  else if rows.length = 0 then (.ok (), t)
  else
    match w.upsertChargesExec (UpsertCharges.request rows) with
    | .error e => (.error e, t)
    | .ok _ => (.ok (), t.exec (UpsertCharges.request rows))

/-- The function `supabase.UpsertCharges`: its error result, which is the same over
every table. -/
def UpsertCharges (w : World) (rows : List IamChargeRow) : Except String Unit :=
  (UpsertCharges.over w [] rows).1

/-- The function `supabase.GetChargeByProviderID`. -/
def GetChargeByProviderID (w : World) (provider providerChargeID : String) :
    Except String IamChargeRow :=
  if !w.iamClient then .error "supabase iam client não inicializado"
  else
    match w.selectCharge provider providerChargeID with
    | .error e => .error ("failed to fetch charge: " ++ e)
    | .ok data =>
      match w.unmarshalChargeRow data with
      | .error e => .error ("failed to unmarshal charge: " ++ e)
      | .ok charge => .ok charge

/-- The function `supabase.DeleteChargeByProviderID`. -/
def DeleteChargeByProviderID (w : World) (provider providerChargeID : String) :
    Except String Unit :=
  if !w.iamClient then .error "supabase iam client não inicializado"
  else
    match w.deleteChargeExec provider providerChargeID with
    | .error e => .error ("failed to delete charge: " ++ e)
    | .ok _ => .ok ()

/-! ## Package `asaas`: the provider client -/

/-- The function `asaas.NewClient`. -/
def NewClient (baseURL token : String) : Client :=
  let baseURL := trimRightChar (trimSpace baseURL) (Char.ofNat 0x2F)
  let token := trimSpace token
  let token := trimLeading token "Bearer "
  let token := trimLeading token "bearer "
  { BaseURL := baseURL, Token := trimSpace token }

/-- Turns the answer of an outbound exchange into the `(status, body, error)` result of
a client method. -/
def clientResult (r : Except HttpFailure (Int × Bytes)) : Except String (Int × Bytes) :=
  match r with
  | .error (.newRequest m) => .error ("new request: " ++ m)
  | .error (.transport m) => .error ("request failed: " ++ m)
  | .ok res => .ok res

/-- The method `(*asaas.Client).CreateCustomer`. -/
def Client.CreateCustomer (w : World) (c : Client) (req : CreateCustomerRequest) :
    Except String (Int × Bytes) :=
  if c.BaseURL = "" then .error "asaas baseURL is empty"
  else if c.Token = "" then .error "asaas token is empty"
  else clientResult (w.postCustomers c req)

/-- The method `(*asaas.Client).CreatePayment`. -/
def Client.CreatePayment (w : World) (c : Client) (req : CreatePaymentRequest) :
    Except String (Int × Bytes) :=
  if c.BaseURL = "" then .error "asaas baseURL is empty"
  else if c.Token = "" then .error "asaas token is empty"
  else if req.Customer = "" then .error "customer is required"
  else if req.BillingType = "" then .error "billingType is required"
  else if req.Value ≤ 0 then .error "value must be > 0"
  else if req.DueDate = "" then .error "dueDate is required"
  else clientResult (w.postPayments c req)

/-- The method `(*asaas.Client).UpdatePayment`. -/
def Client.UpdatePayment (w : World) (c : Client) (paymentID : String)
    (req : UpdatePaymentRequest) : Except String (Int × Bytes) :=
  if c.BaseURL = "" then .error "asaas baseURL is empty"
  else if c.Token = "" then .error "asaas token is empty"
  else if trimSpace paymentID = "" then .error "paymentID is required"
  else clientResult (w.putPayment c paymentID req)

/-- The method `(*asaas.Client).ListPayments`. -/
def Client.ListPayments (w : World) (c : Client) (params : Values) :
    Except String (Int × Bytes) :=
  if c.BaseURL = "" then .error "asaas baseURL is empty"
  else if c.Token = "" then .error "asaas token is empty"
  else clientResult (w.getPayments c params)

/-- The method `(*asaas.Client).DeletePayment`. -/
def Client.DeletePayment (w : World) (c : Client) (paymentID : String) :
    Except String (Int × Bytes) :=
  if c.BaseURL = "" then .error "asaas baseURL is empty"
  else if c.Token = "" then .error "asaas token is empty"
  else if paymentID = "" then .error "paymentID is required"
  else clientResult (w.deletePayment c paymentID)

/-- The method `(*asaas.Client).UpdateCustomer`; the identifier is trimmed before use. -/
def Client.UpdateCustomer (w : World) (c : Client) (customerID : String)
    (req : UpdateCustomerRequest) : Except String (Int × Bytes) :=
  let customerID := trimSpace customerID
  if customerID = "" then .error "asaas customerID is empty"
  else if c.BaseURL = "" then .error "asaas baseURL is empty"
  else if c.Token = "" then .error "asaas token is empty"
  else clientResult (w.putCustomer c customerID req)

/-! ## Package `handler` -/

/-- The helper `isDebugEnabled` (`asaas_customers.go`). -/
def isDebugEnabled (w : World) : Bool :=
  trimSpace (w.toLower (w.getenv "CHARGES_DEBUG")) == "true"

/-- The helper `newRequestID` (`asaas_charges.go`). -/
def newRequestID (w : World) : String := w.randHex

/-- The helper `normalizeProvider` (`asaas_customers.go`).  `strings.IndexByte(p, 0x5F)`
followed by `p[:i]` keeps the characters before the first underscore, when there are any. -/
def normalizeProvider (w : World) (p : String) : String :=
  let p := w.toUpper (trimSpace p)
  if "ASSAS".data.isPrefixOf p.data || "ASAAS".data.isPrefixOf p.data then "ASAAS"
  else
    let head := p.data.takeWhile (fun c => c != Char.ofNat 0x5F)
    if p.data.contains (Char.ofNat 0x5F) && 0 < head.length then ⟨head⟩ else p

/-- The helper `mapCreatePaymentRequest` (`asaas_charges.go`). -/
def mapCreatePaymentRequest (asaasCustomerID : String) (req : AsaasCreateChargeRequest) :
    CreatePaymentRequest :=
  { Customer := asaasCustomerID
    BillingType := req.BillingType
    Value := req.Value
    DueDate := req.DueDate
    Description := req.Description
    DaysAfterDueDateToRegistrationCancellation := req.DaysAfterDueDateToRegistrationCancellation
    ExternalReference := req.ExternalReference
    InstallmentCount := req.InstallmentCount
    TotalValue := req.TotalValue
    InstallmentValue := req.InstallmentValue
    PostalService := req.PostalService
    Discount := match req.Discount with
      | some d => some { Value := d.Value, DueDateLimitDays := d.DueDateLimitDays, Type_ := d.Type_ }
      | none => none
    Interest := match req.Interest with
      | some i => some { Value := i.Value }
      | none => none
    Fine := match req.Fine with
      | some f => some { Value := f.Value, Type_ := f.Type_ }
      | none => none }

/-- `CreateAsaasCharge`, lines 243-321: the row built from one listed payment `p`. -/
def CreateAsaasCharge.rowOfPayment (w : World)
    (tenantID accountingOfficeID companyID contractID : String) (p : AsaasPaymentResponse) :
    IamChargeRow :=
  let desc := trimSpace p.Description
  let descPtr := if desc ≠ "" then some desc else none
  let bt := trimSpace p.BillingType
  let btPtr := if bt ≠ "" then some bt else none
  let st := trimSpace p.Status
  let stPtr := if st ≠ "" then some st else none
  let due := trimSpace p.DueDate
  let duePtr := if due ≠ "" then some due else none
  let odue := trimSpace p.OriginalDueDate
  let oduePtr := if odue ≠ "" then some odue else none
  let iurl := trimSpace p.InvoiceURL
  let iurlPtr := if iurl ≠ "" then some iurl else none
  let inum := trimSpace p.InvoiceNumber
  let inumPtr := if inum ≠ "" then some inum else none
  let eref := trimSpace p.ExternalReference
  let erefPtr := if eref ≠ "" then some eref else none
  let netPtr := if p.NetValue ≠ 0 then some p.NetValue else none
  let instNumPtr := if p.InstallmentNumber ≠ 0 then some p.InstallmentNumber else none
  let instIDPtr := if trimSpace p.Installment ≠ "" then some (trimSpace p.Installment) else none
  let payload := w.marshalPayment p
  { TenantID := tenantID
    AccountingOfficeID := accountingOfficeID
    CompanyID := companyID
    ContractID := contractID
    Provider := "ASAAS"
    ProviderChargeID := p.ID
    ProviderInstallmentID := instIDPtr
    InstallmentNumber := instNumPtr
    Value := p.Value
    NetValue := netPtr
    Description := descPtr
    BillingType := btPtr
    Status := stPtr
    DueDate := duePtr
    OriginalDueDate := oduePtr
    InvoiceURL := iurlPtr
    InvoiceNumber := inumPtr
    ExternalReference := erefPtr
    ProviderPayload := payload }

/-- `CreateAsaasCharge`, lines 237-322: the loop over `list.Data`, which skips (`continue`)
the payments whose id is blank and appends one row for each of the others. -/
def CreateAsaasCharge.rowsOfList (w : World)
    (tenantID accountingOfficeID companyID contractID : String)
    (data : List AsaasPaymentResponse) : List IamChargeRow :=
  data.foldl (fun rows p =>
    if trimSpace p.ID = "" then rows
    else rows ++ [CreateAsaasCharge.rowOfPayment w tenantID accountingOfficeID companyID
      contractID p]) []

/-- `CreateAsaasCharge`, lines 326-336: the row built from the created payment itself. -/
def CreateAsaasCharge.rowOfCreated (w : World)
    (tenantID accountingOfficeID companyID contractID : String)
    (created : AsaasPaymentResponse) : IamChargeRow :=
  { TenantID := tenantID
    AccountingOfficeID := accountingOfficeID
    CompanyID := companyID
    ContractID := contractID
    Provider := "ASAAS"
    ProviderChargeID := created.ID
    Value := created.Value
    ProviderPayload := w.marshalPayment created }

/-- `CreateAsaasCharge`, lines 237-337: the rows handed to `UpsertCharges`: one per listed
payment with a non-blank id and, when there is none (`len(rows) == 0`) and the created
payment has a non-blank id, the row of the created payment. -/
def CreateAsaasCharge.rowsToPersist (w : World)
    (tenantID accountingOfficeID companyID contractID : String)
    (created : AsaasPaymentResponse) (data : List AsaasPaymentResponse) : List IamChargeRow :=
  let rows := CreateAsaasCharge.rowsOfList w tenantID accountingOfficeID companyID
    contractID data
  if rows.length = 0 ∧ trimSpace created.ID ≠ "" then
    rows ++ [CreateAsaasCharge.rowOfCreated w tenantID accountingOfficeID companyID
      contractID created]
  else rows

/-- `CreateAsaasCharge`, lines 202-214: the parameters of the list call after a create.
The last branch of the source (`else if strings.TrimSpace(created.ID) != ""`) has an
empty body and adds no parameter. -/
def CreateAsaasCharge.listParams (asaasCustomerID : String) (created : AsaasPaymentResponse)
    (req : AsaasCreateChargeRequest) : Values :=
  let params : Values := []
  let params := params.set "customer" asaasCustomerID
  let params := params.set "limit" "100"
  let params := params.set "offset" "0"
  if trimSpace created.Installment ≠ "" then params.set "installment" created.Installment
  else
    match req.ExternalReference with
    | some ref =>
      if trimSpace ref ≠ "" then params.set "externalReference" (trimSpace ref) else params
    | none => params

/-- `CreateAsaasCharge`, lines 197-351: what happens once the provider accepted the charge
with `body`.  The first component is the response of an early `return`, or `none` when
control reaches the pass-through of line 353. -/
def CreateAsaasCharge.persist (w : World) (client : Client)
    (accountingOfficeID companyID contractID asaasCustomerID : String)
    (req : AsaasCreateChargeRequest) (body : Bytes) : Option Response × List Call :=
  let created := (w.unmarshalPayment body).1
  let params := CreateAsaasCharge.listParams asaasCustomerID created req
  match client.ListPayments w params with
  | .error _ =>
    (some (writeJSON StatusBadGateway [("error", .str "failed to list charges after create")]),
      [Call.ListPayments client params])
  | .ok (_, listBody) =>
    let list := (w.unmarshalPaymentsList listBody).1
    match GetCompanyTenantID w companyID with
    | .error _ =>
      (some (writeJSON StatusBadGateway [("error", .str "failed to resolve tenant for company")]),
        [Call.ListPayments client params, Call.GetCompanyTenantID companyID])
    | .ok tenantID =>
      let rows := CreateAsaasCharge.rowsToPersist w tenantID accountingOfficeID companyID
        contractID created list.Data
      let calls := [Call.ListPayments client params, Call.GetCompanyTenantID companyID,
        Call.UpsertCharges rows]
      match UpsertCharges w rows with
      | .error e =>
        if isDebugEnabled w then
          (some (writeJSON StatusBadGateway
            [("error", .str "failed to persist charges"), ("details", .str e)]), calls)
        else
          (some (writeJSON StatusBadGateway [("error", .str "failed to persist charges")]), calls)
      | .ok _ => (none, calls)

/-- `CreateAsaasCharge`, lines 182-357: submit the charge to the provider, persist the
rows when it is accepted, and pass the provider payload through. -/
def CreateAsaasCharge.submit (w : World) (client : Client)
    (accountingOfficeID companyID contractID asaasCustomerID : String)
    (req : AsaasCreateChargeRequest) : Outcome :=
  let preq := mapCreatePaymentRequest asaasCustomerID req
  match client.CreatePayment w preq with
  | .error e =>
    { resp := writeJSON StatusBadGateway [("error", .str e)]
      calls := [Call.CreatePayment client preq] }
  | .ok (status, body) =>
    if status ≥ 200 ∧ status < 300 then
      match CreateAsaasCharge.persist w client accountingOfficeID companyID contractID
          asaasCustomerID req body with
      | (some early, calls) =>
        { resp := early, calls := Call.CreatePayment client preq :: calls }
      | (none, calls) =>
        { resp := { contentType := "application/json", status := status, body := .raw body }
          calls := Call.CreatePayment client preq :: calls }
    else
      { resp := { contentType := "application/json", status := status, body := .raw body }
        calls := [Call.CreatePayment client preq] }

/-- `CreateAsaasCharge`, lines 107-180: the provider customer id of the company, created
at the provider and stored when no mapping exists yet.  `.error resp` is an early `return`
that wrote `resp`. -/
def CreateAsaasCharge.resolveCustomer (w : World) (client : Client) (rid companyID : String) :
    Except Response String × List Call :=
  let lookup := Call.GetCompanyAsaasCustomerID companyID
  match GetCompanyAsaasCustomerID w companyID with
  | .error _ =>
    (.error (writeJSON StatusBadGateway [("error", .str "failed to resolve asaas customer id")]),
      [lookup])
  | .ok asaasCustomerID =>
    if trimSpace asaasCustomerID = "" then
      let load := Call.GetCompanyAsaasCustomerPayload companyID
      match GetCompanyAsaasCustomerPayload w companyID with
      | .error _ =>
        (.error (writeJSON StatusBadGateway
          [("error", .str "failed to load company data to create asaas customer")]),
          [lookup, load])
      | .ok none =>
        (.error (writeJSON StatusNotFound
          [("error", .str "company not found to create asaas customer")]), [lookup, load])
      | .ok (some payload) =>
        let creq : CreateCustomerRequest :=
          { Name := payload.Name
            CpfCnpj := payload.CpfCnpj
            Email := payload.Email
            MobilePhone := payload.MobilePhone
            NotificationDisabled := payload.NotificationDisabled
            Company := payload.Company }
        let create := Call.CreateCustomer client creq
        match client.CreateCustomer w creq with
        | .error e =>
          (.error (writeJSON StatusBadGateway [("error", .str e)]), [lookup, load, create])
        | .ok (cStatus, cBody) =>
          if cStatus < 200 ∨ cStatus ≥ 300 then
            (.error { contentType := "application/json", status := cStatus, body := .raw cBody },
              [lookup, load, create])
          else
            let createdCustomer := w.unmarshalCustomer cBody
            if createdCustomer.2 ≠ none ∨ trimSpace createdCustomer.1.ID = "" then
              (.error (writeJSON StatusBadGateway
                [("error", .str "invalid asaas response (missing customer id)")]),
                [lookup, load, create])
            else
              let store := Call.UpsertCompanyAsaasIntegration companyID createdCustomer.1.ID
              match UpsertCompanyAsaasIntegration w companyID createdCustomer.1.ID with
              | .error e =>
                if isDebugEnabled w then
                  (.error (writeJSON StatusBadGateway
                    [("error", .str "failed to persist asaas integration"),
                     ("details", .str e), ("request_id", .str rid)]),
                    [lookup, load, create, store])
                else
                  (.error (writeJSON StatusBadGateway
                    [("error", .str "failed to persist asaas integration"),
                     ("request_id", .str rid)]),
                    [lookup, load, create, store])
              | .ok _ => (.ok createdCustomer.1.ID, [lookup, load, create, store])
    else (.ok asaasCustomerID, [lookup])

/-- The handler `CreateAsaasCharge` (`POST /v1/asaas/charges`). -/
def CreateAsaasCharge (w : World) (r : Request) : Outcome :=
  let rid := newRequestID w
  let accountingOfficeID := trimSpace (r.query.get "accounting_office_id")
  if accountingOfficeID = "" then
    { resp := writeJSON StatusBadRequest [("error", .str "accounting_office_id is required")]
      calls := [] }
  else
  let companyID := trimSpace (r.query.get "company_id")
  if companyID = "" then
    { resp := writeJSON StatusBadRequest [("error", .str "company_id is required")]
      calls := [] }
  else
  let contractID := trimSpace (r.query.get "contract_id")
  if contractID = "" then
    { resp := writeJSON StatusBadRequest [("error", .str "contract_id is required")]
      calls := [] }
  else
  match w.decodeCreateChargeRequest r.body with
  | none =>
    { resp := writeJSON StatusBadRequest [("error", .str "invalid json body")], calls := [] }
  | some decoded =>
    let req := { decoded with DueDate := trimSpace decoded.DueDate }
    if trimSpace req.BillingType = "" then
      { resp := writeJSON StatusBadRequest [("error", .str "billingType is required")]
        calls := [] }
    else if req.Value ≤ 0 then
      { resp := writeJSON StatusBadRequest [("error", .str "value must be > 0")], calls := [] }
    else if req.DueDate = "" then
      { resp := writeJSON StatusBadRequest [("error", .str "dueDate is required")], calls := [] }
    else
      let resolve := Call.GetBillingIntegrationForOffice accountingOfficeID
        (normalizeProvider w "ASAAS")
      match GetBillingIntegrationForOffice w accountingOfficeID (normalizeProvider w "ASAAS") with
      | .error _ =>
        { resp := writeJSON StatusNotFound
            [("error", .str "billing integration not found for office/provider")]
          calls := [resolve] }
      | .ok cfg =>
        if trimSpace cfg.BaseAPI = "" ∨ trimSpace cfg.Token = "" then
          { resp := writeJSON StatusBadRequest
              [("error", .str "integration config missing base_api or token")]
            calls := [resolve] }
        else
          let client := NewClient cfg.BaseAPI cfg.Token
          match CreateAsaasCharge.resolveCustomer w client rid companyID with
          | (.error early, calls) => { resp := early, calls := resolve :: calls }
          | (.ok asaasCustomerID, calls) =>
            let o := CreateAsaasCharge.submit w client accountingOfficeID companyID contractID
              asaasCustomerID req
            { resp := o.resp, calls := resolve :: (calls ++ o.calls) }


/-- `CreateAsaasCustomer`, lines 131-216: resolve the credential, create the customer at
the provider and, on a 2xx answer, store the mapping before passing the payload through. -/
def CreateAsaasCustomer.create (w : World) (accountingOfficeID companyID : String)
    (req : AsaasCreateCustomerRequest) : Outcome :=
  let resolve := Call.GetBillingIntegrationForOffice accountingOfficeID
    (normalizeProvider w "ASAAS")
  match GetBillingIntegrationForOffice w accountingOfficeID (normalizeProvider w "ASAAS") with
  | .error _ =>
    { resp := writeJSON StatusNotFound
        [("error", .str "billing integration not found for office/provider")]
      calls := [resolve] }
  | .ok cfg =>
    if trimSpace cfg.BaseAPI = "" ∨ trimSpace cfg.Token = "" then
      { resp := writeJSON StatusBadRequest
          [("error", .str "integration config missing base_api or token")]
        calls := [resolve] }
    else
      let client := NewClient cfg.BaseAPI cfg.Token
      let creq : CreateCustomerRequest :=
        { Name := req.Name
          CpfCnpj := req.CpfCnpj
          Email := req.Email
          MobilePhone := req.MobilePhone
          NotificationDisabled := req.NotificationDisabled
          Company := req.Company }
      let create := Call.CreateCustomer client creq
      match client.CreateCustomer w creq with
      | .error e =>
        { resp := writeJSON StatusBadGateway [("error", .str e)], calls := [resolve, create] }
      | .ok (status, body) =>
        if status ≥ 200 ∧ status < 300 then
          let asaasResp := w.unmarshalCustomer body
          if asaasResp.2 ≠ none ∨ trimSpace asaasResp.1.ID = "" then
            { resp := writeJSON StatusBadGateway
                [("error", .str "invalid asaas response (missing id)")]
              calls := [resolve, create] }
          else
            let store := Call.UpsertCompanyAsaasIntegration companyID asaasResp.1.ID
            match UpsertCompanyAsaasIntegration w companyID asaasResp.1.ID with
            | .error e =>
              if isDebugEnabled w then
                { resp := writeJSON StatusBadGateway
                    [("error", .str "failed to persist asaas integration"), ("details", .str e)]
                  calls := [resolve, create, store] }
              else
                { resp := writeJSON StatusBadGateway
                    [("error", .str "failed to persist asaas integration")]
                  calls := [resolve, create, store] }
            | .ok _ =>
              { resp := { contentType := "application/json", status := status, body := .raw body }
                calls := [resolve, create, store] }
        else
          { resp := { contentType := "application/json", status := status, body := .raw body }
            calls := [resolve, create] }

/-- The handler `CreateAsaasCustomer` (`POST /v1/asaas/customers`). -/
def CreateAsaasCustomer (w : World) (r : Request) : Outcome :=
  let accountingOfficeID := trimSpace (r.query.get "accounting_office_id")
  if accountingOfficeID = "" then
    { resp := writeJSON StatusBadRequest [("error", .str "accounting_office_id is required")]
      calls := [] }
  else
  let companyID := trimSpace (r.query.get "company_id")
  if companyID = "" then
    { resp := writeJSON StatusBadRequest [("error", .str "company_id is required")]
      calls := [] }
  else
  match w.decodeCreateCustomerRequest r.body with
  | none =>
    { resp := writeJSON StatusBadRequest [("error", .str "invalid json body")], calls := [] }
  | some decoded =>
    let req := { decoded with
      Name := trimSpace decoded.Name, CpfCnpj := trimSpace decoded.CpfCnpj,
      Email := trimSpace decoded.Email, MobilePhone := trimSpace decoded.MobilePhone }
    if req.Name = "" ∨ req.CpfCnpj = "" then
      { resp := writeJSON StatusBadRequest [("error", .str "name and cpfCnpj are required")]
        calls := [] }
    else
      let lookup := Call.GetCompanyAsaasCustomerID companyID
      match GetCompanyAsaasCustomerID w companyID with
      | .error _ =>
        let o := CreateAsaasCustomer.create w accountingOfficeID companyID req
        { resp := o.resp, calls := lookup :: o.calls }
      | .ok existingCustomerID =>
        if trimSpace existingCustomerID ≠ "" then
          { resp := writeJSON StatusConflict
              [("error", .str "asaas integration already exists for this company (current tenant)"),
               ("asaas_customer_id", .str existingCustomerID)]
            calls := [lookup] }
        else
          let o := CreateAsaasCustomer.create w accountingOfficeID companyID req
          { resp := o.resp, calls := lookup :: o.calls }

/-- `updateChargeFromWebhook`, lines 107-151: the row built from the payment `p` of the
event and the existing row of the same provider charge id. -/
def updateChargeFromWebhook.row (w : World) (p : AsaasPaymentResponse)
    (existingCharge : IamChargeRow) : IamChargeRow :=
  { Provider := "ASAAS"
    ProviderChargeID := p.ID
    Value := p.Value
    NetValue := some p.NetValue
    Description := some p.Description
    BillingType := some p.BillingType
    Status := some p.Status
    DueDate := some p.DueDate
    OriginalDueDate := some p.OriginalDueDate
    InvoiceURL := some p.InvoiceURL
    InvoiceNumber := some p.InvoiceNumber
    ExternalReference := some p.ExternalReference
    ProviderPayload := w.marshalPayment p
    TenantID := existingCharge.TenantID
    AccountingOfficeID := existingCharge.AccountingOfficeID
    CompanyID := existingCharge.CompanyID
    ContractID := existingCharge.ContractID
    InstallmentNumber := existingCharge.InstallmentNumber
    ProviderInstallmentID := existingCharge.ProviderInstallmentID }

/-- The function `updateChargeFromWebhook` (`asaas_webhook.go`): its `error` result and the
calls it made. -/
def updateChargeFromWebhook (w : World) (event : AsaasWebhookEvent) :
    Except String Unit × List Call :=
  match event.Payment with
  | none => (.ok (), [])
  | some p =>
    let lookup := Call.GetChargeByProviderID "ASAAS" p.ID
    match GetChargeByProviderID w "ASAAS" p.ID with
    | .error _ => (.ok (), [lookup])
    | .ok existingCharge =>
      let charge := updateChargeFromWebhook.row w p existingCharge
      match UpsertCharges w [charge] with
      | .error e => (.error e, [lookup, Call.UpsertCharges [charge]])
      | .ok _ => (.ok (), [lookup, Call.UpsertCharges [charge]])

/-- The handler `ReceiveAsaasWebhook` (`POST /asaas/feecharges`).  The acknowledgements are
written with `w.WriteHeader` and the JSON encoder without a content type of their own. -/
def ReceiveAsaasWebhook (w : World) (r : Request) : Outcome :=
  let expectedToken := w.getenv "ASAAS_WEBHOOK_SECRET"
  if expectedToken ≠ "" ∧ r.headerGet "asaas-access-token" ≠ expectedToken then
    { resp := httpError "\x7b\"error\":\"Unauthorized\"\x7d" StatusUnauthorized, calls := [] }
  else
    match w.decodeWebhookEvent r.body with
    | none =>
      { resp := httpError "\x7b\"error\":\"Invalid JSON\"\x7d" StatusBadRequest, calls := [] }
    | some event =>
      match event.Payment with
      | none =>
        { resp :=
            { contentType := "", status := StatusOK
              body := .json [("received", .bool true), ("processed", .bool false),
                ("reason", .str "no_payment_object")] }
          calls := [] }
      | some payment =>
        match updateChargeFromWebhook w event with
        | (.error _, calls) =>
          { resp := httpError "\x7b\"error\":\"Failed to update charge\"\x7d"
              StatusInternalServerError
            calls := calls }
        | (.ok _, calls) =>
          { resp :=
              { contentType := "", status := StatusOK
                body := .json [("received", .bool true), ("processed", .bool true),
                  ("payment_id", .str payment.ID), ("status", .str payment.Status)] }
            calls := calls }

/-- The helper `mapUpdatePaymentRequest` (`asaas_charges_update.go`). -/
def mapUpdatePaymentRequest (req : AsaasUpdateChargeRequest) : UpdatePaymentRequest :=
  { BillingType := match req.BillingType with
      | some bt => some bt
      | none => none
    Value := req.Value
    DueDate := req.DueDate
    Description := req.Description
    DaysAfterDueDateToRegistrationCancellation := req.DaysAfterDueDateToRegistrationCancellation
    ExternalReference := req.ExternalReference
    PostalService := req.PostalService
    Callback := req.Callback
    Discount := match req.Discount with
      | some d => some { Value := d.Value, DueDateLimitDays := d.DueDateLimitDays, Type_ := d.Type_ }
      | none => none
    Interest := match req.Interest with
      | some i => some { Value := i.Value }
      | none => none
    Fine := match req.Fine with
      | some f => some { Value := f.Value, Type_ := f.Type_ }
      | none => none
    Split :=
      if req.Split.length > 0 then
        req.Split.map (fun sp =>
          { WalletID := sp.WalletID
            FixedValue := sp.FixedValue
            PercentualValue := sp.PercentualValue
            ExternalReference := sp.ExternalReference
            Description := sp.Description })
      else [] }

/-- `UpdateAsaasCharge`, lines 105-174: the row built from the updated payment and the
existing row `charge`. -/
def UpdateAsaasCharge.row (w : World) (updated : AsaasPaymentResponse) (charge : IamChargeRow) :
    IamChargeRow :=
  let desc := trimSpace updated.Description
  let descPtr := if desc ≠ "" then some desc else none
  let bt := trimSpace updated.BillingType
  let btPtr := if bt ≠ "" then some bt else none
  let st := trimSpace updated.Status
  let stPtr := if st ≠ "" then some st else none
  let due := trimSpace updated.DueDate
  let duePtr := if due ≠ "" then some due else none
  let odue := trimSpace updated.OriginalDueDate
  let oduePtr := if odue ≠ "" then some odue else none
  let iurl := trimSpace updated.InvoiceURL
  let iurlPtr := if iurl ≠ "" then some iurl else none
  let inum := trimSpace updated.InvoiceNumber
  let inumPtr := if inum ≠ "" then some inum else none
  let eref := trimSpace updated.ExternalReference
  let erefPtr := if eref ≠ "" then some eref else none
  let netPtr := if updated.NetValue ≠ 0 then some updated.NetValue else none
  let payload := w.marshalPayment updated
  { TenantID := charge.TenantID
    AccountingOfficeID := charge.AccountingOfficeID
    CompanyID := charge.CompanyID
    ContractID := charge.ContractID
    Provider := "ASAAS"
    ProviderChargeID := updated.ID
    Value := updated.Value
    NetValue := netPtr
    Description := descPtr
    BillingType := btPtr
    Status := stPtr
    DueDate := duePtr
    OriginalDueDate := oduePtr
    InvoiceURL := iurlPtr
    InvoiceNumber := inumPtr
    ExternalReference := erefPtr
    ProviderPayload := payload }

/-- `UpdateAsaasCharge`, lines 95-184: the calls that mirror an accepted update into
`iam.charges`.  Nothing here changes the response: both failures are non-fatal. -/
def UpdateAsaasCharge.sync (w : World) (body : Bytes) : List Call :=
  let updated := w.unmarshalPayment body
  if updated.2 = none ∧ trimSpace updated.1.ID ≠ "" then
    let lookup := Call.GetChargeByProviderID "ASAAS" updated.1.ID
    match GetChargeByProviderID w "ASAAS" updated.1.ID with
    | .error _ => [lookup]
    | .ok charge => [lookup, Call.UpsertCharges [UpdateAsaasCharge.row w updated.1 charge]]
  else []

/-- The handler `UpdateAsaasCharge` (`PUT /v1/asaas/charges/<id>`). -/
def UpdateAsaasCharge (w : World) (r : Request) : Outcome :=
  let paymentID := trimSpace (r.urlParams.get "id")
  if paymentID = "" then
    { resp := writeJSON StatusBadRequest [("error", .str "payment id is required")], calls := [] }
  else
  let accountingOfficeID := trimSpace (r.query.get "accounting_office_id")
  if accountingOfficeID = "" then
    { resp := writeJSON StatusBadRequest [("error", .str "accounting_office_id is required")]
      calls := [] }
  else
  match w.decodeUpdateChargeRequest r.body with
  | none =>
    { resp := writeJSON StatusBadRequest [("error", .str "invalid json body")], calls := [] }
  | some req =>
    let resolve := Call.GetBillingIntegrationForOffice accountingOfficeID
      (normalizeProvider w "ASAAS")
    match GetBillingIntegrationForOffice w accountingOfficeID (normalizeProvider w "ASAAS") with
    | .error _ =>
      { resp := writeJSON StatusNotFound
          [("error", .str "billing integration not found for office/provider")]
        calls := [resolve] }
    | .ok cfg =>
      if trimSpace cfg.BaseAPI = "" ∨ trimSpace cfg.Token = "" then
        { resp := writeJSON StatusBadRequest
            [("error", .str "integration config missing base_api or token")]
          calls := [resolve] }
      else
        let client := NewClient cfg.BaseAPI cfg.Token
        let updateReq := mapUpdatePaymentRequest req
        let update := Call.UpdatePayment client paymentID updateReq
        match client.UpdatePayment w paymentID updateReq with
        | .error e =>
          { resp := writeJSON StatusBadGateway [("error", .str e)], calls := [resolve, update] }
        | .ok (status, body) =>
          let calls :=
            if status ≥ 200 ∧ status < 300 then UpdateAsaasCharge.sync w body else []
          { resp := { contentType := "application/json", status := status, body := .raw body }
            calls := resolve :: update :: calls }

/-- The handler `DeleteAsaasCharge` (`DELETE /v1/asaas/charges/<id>`).  Its failures are
written with `http.Error`; the identifier of the payment is used as the router bound it. -/
def DeleteAsaasCharge (w : World) (r : Request) : Outcome :=
  let paymentID := r.urlParams.get "id"
  if paymentID = "" then
    { resp := httpError "\x7b\"error\":\"payment ID is required\"\x7d" StatusBadRequest
      calls := [] }
  else
  let accountingOfficeID := trimSpace (r.query.get "accounting_office_id")
  if accountingOfficeID = "" then
    { resp := httpError "\x7b\"error\":\"accounting_office_id is required\"\x7d"
        StatusBadRequest
      calls := [] }
  else
    let resolve := Call.GetBillingIntegrationForOffice accountingOfficeID
      (normalizeProvider w "ASAAS")
    match GetBillingIntegrationForOffice w accountingOfficeID (normalizeProvider w "ASAAS") with
    | .error _ =>
      { resp := httpError "\x7b\"error\":\"billing integration not found\"\x7d"
          StatusInternalServerError
        calls := [resolve] }
    | .ok integration =>
      let asaasClient := NewClient integration.BaseAPI integration.Token
      let delete := Call.DeletePayment asaasClient paymentID
      match asaasClient.DeletePayment w paymentID with
      | .error e =>
        { resp := httpError ("\x7b\"error\":\"failed to delete payment: " ++ e ++ "\"\x7d")
            StatusInternalServerError
          calls := [resolve, delete] }
      | .ok (statusCode, body) =>
        if statusCode ≠ StatusOK ∧ statusCode ≠ StatusNoContent then
          { resp := httpError body statusCode, calls := [resolve, delete] }
        else
          { resp :=
              { contentType := "application/json"
                status := StatusOK
                body := Body.json
                  [("success", .bool true),
                   ("message", .str "Cobrança excluída com sucesso"),
                   ("id", .str paymentID)] }
            calls := [resolve, delete, Call.DeleteChargeByProviderID "ASAAS" paymentID] }

/-- `UpdateAsaasCustomerByID` and `UpdateAsaasCustomerByCompanyID`, lines 42-56 and
170-184: the text fields of the decoded request, trimmed. -/
def UpdateAsaasCustomer.trimmed (req : AsaasUpdateCustomerRequest) :
    AsaasUpdateCustomerRequest :=
  { req with
    Name := trimSpace req.Name
    CpfCnpj := trimSpace req.CpfCnpj
    Email := trimSpace req.Email
    Phone := trimSpace req.Phone
    MobilePhone := trimSpace req.MobilePhone
    Address := trimSpace req.Address
    AddressNumber := trimSpace req.AddressNumber
    Complement := trimSpace req.Complement
    Province := trimSpace req.Province
    State := trimSpace req.State
    Country := trimSpace req.Country
    PostalCode := trimSpace req.PostalCode
    AdditionalEmails := trimSpace req.AdditionalEmails
    ExternalReference := trimSpace req.ExternalReference
    Observations := trimSpace req.Observations }

/-- `UpdateAsaasCustomerByID` and `UpdateAsaasCustomerByCompanyID`, lines 59-78 and
186-205: the condition under which the trimmed request is refused as an empty update. -/
def UpdateAsaasCustomer.isEmpty (req : AsaasUpdateCustomerRequest) : Bool :=
  req.Name == "" &&
  req.CpfCnpj == "" &&
  req.Email == "" &&
  req.Phone == "" &&
  req.MobilePhone == "" &&
  req.Address == "" &&
  req.AddressNumber == "" &&
  req.Complement == "" &&
  req.Province == "" &&
  req.City == none &&
  req.State == "" &&
  req.Country == "" &&
  req.PostalCode == "" &&
  req.AdditionalEmails == "" &&
  req.ExternalReference == "" &&
  req.Observations == "" &&
  req.PersonType == "" &&
  req.NotificationDisabled == none &&
  req.Company == none &&
  req.ForeignCustomer == none

/-- `UpdateAsaasCustomerByID` and `UpdateAsaasCustomerByCompanyID`, lines 100-121 and
238-259: the provider request built from the trimmed request. -/
def UpdateAsaasCustomer.request (req : AsaasUpdateCustomerRequest) : UpdateCustomerRequest :=
  { Name := req.Name
    CpfCnpj := req.CpfCnpj
    Email := req.Email
    Phone := req.Phone
    MobilePhone := req.MobilePhone
    Address := req.Address
    AddressNumber := req.AddressNumber
    Complement := req.Complement
    Province := req.Province
    City := req.City
    State := req.State
    Country := req.Country
    PostalCode := req.PostalCode
    AdditionalEmails := req.AdditionalEmails
    ExternalReference := req.ExternalReference
    Observations := req.Observations
    PersonType := req.PersonType
    NotificationDisabled := req.NotificationDisabled
    Company := req.Company
    ForeignCustomer := req.ForeignCustomer }

/-- `UpdateAsaasCustomerByID` and `UpdateAsaasCustomerByCompanyID`, lines 89-137 and
227-275: credential resolution and the update call for the provider customer
`customerID`, whose answer is passed through. -/
def UpdateAsaasCustomer.send (w : World) (accountingOfficeID customerID : String)
    (req : AsaasUpdateCustomerRequest) : Outcome :=
  let resolve := Call.GetBillingIntegrationForOffice accountingOfficeID
    (normalizeProvider w "ASAAS")
  match GetBillingIntegrationForOffice w accountingOfficeID (normalizeProvider w "ASAAS") with
  | .error _ =>
    { resp := writeJSON StatusNotFound
        [("error", .str "billing integration not found for office/provider")]
      calls := [resolve] }
  | .ok cfg =>
    if trimSpace cfg.BaseAPI = "" ∨ trimSpace cfg.Token = "" then
      { resp := writeJSON StatusBadRequest
          [("error", .str "integration config missing base_api or token")]
        calls := [resolve] }
    else
      let client := NewClient cfg.BaseAPI cfg.Token
      let update := Call.UpdateCustomer client customerID (UpdateAsaasCustomer.request req)
      match client.UpdateCustomer w customerID (UpdateAsaasCustomer.request req) with
      | .error e =>
        { resp := writeJSON StatusBadGateway [("error", .str e)], calls := [resolve, update] }
      | .ok (status, body) =>
        { resp := { contentType := "application/json", status := status, body := .raw body }
          calls := [resolve, update] }

/-- The handler `UpdateAsaasCustomerByID` (`PUT /v1/asaas/customers/<id>`). -/
def UpdateAsaasCustomerByID (w : World) (r : Request) : Outcome :=
  let accountingOfficeID := trimSpace (r.query.get "accounting_office_id")
  if accountingOfficeID = "" then
    { resp := writeJSON StatusBadRequest [("error", .str "accounting_office_id is required")]
      calls := [] }
  else
  let customerID := trimSpace (r.urlParams.get "id")
  if customerID = "" then
    { resp := writeJSON StatusBadRequest [("error", .str "id is required")], calls := [] }
  else
  match w.decodeUpdateCustomerRequest r.body with
  | none =>
    { resp := writeJSON StatusBadRequest [("error", .str "invalid json body")], calls := [] }
  | some decoded =>
    let req := UpdateAsaasCustomer.trimmed decoded
    if UpdateAsaasCustomer.isEmpty req then
      { resp := writeJSON StatusBadRequest
          [("error", .str "at least one field is required to update")]
        calls := [] }
    else UpdateAsaasCustomer.send w accountingOfficeID customerID req

/-- The handler `UpdateAsaasCustomerByCompanyID` (`PUT /v1/asaas/customers/by-company`). -/
def UpdateAsaasCustomerByCompanyID (w : World) (r : Request) : Outcome :=
  let accountingOfficeID := trimSpace (r.query.get "accounting_office_id")
  if accountingOfficeID = "" then
    { resp := writeJSON StatusBadRequest [("error", .str "accounting_office_id is required")]
      calls := [] }
  else
  let companyID := trimSpace (r.query.get "company_id")
  if companyID = "" then
    { resp := writeJSON StatusBadRequest [("error", .str "company_id is required")]
      calls := [] }
  else
  match w.decodeUpdateCustomerRequest r.body with
  | none =>
    { resp := writeJSON StatusBadRequest [("error", .str "invalid json body")], calls := [] }
  | some decoded =>
    let req := UpdateAsaasCustomer.trimmed decoded
    if UpdateAsaasCustomer.isEmpty req then
      { resp := writeJSON StatusBadRequest
          [("error", .str "at least one field is required to update")]
        calls := [] }
    else
      let lookup := Call.GetCompanyAsaasCustomerID companyID
      match GetCompanyAsaasCustomerID w companyID with
      | .error _ =>
        { resp := writeJSON StatusBadGateway
            [("error", .str "failed to resolve asaas customer id")]
          calls := [lookup] }
      | .ok asaasCustomerID =>
        if trimSpace asaasCustomerID = "" then
          { resp := writeJSON StatusNotFound
              [("error", .str "asaas integration not found for this company (current tenant)")]
            calls := [lookup] }
        else
          let o := UpdateAsaasCustomer.send w accountingOfficeID asaasCustomerID req
          { resp := o.resp, calls := lookup :: o.calls }

/-- The answer of `DeleteAsaasCharge` to a deletion that the provider accepted (lines
76-83): status 200 with `success`, the message and the identifier of the payment. -/
def deletedResponse (paymentID : String) : Response :=
  { contentType := "application/json"
    status := 200
    body := Body.json
      [("success", .bool true), ("message", .str "Cobrança excluída com sucesso"),
       ("id", .str paymentID)] }

/-- The empty update in the words of the specification: every text field is blank after
trimming, the person type is empty, and city, notificationDisabled, company and
foreignCustomer are absent. -/
abbrev emptyUpdate (req : AsaasUpdateCustomerRequest) : Prop :=
  trimSpace req.Name = "" ∧ trimSpace req.CpfCnpj = "" ∧ trimSpace req.Email = "" ∧
  trimSpace req.Phone = "" ∧ trimSpace req.MobilePhone = "" ∧ trimSpace req.Address = "" ∧
  trimSpace req.AddressNumber = "" ∧ trimSpace req.Complement = "" ∧
  trimSpace req.Province = "" ∧ trimSpace req.State = "" ∧ trimSpace req.Country = "" ∧
  trimSpace req.PostalCode = "" ∧ trimSpace req.AdditionalEmails = "" ∧
  trimSpace req.ExternalReference = "" ∧ trimSpace req.Observations = "" ∧
  req.PersonType = "" ∧ req.City = none ∧ req.NotificationDisabled = none ∧
  req.Company = none ∧ req.ForeignCustomer = none

/-- The response with which both customer-update handlers refuse an empty update (lines
79-80 and 206-207). -/
def emptyUpdateRejection : Response :=
  writeJSON StatusBadRequest [("error", .str "at least one field is required to update")]

/-- The calls that `CreateAsaasCharge` makes from the submission of the charge on
(lines 182-351). -/
def Call.afterCustomer (c : Call) : Bool :=
  match c with
  | Call.CreatePayment _ _ => true
  | Call.ListPayments _ _ => true
  | Call.GetCompanyTenantID _ => true
  | Call.UpsertCharges _ => true
  | _ => false

/-- The content of an optional text column written from a provider value `s` by the
create and update paths: the trimmed value, absent when that is empty. -/
def trimmedValue (s : String) : Option String :=
  if trimSpace s ≠ "" then some (trimSpace s) else none

/-! ## The customer mapping store -/

/-- Modelled from the spec: the store behind the remote procedures
`rpc_get_company_asaas_customer_id` and `rpc_upsert_company_asaas_integration`, whose SQL
is not among the sources.  It holds the CustomerMapping of the spec, at most one provider
customer id per company. -/
abbrev MappingStore := List (String × String)

/-- Modelled from the spec: the provider customer id mapped to a company, empty when
the company has no mapping. -/
def MappingStore.lookup (m : MappingStore) (companyID : String) : String :=
  match m.find? (fun kv => kv.1 == companyID) with
  | some kv => kv.2
  | none => ""

/-- Modelled from the spec: storing a mapping replaces the one of the same company. -/
def MappingStore.upsert (m : MappingStore) (companyID asaasCustomerID : String) :
    MappingStore :=
  (companyID, asaasCustomerID) :: m.filter (fun kv => kv.1 != companyID)

/-- The mapping store after a run: every `UpsertCompanyAsaasIntegration` call of the run
that the world `w` of that run answered without error has written its mapping. -/
def MappingStore.after (w : World) (m : MappingStore) (calls : List Call) : MappingStore :=
  calls.foldl (fun st c =>
    match c with
    | Call.UpsertCompanyAsaasIntegration companyID asaasCustomerID =>
      match UpsertCompanyAsaasIntegration w companyID asaasCustomerID with
      | .ok _ => st.upsert companyID asaasCustomerID
      | .error _ => st
    | _ => st) m

/-! ## Sample worlds and requests

Concrete collaborators on which the theorems below are exercised. -/

/-- ASCII upper-casing, the sample stand-in for `strings.ToUpper`. -/
def asciiUpper (s : String) : String :=
  ⟨s.data.map (fun c =>
    if 0x61 ≤ c.toNat ∧ c.toNat ≤ 0x7A then Char.ofNat (c.toNat - 32) else c)⟩

/-- ASCII lower-casing, the sample stand-in for `strings.ToLower`. -/
def asciiLower (s : String) : String :=
  ⟨s.data.map (fun c =>
    if 0x41 ≤ c.toNat ∧ c.toNat ≤ 0x5A then Char.ofNat (c.toNat + 32) else c)⟩

/-- The provider client that `NewClient` builds from the sample credential. -/
def demoClient : Client := { BaseURL := "https://api.example", Token := "tok" }

/-- The payment the sample provider returns for the sample charge. -/
def demoPayment : AsaasPaymentResponse :=
  { ID := "pay_1", Value := 150, Status := "PENDING", BillingType := "PIX",
    DueDate := "2025-03-10" }

/-- The create-payment request the handler submits for the sample charge. -/
def demoPaymentRequest : CreatePaymentRequest :=
  { Customer := "cus_1", BillingType := "PIX", Value := 150, DueDate := "2025-03-10" }

/-- A world in which office O1 has a credential, company C1 is mapped to customer
cus_1 and belongs to tenant_1, the provider accepts the charge as pay_1 and lists
exactly that payment, and the store accepts every upsert. -/
def demoWorld : World where
  getenv := fun _ => ""
  toUpper := asciiUpper
  toLower := asciiLower
  randHex := "0a1b2c3d4e5f"
  decodeCreateChargeRequest := fun b =>
    if b = "pix-150" then some { BillingType := "PIX", Value := 150, DueDate := "2025-03-10" }
    else if b = "pix-0" then some { BillingType := "PIX", Value := 0, DueDate := "2025-03-10" }
    else none
  unmarshalPayment := fun b =>
    if b = "created-pay_1" then (demoPayment, none) else ({}, some "unexpected end of JSON input")
  unmarshalPaymentsList := fun b =>
    if b = "list-pay_1" then ({ Data := [demoPayment] }, none)
    else ({}, some "unexpected end of JSON input")
  unmarshalCustomer := fun _ => ({}, some "unexpected end of JSON input")
  unmarshalString := fun s => (trimChar s (Char.ofNat 0x22), none)
  unmarshalCustomerPayload := fun _ => .error "unexpected end of JSON input"
  decodeTenantRow := fun b => .ok b
  marshalPayment := fun p => p.ID
  iamClient := true
  companyClient := true
  supabaseURL := "https://db.example"
  supabaseKey := "service-key"
  selectBillingIntegrations := fun q =>
    .ok [{ ID := "cfg_1", AccountingOfficeID := q.eq.get "accounting_office_id",
           Provider := q.eq.get "provider", BaseAPI := "https://api.example/",
           Token := "Bearer tok", IsActive := true }]
  rpcPost := fun name _ =>
    if name = "rpc_get_company_asaas_customer_id" then .ok (200, "\"cus_1\"")
    else .ok (200, "null")
  selectCompanyTenant := fun _ => .ok "tenant_1"
  upsertChargesExec := fun _ => .ok ()
  postCustomers := fun _ _ => .error (.transport "connection refused")
  postPayments := fun _ _ => .ok (200, "created-pay_1")
  getPayments := fun _ _ => .ok (200, "list-pay_1")
  putPayment := fun _ _ _ => .ok (200, "created-pay_1")
  decodeCreateCustomerRequest := fun b =>
    if b = "acme" then some { Name := "ACME Ltda", CpfCnpj := "12345678000199", Company := true }
    else none
  decodeWebhookEvent := fun b =>
    if b = "event-pay_1-received" then
      some { ID := "evt_1", Event := "PAYMENT_RECEIVED",
             Payment := some { demoPayment with Status := "RECEIVED" } }
    else if b = "event-account" then some { ID := "evt_2", Event := "ACCOUNT_STATUS_UPDATED" }
    else none
  decodeUpdateChargeRequest := fun b =>
    if b = "due-2025-04-10" then some { DueDate := some "2025-04-10" } else none
  selectCharge := fun provider id =>
    if provider = "ASAAS" ∧ id = "pay_1" then .ok "row-pay_1" else .error "no rows returned"
  unmarshalChargeRow := fun b =>
    if b = "row-pay_1" then
      .ok { TenantID := "tenant_1", AccountingOfficeID := "O1", CompanyID := "C1",
            ContractID := "T1", Provider := "ASAAS", ProviderChargeID := "pay_1", Value := 150,
            BillingType := some "PIX", Status := some "PENDING", DueDate := some "2025-03-10",
            ProviderPayload := "pay_1" }
    else .error "unexpected end of JSON input"
  deletePayment := fun _ _ => .ok (200, "deleted-pay_1")
  deleteChargeExec := fun _ _ => .ok ()
  decodeUpdateCustomerRequest := fun b =>
    if b = "email-acme" then some { Email := " billing@acme.example " }
    else if b = "blank-fields" then some { Name := "  ", Observations := "\t" }
    else if b = "company-flag" then some { Company := some false }
    else none
  putCustomer := fun _ _ _ => .ok (200, "customer-cus_1")

/-- The sample request: a PIX charge of 150.00 due 2025-03-10 for O1 / C1 / T1. -/
def demoRequest : Request :=
  { query := [("accounting_office_id", "O1"), ("company_id", "C1"), ("contract_id", "T1")]
    body := "pix-150" }

/-- The sample world with a provider that rejects the charge with status 400. -/
def rejectingWorld : World :=
  { demoWorld with postPayments := fun _ _ => .ok (400, "invalid-due-date") }

/-- An older payment of the sample customer. -/
def olderPayment : AsaasPaymentResponse :=
  { ID := "pay_0", Value := 80, Status := "RECEIVED", BillingType := "BOLETO",
    DueDate := "2025-01-10" }

/-- The sample world with a list answer that holds a record without id before pay_1. -/
def blankIdWorld : World :=
  { demoWorld with
    unmarshalPaymentsList := fun _ => ({ Data := [{ Value := 80 }, demoPayment] }, none) }

/-- The sample world with a list answer that holds only an older payment of the customer,
not the payment just created. -/
def strayListWorld : World :=
  { demoWorld with unmarshalPaymentsList := fun _ => ({ Data := [olderPayment] }, none) }

/-- The sample world with a list answer that holds no record. -/
def emptyListWorld : World :=
  { demoWorld with unmarshalPaymentsList := fun _ => ({ Data := [] }, none) }

/-- The sample world with a list answer that holds an older payment of the customer
next to the payment just created. -/
def twoChargesWorld : World :=
  { demoWorld with
    unmarshalPaymentsList := fun _ => ({ Data := [olderPayment, demoPayment] }, none) }

/-- The sample world in which the tenant of the company cannot be read. -/
def tenantFailWorld : World :=
  { demoWorld with selectCompanyTenant := fun _ => .error "connection reset by peer" }

/-- The three payments of the sample installment plan ins_1. -/
def installmentPayments : List AsaasPaymentResponse :=
  [{ ID := "pay_1", Installment := "ins_1", InstallmentNumber := 1, Value := 50 },
   { ID := "pay_2", Installment := "ins_1", InstallmentNumber := 2, Value := 50 },
   { ID := "pay_3", Installment := "ins_1", InstallmentNumber := 3, Value := 50 }]

/-- The sample world with a provider that expands the charge into the installment plan
ins_1 and lists its three payments. -/
def installmentWorld : World :=
  { demoWorld with
    unmarshalPayment := fun _ =>
      ({ ID := "pay_1", Installment := "ins_1", InstallmentNumber := 1, Value := 50 }, none)
    unmarshalPaymentsList := fun _ => ({ Data := installmentPayments }, none) }

/-- The sample world over a mapping store `m`: the lookup procedure answers with the
JSON string of the mapped id (or `null`), the profile procedure with the profile of
ACME, the write procedure accepts, and the provider creates customers as cus_9. -/
def storeWorld (m : MappingStore) : World :=
  { demoWorld with
    rpcPost := fun name args =>
      if name = "rpc_get_company_asaas_customer_id" then
        if m.lookup (Values.get args "p_company_id") = "" then .ok (200, "null")
        else .ok (200, "\"" ++ m.lookup (Values.get args "p_company_id") ++ "\"")
      else if name = "rpc_get_company_asaas_customer_payload" then .ok (200, "profile-acme")
      else .ok (204, "")
    unmarshalCustomerPayload := fun s =>
      if s = "profile-acme" then
        .ok { Name := "ACME Ltda", CpfCnpj := "12345678000199", Company := true }
      else .error "unexpected end of JSON input"
    postCustomers := fun _ _ => .ok (200, "customer-cus_9")
    unmarshalCustomer := fun b =>
      if b = "customer-cus_9" then ({ ID := "cus_9", Name := "ACME Ltda" }, none)
      else ({}, some "unexpected end of JSON input") }

/-- The sample world over the mapping store left by a first run of the sample request
over the empty store. -/
def secondRunWorld : World :=
  storeWorld (MappingStore.after (storeWorld []) []
    (CreateAsaasCharge (storeWorld []) demoRequest).calls)

/-- The sample world over the empty store whose company profile has a blank name. -/
def blankProfileWorld : World :=
  { storeWorld [] with
    unmarshalCustomerPayload := fun _ => .ok { Name := "  ", CpfCnpj := "12345678000199" } }

/-- The sample world over the empty store that knows no profile for the company. -/
def noProfileWorld : World :=
  { storeWorld [] with
    rpcPost := fun name _ =>
      if name = "rpc_get_company_asaas_customer_payload" then .ok (200, "null")
      else if name = "rpc_get_company_asaas_customer_id" then .ok (200, "null")
      else .ok (204, "") }

/-- The sample world over the empty store whose write procedure is refused. -/
def mappingWriteFailWorld : World :=
  { storeWorld [] with
    rpcPost := fun name _ =>
      if name = "rpc_get_company_asaas_customer_id" then .ok (200, "null")
      else if name = "rpc_get_company_asaas_customer_payload" then .ok (200, "profile-acme")
      else .ok (403, "permission denied for function") }

/-- The webhook request that reports the sample payment pay_1 as received. -/
def paidWebhookRequest : Request := { body := "event-pay_1-received" }

/-- The sample world whose charges table holds no row for the reported payment. -/
def unknownChargeWorld : World :=
  { demoWorld with selectCharge := fun _ _ => .error "no rows returned" }

/-- The sample world with the webhook secret configured. -/
def securedWorld : World :=
  { demoWorld with getenv := fun key => if key = "ASAAS_WEBHOOK_SECRET" then "s3cret" else "" }

/-- The sample update request: a new due date for pay_1. -/
def updateRequest : Request :=
  { query := [("accounting_office_id", "O1")], urlParams := [("id", "pay_1")]
    body := "due-2025-04-10" }

/-- The sample delete request: payment pay_1 of office O1. -/
def deleteRequest : Request :=
  { query := [("accounting_office_id", "O1")], urlParams := [("id", "pay_1")] }

/-- The sample world whose charges table refuses the deletion of the row. -/
def deleteFailWorld : World :=
  { demoWorld with deleteChargeExec := fun _ _ => .error "connection reset by peer" }

/-- The sample world whose provider answers the deletion with status 404. -/
def deleteRefusedWorld : World :=
  { demoWorld with deletePayment := fun _ _ => .ok (404, "payment-not-found") }

/-- The sample world in which no active credential row matches the office. -/
def noCredentialWorld : World :=
  { demoWorld with selectBillingIntegrations := fun _ => .ok [] }

/-- The sample world whose credential row for the office has a blank token. -/
def blankTokenWorld : World :=
  { demoWorld with
    selectBillingIntegrations := fun q =>
      .ok [{ ID := "cfg_1", AccountingOfficeID := q.eq.get "accounting_office_id",
             Provider := q.eq.get "provider", BaseAPI := "https://api.example/",
             Token := "  ", IsActive := true }] }

/-- A sample credential table: office O1 has an older default row, a newer row that is
not default and an inactive row; office O2 has two rows, neither of them default. -/
def demoIntegrations : BillingIntegrationsTable where
  rows :=
    [{ ID := "cfg_new", AccountingOfficeID := "O1", Provider := "ASAAS", IsActive := true,
       IsDefault := false, UpdatedAt := "2025-06-01", CreatedAt := "2025-05-01" },
     { ID := "cfg_default", AccountingOfficeID := "O1", Provider := "ASAAS", IsActive := true,
       IsDefault := true, UpdatedAt := "2025-01-01", CreatedAt := "2025-01-01" },
     { ID := "cfg_off", AccountingOfficeID := "O1", Provider := "ASAAS", IsActive := false,
       IsDefault := true, UpdatedAt := "2025-07-01", CreatedAt := "2025-07-01" },
     { ID := "cfg_a", AccountingOfficeID := "O2", Provider := "ASAAS", IsActive := true,
       IsDefault := false, UpdatedAt := "2025-01-01", CreatedAt := "2025-06-01" },
     { ID := "cfg_b", AccountingOfficeID := "O2", Provider := "ASAAS", IsActive := true,
       IsDefault := false, UpdatedAt := "2025-06-01", CreatedAt := "2025-01-01" },
     { ID := "cfg_c", AccountingOfficeID := "O3", Provider := "ASAAS", IsActive := false,
       IsDefault := false, UpdatedAt := "2025-06-01", CreatedAt := "2025-01-01" }]
  instant := fun s =>
    if s = "2025-01-01" then 1 else if s = "2025-05-01" then 5
    else if s = "2025-06-01" then 6 else if s = "2025-07-01" then 7 else 0
  collation := fun a b => decide (a ≤ b)

/-- The sample world over a credential table `t`: the store answers every read query on
`billing_integrations` from the table. -/
def tableWorld (t : BillingIntegrationsTable) : World :=
  { demoWorld with selectBillingIntegrations := fun q => t.run q }

/-- A sample charge row for pay_1 as the create path persists it. -/
def pendingRow : IamChargeRow :=
  { TenantID := "tenant_1", AccountingOfficeID := "O1", CompanyID := "C1", ContractID := "T1",
    Provider := "ASAAS", ProviderChargeID := "pay_1", Value := 150,
    BillingType := some "PIX", Status := some "PENDING", DueDate := some "2025-03-10",
    ProviderPayload := "pay_1" }

/-- A sample charge row for pay_0 of the same tenant. -/
def otherRow : IamChargeRow :=
  { TenantID := "tenant_1", AccountingOfficeID := "O1", CompanyID := "C1", ContractID := "T1",
    Provider := "ASAAS", ProviderChargeID := "pay_0", Value := 80,
    Status := some "RECEIVED", ProviderPayload := "pay_0" }

/-- The sample customer update by provider id: a new e-mail address for cus_1. -/
def customerUpdateRequest : Request :=
  { query := [("accounting_office_id", "O1")], urlParams := [("id", "cus_1")]
    body := "email-acme" }

/-- The sample customer update by company: a new e-mail address for company C1. -/
def companyUpdateRequest : Request :=
  { query := [("accounting_office_id", "O1"), ("company_id", "C1")], body := "email-acme" }

/-- The sample world in which pay_1 is the second payment of the installment plan ins_1,
both in the charges table and in the answer of the provider to the update. -/
def installmentUpdateWorld : World :=
  { demoWorld with
    unmarshalPayment := fun _ =>
      ({ demoPayment with Installment := "ins_1", InstallmentNumber := 2 }, none)
    unmarshalChargeRow := fun _ =>
      .ok { pendingRow with ProviderInstallmentID := some "ins_1", InstallmentNumber := some 2 } }

/-- The default credential row of office O1 in the sample table. -/
def defaultIntegration : BillingIntegrationRow :=
  { ID := "cfg_default", AccountingOfficeID := "O1", Provider := "ASAAS", IsActive := true,
    IsDefault := true, UpdatedAt := "2025-01-01", CreatedAt := "2025-01-01" }

/-- The most recently updated credential row of office O2 in the sample table. -/
def recentIntegration : BillingIntegrationRow :=
  { ID := "cfg_b", AccountingOfficeID := "O2", Provider := "ASAAS", IsActive := true,
    IsDefault := false, UpdatedAt := "2025-06-01", CreatedAt := "2025-01-01" }

/-- The other credential row of office O2 in the sample table: updated earlier, created
later. -/
def staleIntegration : BillingIntegrationRow :=
  { ID := "cfg_a", AccountingOfficeID := "O2", Provider := "ASAAS", IsActive := true,
    IsDefault := false, UpdatedAt := "2025-01-01", CreatedAt := "2025-06-01" }

/-- The sample customer update by provider id whose body sets only blank text. -/
def blankCustomerUpdateRequest : Request :=
  { customerUpdateRequest with body := "blank-fields" }

/-- The sample customer update by company whose body sets only the company flag. -/
def flagCompanyUpdateRequest : Request :=
  { companyUpdateRequest with body := "company-flag" }

/-- The row for pay_1 after the provider reported it as received. -/
def receivedRow : IamChargeRow :=
  { pendingRow with Status := some "RECEIVED", BillingType := none }

/-- The sample world whose provider answers the deletion with status 202. -/
def deleteAcceptedWorld : World :=
  { demoWorld with deletePayment := fun _ _ => .ok (202, "deletion-scheduled") }

/-- The sample world over a mapping store that maps company C1 to cus_1, whose lookup
procedure is out of order (it answers 500). -/
def lookupFailWorld : World :=
  { storeWorld [("C1", "cus_1")] with
    rpcPost := fun name _ =>
      if name = "rpc_get_company_asaas_customer_id" then .ok (500, "internal error")
      else .ok (204, "") }

/-! ## Structure of the call trace -/

theorem rowsOfList_foldl_append (w : World) (t o c k : String)
    (data : List AsaasPaymentResponse) (acc : List IamChargeRow) :
    data.foldl (fun rows p =>
      if trimSpace p.ID = "" then rows
      else rows ++ [CreateAsaasCharge.rowOfPayment w t o c k p]) acc
    = acc ++ (data.filter (fun p => trimSpace p.ID ≠ "")).map
        (CreateAsaasCharge.rowOfPayment w t o c k) := by
  induction data generalizing acc with
  | nil => simp
  | cons p ps ih =>
    by_cases hp : trimSpace p.ID = ""
    · simp [List.foldl, hp, ih]
    · simp [List.foldl, hp, ih]

theorem rowsOfList_eq_map_filter (w : World) (t o c k : String)
    (data : List AsaasPaymentResponse) :
    CreateAsaasCharge.rowsOfList w t o c k data
    = (data.filter (fun p => trimSpace p.ID ≠ "")).map
        (CreateAsaasCharge.rowOfPayment w t o c k) := by
  unfold CreateAsaasCharge.rowsOfList
  rw [rowsOfList_foldl_append]
  simp

theorem mem_listQueries {lc : Client} {params : Values} {calls : List Call}
    (h : Call.ListPayments lc params ∈ calls) : params ∈ listQueries calls := by
  unfold listQueries
  rw [List.mem_filterMap]
  exact ⟨_, h, rfl⟩

theorem mem_upsertBatches {rows : List IamChargeRow} {calls : List Call}
    (h : Call.UpsertCharges rows ∈ calls) : rows ∈ upsertBatches calls := by
  unfold upsertBatches
  rw [List.mem_filterMap]
  exact ⟨_, h, rfl⟩

theorem mem_tenantLookups {companyID : String} {calls : List Call}
    (h : Call.GetCompanyTenantID companyID ∈ calls) : companyID ∈ tenantLookups calls := by
  unfold tenantLookups
  rw [List.mem_filterMap]
  exact ⟨_, h, rfl⟩

theorem createPayments_append (xs ys : List Call) :
    createPayments (xs ++ ys) = createPayments xs ++ createPayments ys := by
  simp [createPayments]

theorem listQueries_append (xs ys : List Call) :
    listQueries (xs ++ ys) = listQueries xs ++ listQueries ys := by
  simp [listQueries]

theorem tenantLookups_append (xs ys : List Call) :
    tenantLookups (xs ++ ys) = tenantLookups xs ++ tenantLookups ys := by
  simp [tenantLookups]

theorem upsertBatches_append (xs ys : List Call) :
    upsertBatches (xs ++ ys) = upsertBatches xs ++ upsertBatches ys := by
  simp [upsertBatches]

theorem resolveCustomer_calls (w : World) (client : Client) (rid companyID : String) :
    createPayments (CreateAsaasCharge.resolveCustomer w client rid companyID).2 = [] ∧
    listQueries (CreateAsaasCharge.resolveCustomer w client rid companyID).2 = [] ∧
    tenantLookups (CreateAsaasCharge.resolveCustomer w client rid companyID).2 = [] ∧
    upsertBatches (CreateAsaasCharge.resolveCustomer w client rid companyID).2 = [] := by
  unfold CreateAsaasCharge.resolveCustomer
  simp only []
  repeat' split
  all_goals simp [createPayments, listQueries, tenantLookups, upsertBatches]

/-- The calls of the persistence block: the list call first, then the tenant lookup when
the list call answered, then the upsert when the tenant was resolved. -/
theorem persist_eq (w : World) (client : Client) (o c k cust : String)
    (req : AsaasCreateChargeRequest) (body : Bytes) :
    CreateAsaasCharge.persist w client o c k cust req body =
      match client.ListPayments w
          (CreateAsaasCharge.listParams cust (w.unmarshalPayment body).1 req) with
      | .error _ =>
        (some (writeJSON StatusBadGateway
          [("error", .str "failed to list charges after create")]),
          [Call.ListPayments client
            (CreateAsaasCharge.listParams cust (w.unmarshalPayment body).1 req)])
      | .ok res =>
        match GetCompanyTenantID w c with
        | .error _ =>
          (some (writeJSON StatusBadGateway
            [("error", .str "failed to resolve tenant for company")]),
            [Call.ListPayments client
              (CreateAsaasCharge.listParams cust (w.unmarshalPayment body).1 req),
             Call.GetCompanyTenantID c])
        | .ok tenantID =>
          (match UpsertCharges w (CreateAsaasCharge.rowsToPersist w tenantID o c k
              (w.unmarshalPayment body).1 (w.unmarshalPaymentsList res.2).1.Data) with
            | .error e =>
              if isDebugEnabled w then
                some (writeJSON StatusBadGateway
                  [("error", .str "failed to persist charges"), ("details", .str e)])
              else some (writeJSON StatusBadGateway [("error", .str "failed to persist charges")])
            | .ok _ => none,
            [Call.ListPayments client
              (CreateAsaasCharge.listParams cust (w.unmarshalPayment body).1 req),
             Call.GetCompanyTenantID c,
             Call.UpsertCharges (CreateAsaasCharge.rowsToPersist w tenantID o c k
              (w.unmarshalPayment body).1 (w.unmarshalPaymentsList res.2).1.Data)]) := by
  unfold CreateAsaasCharge.persist
  simp only []
  repeat' split
  all_goals simp_all


theorem persist_calls (w : World) (client : Client) (o c k cust : String)
    (req : AsaasCreateChargeRequest) (body : Bytes) :
    createPayments (CreateAsaasCharge.persist w client o c k cust req body).2 = [] := by
  rw [persist_eq]
  repeat' split
  all_goals simp [createPayments]

theorem submit_createPayments (w : World) (client : Client) (o c k cust : String)
    (req : AsaasCreateChargeRequest) :
    createPayments (CreateAsaasCharge.submit w client o c k cust req).calls
      = [(client, mapCreatePaymentRequest cust req)] := by
  unfold CreateAsaasCharge.submit
  simp only []
  split
  · simp [createPayments]
  · split
    · have hp := persist_calls w client o c k cust req ‹_›
      split
      all_goals simp_all [createPayments]
    · simp [createPayments]

/-- Every run of the handler either returns before the charge is submitted, having made
none of the calls of the submission phase, or runs the submission phase after a
prefix of calls that contains none of them. -/
theorem CreateAsaasCharge_shape (w : World) (r : Request) :
    (createPayments (CreateAsaasCharge w r).calls = [] ∧
      listQueries (CreateAsaasCharge w r).calls = [] ∧
      tenantLookups (CreateAsaasCharge w r).calls = [] ∧
      upsertBatches (CreateAsaasCharge w r).calls = []) ∨
    ∃ pre client cust decoded,
      w.decodeCreateChargeRequest r.body = some decoded ∧
      createPayments pre = [] ∧ listQueries pre = [] ∧ tenantLookups pre = [] ∧
      upsertBatches pre = [] ∧
      CreateAsaasCharge w r =
        { resp := (CreateAsaasCharge.submit w client
            (trimSpace (r.query.get "accounting_office_id"))
            (trimSpace (r.query.get "company_id"))
            (trimSpace (r.query.get "contract_id")) cust
            { decoded with DueDate := trimSpace decoded.DueDate }).resp
          calls := pre ++ (CreateAsaasCharge.submit w client
            (trimSpace (r.query.get "accounting_office_id"))
            (trimSpace (r.query.get "company_id"))
            (trimSpace (r.query.get "contract_id")) cust
            { decoded with DueDate := trimSpace decoded.DueDate }).calls } := by
  have hc := fun cfg : BillingIntegrationRow =>
    resolveCustomer_calls w (NewClient cfg.BaseAPI cfg.Token) (newRequestID w)
      (trimSpace (r.query.get "company_id"))
  generalize ho : CreateAsaasCharge w r = out
  unfold CreateAsaasCharge at ho
  simp only [] at ho
  split at ho
  · subst ho; left; simp [createPayments, listQueries, tenantLookups, upsertBatches]
  split at ho
  · subst ho; left; simp [createPayments, listQueries, tenantLookups, upsertBatches]
  split at ho
  · subst ho; left; simp [createPayments, listQueries, tenantLookups, upsertBatches]
  split at ho
  · subst ho; left; simp [createPayments, listQueries, tenantLookups, upsertBatches]
  rename_i decoded hdec
  split at ho
  · subst ho; left; simp [createPayments, listQueries, tenantLookups, upsertBatches]
  split at ho
  · subst ho; left; simp [createPayments, listQueries, tenantLookups, upsertBatches]
  split at ho
  · subst ho; left; simp [createPayments, listQueries, tenantLookups, upsertBatches]
  split at ho
  · subst ho; left; simp [createPayments, listQueries, tenantLookups, upsertBatches]
  rename_i cfg hcfg
  split at ho
  · subst ho; left; simp [createPayments, listQueries, tenantLookups, upsertBatches]
  split at ho
  · rename_i early calls hres
    have hc := hc cfg
    rw [hres] at hc
    subst ho
    left
    simpa [createPayments, listQueries, tenantLookups, upsertBatches] using hc
  · rename_i cust calls hres
    have hc := hc cfg
    rw [hres] at hc
    subst ho
    right
    refine ⟨Call.GetBillingIntegrationForOffice (trimSpace (r.query.get "accounting_office_id"))
      (normalizeProvider w "ASAAS") :: calls, NewClient cfg.BaseAPI cfg.Token, cust, decoded, hdec, ?_, ?_, ?_, ?_, ?_⟩
    · simpa [createPayments] using hc.1
    · simpa [listQueries] using hc.2.1
    · simpa [tenantLookups] using hc.2.2.1
    · simpa [upsertBatches] using hc.2.2.2
    · simp


theorem submit_reject (w : World) (client : Client) (o c k cust : String)
    (req : AsaasCreateChargeRequest) (status : Int) (body : Bytes)
    (hans : client.CreatePayment w (mapCreatePaymentRequest cust req) = .ok (status, body))
    (hrej : ¬ (200 ≤ status ∧ status < 300)) :
    CreateAsaasCharge.submit w client o c k cust req =
      { resp := { contentType := "application/json", status := status, body := .raw body }
        calls := [Call.CreatePayment client (mapCreatePaymentRequest cust req)] } := by
  unfold CreateAsaasCharge.submit
  simp only [hans]
  rw [if_neg (by simpa using hrej)]

theorem submit_accept (w : World) (client : Client) (o c k cust : String)
    (req : AsaasCreateChargeRequest) (status : Int) (body : Bytes)
    (hans : client.CreatePayment w (mapCreatePaymentRequest cust req) = .ok (status, body))
    (hacc : 200 ≤ status ∧ status < 300) :
    CreateAsaasCharge.submit w client o c k cust req =
      { resp := match (CreateAsaasCharge.persist w client o c k cust req body).1 with
          | some early => early
          | none => { contentType := "application/json", status := status, body := .raw body }
        calls := Call.CreatePayment client (mapCreatePaymentRequest cust req) ::
          (CreateAsaasCharge.persist w client o c k cust req body).2 } := by
  unfold CreateAsaasCharge.submit
  simp only [hans]
  rw [if_pos (by simpa using hacc)]
  split <;> simp_all

/-- A run in which a charge was submitted: the submission phase ran, for the decoded
request with its due date trimmed, after calls that belong to the earlier phases. -/
theorem CreateAsaasCharge_submitted (w : World) (r : Request) (cl : Client)
    (preq : CreatePaymentRequest)
    (hsub : (cl, preq) ∈ createPayments (CreateAsaasCharge w r).calls) :
    ∃ pre cust decoded,
      w.decodeCreateChargeRequest r.body = some decoded ∧
      preq = mapCreatePaymentRequest cust { decoded with DueDate := trimSpace decoded.DueDate } ∧
      createPayments pre = [] ∧ listQueries pre = [] ∧ tenantLookups pre = [] ∧
      upsertBatches pre = [] ∧
      CreateAsaasCharge w r =
        { resp := (CreateAsaasCharge.submit w cl
            (trimSpace (r.query.get "accounting_office_id"))
            (trimSpace (r.query.get "company_id"))
            (trimSpace (r.query.get "contract_id")) cust
            { decoded with DueDate := trimSpace decoded.DueDate }).resp
          calls := pre ++ (CreateAsaasCharge.submit w cl
            (trimSpace (r.query.get "accounting_office_id"))
            (trimSpace (r.query.get "company_id"))
            (trimSpace (r.query.get "contract_id")) cust
            { decoded with DueDate := trimSpace decoded.DueDate }).calls } := by
  rcases CreateAsaasCharge_shape w r with hearly | ⟨pre, client, cust, decoded, hdec, h1, h2, h3, h4, heq⟩
  · rw [hearly.1] at hsub
    simp at hsub
  · rw [heq] at hsub
    simp only [createPayments_append, h1, submit_createPayments, List.nil_append,
      List.mem_singleton, Prod.mk.injEq] at hsub
    obtain ⟨hcl, hpreq⟩ := hsub
    subst hcl
    exact ⟨pre, cust, decoded, hdec, hpreq, h1, h2, h3, h4, heq⟩


theorem persist_list_mem (w : World) (client lc : Client) (o c k cust : String)
    (req : AsaasCreateChargeRequest) (body : Bytes) (params : Values)
    (h : Call.ListPayments lc params ∈ (CreateAsaasCharge.persist w client o c k cust req body).2) :
    lc = client ∧ params = CreateAsaasCharge.listParams cust (w.unmarshalPayment body).1 req := by
  rw [persist_eq] at h
  revert h
  repeat' split
  all_goals simp

theorem persist_ok_eq (w : World) (client : Client) (o c k cust : String)
    (req : AsaasCreateChargeRequest) (body listBody : Bytes) (listStatus : Int)
    (tenantID : String)
    (hlans : client.ListPayments w
      (CreateAsaasCharge.listParams cust (w.unmarshalPayment body).1 req)
      = .ok (listStatus, listBody))
    (hten : GetCompanyTenantID w c = .ok tenantID) :
    CreateAsaasCharge.persist w client o c k cust req body =
      (match UpsertCharges w (CreateAsaasCharge.rowsToPersist w tenantID o c k
          (w.unmarshalPayment body).1 (w.unmarshalPaymentsList listBody).1.Data) with
        | .error e =>
          if isDebugEnabled w then
            some (writeJSON StatusBadGateway
              [("error", .str "failed to persist charges"), ("details", .str e)])
          else some (writeJSON StatusBadGateway [("error", .str "failed to persist charges")])
        | .ok _ => none,
        [Call.ListPayments client
          (CreateAsaasCharge.listParams cust (w.unmarshalPayment body).1 req),
         Call.GetCompanyTenantID c,
         Call.UpsertCharges (CreateAsaasCharge.rowsToPersist w tenantID o c k
          (w.unmarshalPayment body).1 (w.unmarshalPaymentsList listBody).1.Data)]) := by
  rw [persist_eq]
  simp only [hlans, hten]

/-- A run in which the provider accepted the charge, the list call answered and the
tenant was resolved: the trace ends with the create, the list call, the tenant lookup
and one upsert, and the response is decided by the upsert alone. -/
theorem CreateAsaasCharge_reconciled (w : World) (r : Request) (cl lc : Client)
    (preq : CreatePaymentRequest) (status listStatus : Int) (body listBody : Bytes)
    (params : Values) (tenantID : String)
    (hsub : (cl, preq) ∈ createPayments (CreateAsaasCharge w r).calls)
    (hans : cl.CreatePayment w preq = .ok (status, body))
    (hacc : 200 ≤ status ∧ status < 300)
    (hlist : Call.ListPayments lc params ∈ (CreateAsaasCharge w r).calls)
    (hlans : lc.ListPayments w params = .ok (listStatus, listBody))
    (hten : GetCompanyTenantID w (trimSpace (r.query.get "company_id")) = .ok tenantID) :
    ∃ pre decoded,
      w.decodeCreateChargeRequest r.body = some decoded ∧
      createPayments pre = [] ∧ listQueries pre = [] ∧ tenantLookups pre = [] ∧
      upsertBatches pre = [] ∧
      lc = cl ∧
      params = CreateAsaasCharge.listParams preq.Customer (w.unmarshalPayment body).1
        { decoded with DueDate := trimSpace decoded.DueDate } ∧
      (CreateAsaasCharge w r).calls = pre ++
        [Call.CreatePayment cl preq, Call.ListPayments cl params,
         Call.GetCompanyTenantID (trimSpace (r.query.get "company_id")),
         Call.UpsertCharges (CreateAsaasCharge.rowsToPersist w tenantID
            (trimSpace (r.query.get "accounting_office_id"))
            (trimSpace (r.query.get "company_id"))
            (trimSpace (r.query.get "contract_id"))
            (w.unmarshalPayment body).1 (w.unmarshalPaymentsList listBody).1.Data)] ∧
      (CreateAsaasCharge w r).resp =
        match UpsertCharges w (CreateAsaasCharge.rowsToPersist w tenantID
            (trimSpace (r.query.get "accounting_office_id"))
            (trimSpace (r.query.get "company_id"))
            (trimSpace (r.query.get "contract_id"))
            (w.unmarshalPayment body).1 (w.unmarshalPaymentsList listBody).1.Data) with
        | .error e =>
          if isDebugEnabled w then
            writeJSON StatusBadGateway
              [("error", .str "failed to persist charges"), ("details", .str e)]
          else writeJSON StatusBadGateway [("error", .str "failed to persist charges")]
        | .ok _ => { contentType := "application/json", status := status, body := .raw body } := by
  obtain ⟨pre, cust, decoded, hdec, hpreq, h1, h2, h3, h4, heq⟩ :=
    CreateAsaasCharge_submitted w r cl preq hsub
  have hcust : preq.Customer = cust := by rw [hpreq]; rfl
  generalize hreq : ({ decoded with DueDate := trimSpace decoded.DueDate } :
    AsaasCreateChargeRequest) = req at hpreq heq ⊢
  subst hpreq
  rw [heq] at hlist ⊢
  rw [submit_accept w cl _ _ _ cust _ status body hans hacc] at hlist ⊢
  simp only [List.mem_append, List.mem_cons] at hlist
  have hmem : Call.ListPayments lc params ∈ (CreateAsaasCharge.persist w cl
      (trimSpace (r.query.get "accounting_office_id")) (trimSpace (r.query.get "company_id"))
      (trimSpace (r.query.get "contract_id")) cust req body).2 := by
    rcases hlist with hpre | hc | hp
    · have := mem_listQueries hpre
      rw [h2] at this
      simp at this
    · simp at hc
    · exact hp
  obtain ⟨hlc, hpar⟩ := persist_list_mem _ _ _ _ _ _ _ _ _ _ hmem
  subst hlc
  rw [hpar] at hlans
  rw [persist_ok_eq w lc _ _ _ cust req body listBody listStatus tenantID hlans hten]
  refine ⟨pre, decoded, hdec, h1, h2, h3, h4, rfl, ?_, ?_, ?_⟩
  · rw [hcust, hpar, ← hreq]
  · rw [hpar]
  · simp only []
    generalize UpsertCharges w _ = u
    cases u with
    | error e => by_cases hd : isDebugEnabled w = true <;> simp [hd]
    | ok u => simp


theorem persist_listQueries (w : World) (client : Client) (o c k cust : String)
    (req : AsaasCreateChargeRequest) (body : Bytes) :
    listQueries (CreateAsaasCharge.persist w client o c k cust req body).2 =
      [CreateAsaasCharge.listParams cust (w.unmarshalPayment body).1 req] := by
  rw [persist_eq]
  repeat' split
  all_goals simp [listQueries]

theorem listParams_eq (cust : String) (created : AsaasPaymentResponse)
    (req : AsaasCreateChargeRequest) :
    CreateAsaasCharge.listParams cust created req =
      [("customer", cust), ("limit", "100"), ("offset", "0")] ++
        (if trimSpace created.Installment ≠ "" then [("installment", created.Installment)]
         else
           match req.ExternalReference with
           | some ref =>
             if trimSpace ref ≠ "" then [("externalReference", trimSpace ref)] else []
           | none => []) := by
  unfold CreateAsaasCharge.listParams
  simp only [Values.set]
  split
  · simp
  · split
    · split <;> simp
    · simp

theorem rowsToPersist_eq (w : World) (t o c k : String) (created : AsaasPaymentResponse)
    (data : List AsaasPaymentResponse) :
    CreateAsaasCharge.rowsToPersist w t o c k created data =
      if data.filter (fun p => trimSpace p.ID ≠ "") = [] then
        (if trimSpace created.ID ≠ "" then [CreateAsaasCharge.rowOfCreated w t o c k created]
         else [])
      else (data.filter (fun p => trimSpace p.ID ≠ "")).map
        (CreateAsaasCharge.rowOfPayment w t o c k) := by
  unfold CreateAsaasCharge.rowsToPersist
  simp only [rowsOfList_eq_map_filter]
  by_cases hf : data.filter (fun p => trimSpace p.ID ≠ "") = []
  · rw [hf]
    by_cases hid : trimSpace created.ID = "" <;> simp [hid]
  · have hall : ¬ ∀ a ∈ data, trimSpace a.ID = "" := by simpa using hf
    simp [hall]

/-- In a reconciled run exactly one batch is handed to `UpsertCharges`. -/
theorem CreateAsaasCharge_reconciled_batches (w : World) (r : Request) (cl lc : Client)
    (preq : CreatePaymentRequest) (status listStatus : Int) (body listBody : Bytes)
    (params : Values) (tenantID : String)
    (hsub : (cl, preq) ∈ createPayments (CreateAsaasCharge w r).calls)
    (hans : cl.CreatePayment w preq = .ok (status, body))
    (hacc : 200 ≤ status ∧ status < 300)
    (hlist : Call.ListPayments lc params ∈ (CreateAsaasCharge w r).calls)
    (hlans : lc.ListPayments w params = .ok (listStatus, listBody))
    (hten : GetCompanyTenantID w (trimSpace (r.query.get "company_id")) = .ok tenantID) :
    upsertBatches (CreateAsaasCharge w r).calls =
      [CreateAsaasCharge.rowsToPersist w tenantID
        (trimSpace (r.query.get "accounting_office_id"))
        (trimSpace (r.query.get "company_id"))
        (trimSpace (r.query.get "contract_id"))
        (w.unmarshalPayment body).1 (w.unmarshalPaymentsList listBody).1.Data] := by
  obtain ⟨pre, decoded, -, -, -, -, h4, -, -, hcalls, -⟩ :=
    CreateAsaasCharge_reconciled w r cl lc preq status listStatus body listBody params tenantID
      hsub hans hacc hlist hlans hten
  rw [hcalls, upsertBatches_append, h4]
  simp [upsertBatches]

theorem submit_tenant_failure (w : World) (cl : Client) (o c k cust : String)
    (req : AsaasCreateChargeRequest) (x e : String)
    (hmem : Call.GetCompanyTenantID x ∈ (CreateAsaasCharge.submit w cl o c k cust req).calls)
    (hfail : GetCompanyTenantID w x = .error e) :
    (CreateAsaasCharge.submit w cl o c k cust req).resp =
      writeJSON StatusBadGateway [("error", .str "failed to resolve tenant for company")] ∧
    upsertBatches (CreateAsaasCharge.submit w cl o c k cust req).calls = [] := by
  cases hcp : cl.CreatePayment w (mapCreatePaymentRequest cust req) with
  | error e2 =>
    unfold CreateAsaasCharge.submit at hmem
    simp [hcp] at hmem
  | ok res =>
    obtain ⟨status, body⟩ := res
    by_cases h2 : 200 ≤ status ∧ status < 300
    · rw [submit_accept w cl o c k cust req status body hcp h2, persist_eq] at hmem ⊢
      cases hl : cl.ListPayments w
          (CreateAsaasCharge.listParams cust (w.unmarshalPayment body).1 req) with
      | error e3 =>
        rw [hl] at hmem
        simp at hmem
      | ok lres =>
        rw [hl] at hmem
        cases ht : GetCompanyTenantID w c with
        | error e4 => simp [upsertBatches]
        | ok tenantID =>
          rw [ht] at hmem
          simp at hmem
          rw [hmem, ht] at hfail
          cases hfail
    · rw [submit_reject w cl o c k cust req status body hcp h2] at hmem
      simp at hmem

/-! ## The claims -/

set_option maxRecDepth 100000

/-- C1. A charge-creation request that passes the query-parameter and JSON checks is
answered 400, with no call at all into the Tenant Data Store or the provider, whenever
its billing type is blank, its value is at most 0, or its due date is empty after
trimming. -/
theorem createCharge_invalid_fields_rejected_locally (w : World) (r : Request)
    (decoded : AsaasCreateChargeRequest)
    (hoffice : trimSpace (r.query.get "accounting_office_id") ≠ "")
    (hcompany : trimSpace (r.query.get "company_id") ≠ "")
    (hcontract : trimSpace (r.query.get "contract_id") ≠ "")
    (hjson : w.decodeCreateChargeRequest r.body = some decoded)
    (hbad : trimSpace decoded.BillingType = "" ∨ decoded.Value ≤ 0 ∨
      trimSpace decoded.DueDate = "") :
    (CreateAsaasCharge w r).resp.status = 400 ∧ (CreateAsaasCharge w r).calls = [] := by
  generalize ho : CreateAsaasCharge w r = out
  unfold CreateAsaasCharge at ho
  simp only [hoffice, hcompany, hcontract, hjson, if_false] at ho
  by_cases hb : trimSpace decoded.BillingType = ""
  · rw [if_pos hb] at ho
    subst ho
    exact ⟨rfl, rfl⟩
  · rw [if_neg hb] at ho
    by_cases hv : decoded.Value ≤ 0
    · rw [if_pos hv] at ho
      subst ho
      exact ⟨rfl, rfl⟩
    · rw [if_neg hv] at ho
      have hd : trimSpace decoded.DueDate = "" := by
        rcases hbad with h | h | h
        · exact absurd h hb
        · exact absurd h hv
        · exact h
      rw [if_pos hd] at ho
      subst ho
      exact ⟨rfl, rfl⟩

/-- C1, exercised: the sample request with value 0 is answered 400 without any call. -/
theorem createCharge_invalid_fields_rejected_locally_witness :
    (CreateAsaasCharge demoWorld { demoRequest with body := "pix-0" }).resp.status = 400 ∧
    (CreateAsaasCharge demoWorld { demoRequest with body := "pix-0" }).calls = [] :=
  createCharge_invalid_fields_rejected_locally demoWorld { demoRequest with body := "pix-0" }
    { BillingType := "PIX", Value := 0, DueDate := "2025-03-10" }
    (by decide) (by decide) (by decide) (by decide) (Or.inr (Or.inl (by decide)))

/-- C2. When the provider answers the create-payment call with a status outside
200..299, the handler responds with exactly that status and exactly that body, and makes
no list call, no tenant lookup and no call to `UpsertCharges`. -/
theorem createCharge_rejection_passes_through (w : World) (r : Request) (cl : Client)
    (preq : CreatePaymentRequest) (status : Int) (body : Bytes)
    (hsub : (cl, preq) ∈ createPayments (CreateAsaasCharge w r).calls)
    (hans : cl.CreatePayment w preq = .ok (status, body))
    (hrej : ¬ (200 ≤ status ∧ status ≤ 299)) :
    (CreateAsaasCharge w r).resp.status = status ∧
    (CreateAsaasCharge w r).resp.body = Body.raw body ∧
    listQueries (CreateAsaasCharge w r).calls = [] ∧
    tenantLookups (CreateAsaasCharge w r).calls = [] ∧
    upsertBatches (CreateAsaasCharge w r).calls = [] := by
  obtain ⟨pre, cust, decoded, -, hpreq, -, h2, h3, h4, heq⟩ :=
    CreateAsaasCharge_submitted w r cl preq hsub
  subst hpreq
  have hrej2 : ¬ (200 ≤ status ∧ status < 300) := by omega
  rw [heq, submit_reject w cl _ _ _ cust _ status body hans hrej2]
  simp [listQueries_append, tenantLookups_append, upsertBatches_append, h2, h3, h4]
  simp [listQueries, tenantLookups, upsertBatches]

/-- C2, exercised: the provider rejects the sample charge with 400. -/
theorem createCharge_rejection_passes_through_witness :
    (CreateAsaasCharge rejectingWorld demoRequest).resp.status = 400 ∧
    (CreateAsaasCharge rejectingWorld demoRequest).resp.body = Body.raw "invalid-due-date" ∧
    listQueries (CreateAsaasCharge rejectingWorld demoRequest).calls = [] ∧
    tenantLookups (CreateAsaasCharge rejectingWorld demoRequest).calls = [] ∧
    upsertBatches (CreateAsaasCharge rejectingWorld demoRequest).calls = [] :=
  createCharge_rejection_passes_through rejectingWorld demoRequest demoClient
    demoPaymentRequest 400 "invalid-due-date" (by decide) rfl (by decide)

/-- C3. After an accepted (2xx) create the handler makes exactly one list call, whose
parameters are customer = the customer id the charge was submitted for, limit = 100,
offset = 0, plus installment = the created payment's installment id when that id is
non-blank, otherwise externalReference = the request's trimmed external reference when it
is present and non-blank, otherwise nothing more. -/
theorem createCharge_list_call_parameters (w : World) (r : Request) (cl : Client)
    (preq : CreatePaymentRequest) (status : Int) (body : Bytes)
    (decoded : AsaasCreateChargeRequest)
    (hsub : (cl, preq) ∈ createPayments (CreateAsaasCharge w r).calls)
    (hans : cl.CreatePayment w preq = .ok (status, body))
    (hacc : 200 ≤ status ∧ status ≤ 299)
    (hjson : w.decodeCreateChargeRequest r.body = some decoded) :
    listQueries (CreateAsaasCharge w r).calls =
      [[("customer", preq.Customer), ("limit", "100"), ("offset", "0")] ++
        (if trimSpace (w.unmarshalPayment body).1.Installment ≠ "" then
          [("installment", (w.unmarshalPayment body).1.Installment)]
         else
           match decoded.ExternalReference with
           | some ref =>
             if trimSpace ref ≠ "" then [("externalReference", trimSpace ref)] else []
           | none => [])] := by
  obtain ⟨pre, cust, decoded2, hdec, hpreq, -, h2, -, -, heq⟩ :=
    CreateAsaasCharge_submitted w r cl preq hsub
  rw [hjson] at hdec
  cases hdec
  subst hpreq
  have hacc2 : 200 ≤ status ∧ status < 300 := by omega
  rw [heq, submit_accept w cl _ _ _ cust _ status body hans hacc2]
  simp only [listQueries_append, h2, List.nil_append]
  have : ∀ c cs, listQueries (Call.CreatePayment cl c :: cs) = listQueries cs := by
    intro c cs; simp [listQueries]
  rw [this, persist_listQueries, listParams_eq]
  rfl

/-- C3, exercised: the sample charge has neither installment nor external reference. -/
theorem createCharge_list_call_parameters_witness :
    listQueries (CreateAsaasCharge demoWorld demoRequest).calls =
      [[("customer", "cus_1"), ("limit", "100"), ("offset", "0")]] :=
  createCharge_list_call_parameters demoWorld demoRequest demoClient demoPaymentRequest 200
    "created-pay_1" { BillingType := "PIX", Value := 150, DueDate := "2025-03-10" }
    (by decide) rfl (by decide) (by decide)



/-- C4, as stated, fails: the list answer holds two records, one of them without id, and
the batch handed to `UpsertCharges` after the accepted create holds one row. -/
theorem createCharge_upserts_listed_payments_counterexample :
    (CreateAsaasCharge blankIdWorld demoRequest).resp.status = 200 ∧
    (blankIdWorld.unmarshalPaymentsList "list-pay_1").1.Data.length = 2 ∧
    (upsertBatches (CreateAsaasCharge blankIdWorld demoRequest).calls).map List.length = [1] := by
  decide

/-- C4, amended. After an accepted create whose list call and tenant lookup succeed,
exactly one batch is handed to `UpsertCharges`: one row per listed record with a
non-blank id, in the order of the list, the i-th row carrying the id of the i-th such
record; when no listed record has a non-blank id the batch is the single row of the
created payment if its id is non-blank, and empty otherwise. -/
theorem createCharge_upserts_listed_payments (w : World) (r : Request) (cl lc : Client)
    (preq : CreatePaymentRequest) (status listStatus : Int) (body listBody : Bytes)
    (params : Values) (tenantID : String)
    (hsub : (cl, preq) ∈ createPayments (CreateAsaasCharge w r).calls)
    (hans : cl.CreatePayment w preq = .ok (status, body))
    (hacc : 200 ≤ status ∧ status ≤ 299)
    (hlist : Call.ListPayments lc params ∈ (CreateAsaasCharge w r).calls)
    (hlans : lc.ListPayments w params = .ok (listStatus, listBody))
    (hten : GetCompanyTenantID w (trimSpace (r.query.get "company_id")) = .ok tenantID) :
    ∃ rows, upsertBatches (CreateAsaasCharge w r).calls = [rows] ∧
      rows.map (fun row => row.ProviderChargeID) =
        if (w.unmarshalPaymentsList listBody).1.Data.filter
            (fun p => trimSpace p.ID ≠ "") = [] then
          (if trimSpace (w.unmarshalPayment body).1.ID ≠ "" then
            [(w.unmarshalPayment body).1.ID] else [])
        else
          ((w.unmarshalPaymentsList listBody).1.Data.filter
            (fun p => trimSpace p.ID ≠ "")).map (fun p => p.ID) := by
  have hacc2 : 200 ≤ status ∧ status < 300 := by omega
  refine ⟨_, CreateAsaasCharge_reconciled_batches w r cl lc preq status listStatus body
    listBody params tenantID hsub hans hacc2 hlist hlans hten, ?_⟩
  rw [rowsToPersist_eq]
  split
  · split <;> simp [CreateAsaasCharge.rowOfCreated]
  · simp [CreateAsaasCharge.rowOfPayment, Function.comp_def]

/-- C4, amended, exercised on the list answer with a record without id. -/
theorem createCharge_upserts_listed_payments_witness :
    ∃ rows, upsertBatches (CreateAsaasCharge blankIdWorld demoRequest).calls = [rows] ∧
      rows.map (fun row => row.ProviderChargeID) = ["pay_1"] :=
  createCharge_upserts_listed_payments blankIdWorld demoRequest demoClient demoClient
    demoPaymentRequest 200 200 "created-pay_1" "list-pay_1"
    [("customer", "cus_1"), ("limit", "100"), ("offset", "0")] "tenant_1"
    (by decide) rfl (by decide) (by decide) rfl rfl

/-- C5, the failing run. The provider accepts the charge as pay_1 and the list call
answers with an older payment of the customer only: the handler forwards the 200 of the
provider, and the one batch it upserted holds pay_0 and no row for pay_1. -/
theorem createCharge_created_payment_left_out :
    (CreateAsaasCharge strayListWorld demoRequest).resp =
      { contentType := "application/json", status := 200, body := Body.raw "created-pay_1" } ∧
    (strayListWorld.unmarshalPayment "created-pay_1").1.ID = "pay_1" ∧
    (upsertBatches (CreateAsaasCharge strayListWorld demoRequest).calls).map
      (fun rows => rows.map (fun row => row.ProviderChargeID)) = [["pay_0"]] := by
  decide

/-- C6. After an accepted create whose list call answers without any record with a
non-blank id, when the tenant is resolved and the created payment has a non-blank id,
exactly one row is upserted: its provider charge id and value are those of the created
payment, its tenant is the resolved one, and its office, company and contract are the
(trimmed) query parameters of the request. -/
theorem createCharge_persists_created_when_list_empty (w : World) (r : Request)
    (cl lc : Client) (preq : CreatePaymentRequest) (status listStatus : Int)
    (body listBody : Bytes) (params : Values) (tenantID : String)
    (hsub : (cl, preq) ∈ createPayments (CreateAsaasCharge w r).calls)
    (hans : cl.CreatePayment w preq = .ok (status, body))
    (hacc : 200 ≤ status ∧ status ≤ 299)
    (hlist : Call.ListPayments lc params ∈ (CreateAsaasCharge w r).calls)
    (hlans : lc.ListPayments w params = .ok (listStatus, listBody))
    (hten : GetCompanyTenantID w (trimSpace (r.query.get "company_id")) = .ok tenantID)
    (hnone : ∀ p ∈ (w.unmarshalPaymentsList listBody).1.Data, trimSpace p.ID = "")
    (hid : trimSpace (w.unmarshalPayment body).1.ID ≠ "") :
    ∃ row, upsertBatches (CreateAsaasCharge w r).calls = [[row]] ∧
      row.ProviderChargeID = (w.unmarshalPayment body).1.ID ∧
      row.Value = (w.unmarshalPayment body).1.Value ∧
      row.TenantID = tenantID ∧
      row.AccountingOfficeID = trimSpace (r.query.get "accounting_office_id") ∧
      row.CompanyID = trimSpace (r.query.get "company_id") ∧
      row.ContractID = trimSpace (r.query.get "contract_id") := by
  have hacc2 : 200 ≤ status ∧ status < 300 := by omega
  have hb := CreateAsaasCharge_reconciled_batches w r cl lc preq status listStatus body
    listBody params tenantID hsub hans hacc2 hlist hlans hten
  have hf : (w.unmarshalPaymentsList listBody).1.Data.filter
      (fun p => trimSpace p.ID ≠ "") = [] := by
    simpa using hnone
  rw [rowsToPersist_eq, if_pos hf, if_pos hid] at hb
  exact ⟨_, hb, rfl, rfl, rfl, rfl, rfl, rfl⟩

/-- C6, exercised on the empty list answer. -/
theorem createCharge_persists_created_when_list_empty_witness :
    ∃ row, upsertBatches (CreateAsaasCharge emptyListWorld demoRequest).calls = [[row]] ∧
      row.ProviderChargeID = "pay_1" ∧ row.Value = 150 ∧ row.TenantID = "tenant_1" ∧
      row.AccountingOfficeID = "O1" ∧ row.CompanyID = "C1" ∧ row.ContractID = "T1" :=
  createCharge_persists_created_when_list_empty emptyListWorld demoRequest demoClient
    demoClient demoPaymentRequest 200 200 "created-pay_1" "list-pay_1"
    [("customer", "cus_1"), ("limit", "100"), ("offset", "0")] "tenant_1"
    (by decide) rfl (by decide) (by decide) rfl rfl (by decide) (by decide)


/-- C7, as stated, fails: the request carries neither installment plan nor external
reference, the provider accepts it as the one payment pay_1, and two rows are upserted,
because the list call, filtered by customer alone, also answers with an older payment. -/
theorem createCharge_single_row_counterexample :
    (demoWorld.decodeCreateChargeRequest demoRequest.body).map
        (fun req => (req.InstallmentCount, req.ExternalReference)) = some (none, none) ∧
    (CreateAsaasCharge twoChargesWorld demoRequest).resp =
      { contentType := "application/json", status := 200, body := Body.raw "created-pay_1" } ∧
    listQueries (CreateAsaasCharge twoChargesWorld demoRequest).calls =
      [[("customer", "cus_1"), ("limit", "100"), ("offset", "0")]] ∧
    (upsertBatches (CreateAsaasCharge twoChargesWorld demoRequest).calls).map
      (fun rows => rows.map (fun row => row.ProviderChargeID)) = [["pay_0", "pay_1"]] := by
  decide

/-- C7, amended. For a create request that carries no installment plan and no external
reference and that the provider accepts by returning one payment with non-blank id I
and value V: when the list call and the tenant lookup succeed and the list answer holds
no record with a non-blank id other than that payment (it holds none, or exactly one,
with id I and value V), exactly one row is upserted, whose provider charge id is I,
whose value is V, and whose office, company and contract are the (trimmed) query
parameters of the request. -/
theorem createCharge_single_row (w : World) (r : Request)
    (cl lc : Client) (preq : CreatePaymentRequest) (status listStatus : Int)
    (body listBody : Bytes) (params : Values) (tenantID : String)
    (decoded : AsaasCreateChargeRequest) (I : String) (V : Float64)
    (_hjson : w.decodeCreateChargeRequest r.body = some decoded)
    (_hplan : decoded.InstallmentCount = none)
    (_href : decoded.ExternalReference = none)
    (hsub : (cl, preq) ∈ createPayments (CreateAsaasCharge w r).calls)
    (hans : cl.CreatePayment w preq = .ok (status, body))
    (hacc : 200 ≤ status ∧ status ≤ 299)
    (hI : (w.unmarshalPayment body).1.ID = I) (hIne : trimSpace I ≠ "")
    (hV : (w.unmarshalPayment body).1.Value = V)
    (hlist : Call.ListPayments lc params ∈ (CreateAsaasCharge w r).calls)
    (hlans : lc.ListPayments w params = .ok (listStatus, listBody))
    (hten : GetCompanyTenantID w (trimSpace (r.query.get "company_id")) = .ok tenantID)
    (honly : (w.unmarshalPaymentsList listBody).1.Data.filter
        (fun p => trimSpace p.ID ≠ "") = [] ∨
      ∃ p, (w.unmarshalPaymentsList listBody).1.Data.filter
        (fun p => trimSpace p.ID ≠ "") = [p] ∧ p.ID = I ∧ p.Value = V) :
    ∃ row, upsertBatches (CreateAsaasCharge w r).calls = [[row]] ∧
      row.ProviderChargeID = I ∧ row.Value = V ∧
      row.AccountingOfficeID = trimSpace (r.query.get "accounting_office_id") ∧
      row.CompanyID = trimSpace (r.query.get "company_id") ∧
      row.ContractID = trimSpace (r.query.get "contract_id") := by
  have hacc2 : 200 ≤ status ∧ status < 300 := by omega
  have hb := CreateAsaasCharge_reconciled_batches w r cl lc preq status listStatus body
    listBody params tenantID hsub hans hacc2 hlist hlans hten
  rw [rowsToPersist_eq] at hb
  rcases honly with hnone | ⟨p, hp, hpI, hpV⟩
  · rw [if_pos hnone, if_pos (by rw [hI]; exact hIne)] at hb
    exact ⟨_, hb, hI, hV, rfl, rfl, rfl⟩
  · rw [hp, if_neg (by simp)] at hb
    exact ⟨_, hb, hpI, hpV, rfl, rfl, rfl⟩

/-- C7, amended, exercised on the sample charge of 150.00. -/
theorem createCharge_single_row_witness :
    ∃ row, upsertBatches (CreateAsaasCharge demoWorld demoRequest).calls = [[row]] ∧
      row.ProviderChargeID = "pay_1" ∧ row.Value = 150 ∧
      row.AccountingOfficeID = "O1" ∧ row.CompanyID = "C1" ∧ row.ContractID = "T1" :=
  createCharge_single_row demoWorld demoRequest demoClient demoClient demoPaymentRequest
    200 200 "created-pay_1" "list-pay_1"
    [("customer", "cus_1"), ("limit", "100"), ("offset", "0")] "tenant_1"
    { BillingType := "PIX", Value := 150, DueDate := "2025-03-10" } "pay_1" 150
    (by decide) rfl rfl (by decide) rfl (by decide) rfl (by decide) rfl (by decide) rfl rfl
    (Or.inr ⟨demoPayment, by decide, rfl, rfl⟩)

/-- C8. If the list call after an accepted create answers with N ≥ 1 records that have
non-blank, pairwise distinct ids, one common non-blank installment id (read, as the
handler reads it, without surrounding white space) and strictly increasing non-zero
installment numbers, and the tenant is resolved, then N rows are upserted; all of them
carry that installment id as provider installment id, their provider charge ids are
pairwise distinct, and their installment numbers are present and strictly increasing. -/
theorem createCharge_installment_rows (w : World) (r : Request)
    (cl lc : Client) (preq : CreatePaymentRequest) (status listStatus : Int)
    (body listBody : Bytes) (params : Values) (tenantID : String) (inst : String)
    (hsub : (cl, preq) ∈ createPayments (CreateAsaasCharge w r).calls)
    (hans : cl.CreatePayment w preq = .ok (status, body))
    (hacc : 200 ≤ status ∧ status ≤ 299)
    (hlist : Call.ListPayments lc params ∈ (CreateAsaasCharge w r).calls)
    (hlans : lc.ListPayments w params = .ok (listStatus, listBody))
    (hten : GetCompanyTenantID w (trimSpace (r.query.get "company_id")) = .ok tenantID)
    (hne : (w.unmarshalPaymentsList listBody).1.Data ≠ [])
    (hids : ∀ p ∈ (w.unmarshalPaymentsList listBody).1.Data, trimSpace p.ID ≠ "")
    (hdistinct : ((w.unmarshalPaymentsList listBody).1.Data.map (fun p => p.ID)).Nodup)
    (hinst : ∀ p ∈ (w.unmarshalPaymentsList listBody).1.Data, trimSpace p.Installment = inst)
    (hinstne : inst ≠ "")
    (hnum : ∀ p ∈ (w.unmarshalPaymentsList listBody).1.Data, p.InstallmentNumber ≠ 0)
    (hincr : ((w.unmarshalPaymentsList listBody).1.Data.map
      (fun p => p.InstallmentNumber)).Pairwise (fun a b => a < b)) :
    ∃ (rows : List IamChargeRow) (nums : List Int), upsertBatches (CreateAsaasCharge w r).calls = [rows] ∧
      rows.length = (w.unmarshalPaymentsList listBody).1.Data.length ∧
      (∀ row ∈ rows, row.ProviderInstallmentID = some inst) ∧
      (rows.map (fun row => row.ProviderChargeID)).Nodup ∧
      rows.map (fun row => row.InstallmentNumber) = nums.map some ∧
      nums.Pairwise (fun a b => a < b) := by
  have hacc2 : 200 ≤ status ∧ status < 300 := by omega
  have hb := CreateAsaasCharge_reconciled_batches w r cl lc preq status listStatus body
    listBody params tenantID hsub hans hacc2 hlist hlans hten
  have hf : (w.unmarshalPaymentsList listBody).1.Data.filter
      (fun p => trimSpace p.ID ≠ "") = (w.unmarshalPaymentsList listBody).1.Data := by
    rw [List.filter_eq_self]
    intro p hp
    simpa using hids p hp
  rw [rowsToPersist_eq, hf, if_neg hne] at hb
  refine ⟨_, (w.unmarshalPaymentsList listBody).1.Data.map (fun p => p.InstallmentNumber),
    hb, by simp, ?_, ?_, ?_, hincr⟩
  · intro row hrow
    rw [List.mem_map] at hrow
    obtain ⟨p, hp, rfl⟩ := hrow
    have h1 := hinst p hp
    simp [CreateAsaasCharge.rowOfPayment, h1, hinstne]
  · simpa [CreateAsaasCharge.rowOfPayment, Function.comp_def] using hdistinct
  · rw [List.map_map, List.map_map]
    apply List.map_congr_left
    intro p hp
    simp [CreateAsaasCharge.rowOfPayment, hnum p hp]

/-- C8, exercised on the installment plan of three payments. -/
theorem createCharge_installment_rows_witness :
    ∃ (rows : List IamChargeRow) (nums : List Int), upsertBatches (CreateAsaasCharge installmentWorld demoRequest).calls = [rows] ∧
      rows.length = 3 ∧
      (∀ row ∈ rows, row.ProviderInstallmentID = some "ins_1") ∧
      (rows.map (fun row => row.ProviderChargeID)).Nodup ∧
      rows.map (fun row => row.InstallmentNumber) = nums.map some ∧
      nums.Pairwise (fun a b => a < b) :=
  createCharge_installment_rows installmentWorld demoRequest demoClient demoClient
    demoPaymentRequest 200 200 "created-pay_1" "list-pay_1"
    [("customer", "cus_1"), ("limit", "100"), ("offset", "0"), ("installment", "ins_1")]
    "tenant_1" "ins_1"
    (by decide) rfl (by decide) (by decide) rfl rfl (by decide) (by decide) (by decide)
    (by decide) (by decide) (by decide) (by decide)

/-- C9. If `GetCompanyTenantID` fails (the handler calls it only after the provider
accepted the charge), the handler responds 502 with an error body, not the provider
payload, and hands no row to `UpsertCharges`. -/
theorem createCharge_tenant_failure (w : World) (r : Request) (companyID e : String)
    (hcall : Call.GetCompanyTenantID companyID ∈ (CreateAsaasCharge w r).calls)
    (hfail : GetCompanyTenantID w companyID = .error e) :
    (CreateAsaasCharge w r).resp.status = 502 ∧
    (CreateAsaasCharge w r).resp.body =
      Body.json [("error", .str "failed to resolve tenant for company")] ∧
    upsertBatches (CreateAsaasCharge w r).calls = [] := by
  rcases CreateAsaasCharge_shape w r with
    hearly | ⟨pre, client, cust, decoded, -, -, -, h3, h4, heq⟩
  · have := mem_tenantLookups hcall
    rw [hearly.2.2.1] at this
    simp at this
  · rw [heq] at hcall ⊢
    simp only [List.mem_append] at hcall
    rcases hcall with hpre | hsubmit
    · have := mem_tenantLookups hpre
      rw [h3] at this
      simp at this
    · obtain ⟨hresp, hups⟩ := submit_tenant_failure w client _ _ _ cust _ companyID e
        hsubmit hfail
      simp only [hresp, upsertBatches_append, h4, hups]
      exact ⟨rfl, rfl, rfl⟩

/-- C9, exercised: the tenant of C1 cannot be read after the provider accepted. -/
theorem createCharge_tenant_failure_witness :
    (CreateAsaasCharge tenantFailWorld demoRequest).resp.status = 502 ∧
    (CreateAsaasCharge tenantFailWorld demoRequest).resp.body =
      Body.json [("error", .str "failed to resolve tenant for company")] ∧
    upsertBatches (CreateAsaasCharge tenantFailWorld demoRequest).calls = [] :=
  createCharge_tenant_failure tenantFailWorld demoRequest "C1" "connection reset by peer"
    (by decide) rfl

/-- C10. When the provider accepts the charge and the list call, the tenant lookup and
the upsert all succeed, the status and the body of the response are exactly the status
and the bytes of the provider's create-payment response. -/
theorem createCharge_success_passes_payload_through (w : World) (r : Request)
    (cl lc : Client) (preq : CreatePaymentRequest) (status listStatus : Int)
    (body listBody : Bytes) (params : Values) (tenantID : String)
    (hsub : (cl, preq) ∈ createPayments (CreateAsaasCharge w r).calls)
    (hans : cl.CreatePayment w preq = .ok (status, body))
    (hacc : 200 ≤ status ∧ status ≤ 299)
    (hlist : Call.ListPayments lc params ∈ (CreateAsaasCharge w r).calls)
    (hlans : lc.ListPayments w params = .ok (listStatus, listBody))
    (hten : GetCompanyTenantID w (trimSpace (r.query.get "company_id")) = .ok tenantID)
    (hups : ∀ rows, Call.UpsertCharges rows ∈ (CreateAsaasCharge w r).calls →
      UpsertCharges w rows = .ok ()) :
    (CreateAsaasCharge w r).resp.status = status ∧
    (CreateAsaasCharge w r).resp.body = Body.raw body := by
  have hacc2 : 200 ≤ status ∧ status < 300 := by omega
  obtain ⟨pre, decoded, -, -, -, -, -, -, -, hcalls, hresp⟩ :=
    CreateAsaasCharge_reconciled w r cl lc preq status listStatus body listBody params tenantID
      hsub hans hacc2 hlist hlans hten
  have hok := hups (CreateAsaasCharge.rowsToPersist w tenantID
    (trimSpace (r.query.get "accounting_office_id")) (trimSpace (r.query.get "company_id"))
    (trimSpace (r.query.get "contract_id")) (w.unmarshalPayment body).1
    (w.unmarshalPaymentsList listBody).1.Data) (by rw [hcalls]; simp)
  rw [hresp, hok]
  exact ⟨rfl, rfl⟩

/-- C10, exercised on the sample charge. -/
theorem createCharge_success_passes_payload_through_witness :
    (CreateAsaasCharge demoWorld demoRequest).resp.status = 200 ∧
    (CreateAsaasCharge demoWorld demoRequest).resp.body = Body.raw "created-pay_1" :=
  createCharge_success_passes_payload_through demoWorld demoRequest demoClient demoClient
    demoPaymentRequest 200 200 "created-pay_1" "list-pay_1"
    [("customer", "cus_1"), ("limit", "100"), ("offset", "0")] "tenant_1"
    (by decide) rfl (by decide) (by decide) rfl rfl
    (by
      intro rows hrows
      have hrows2 : rows = [CreateAsaasCharge.rowOfPayment demoWorld "tenant_1" "O1" "C1" "T1"
          demoPayment] := by
        have hb : upsertBatches (CreateAsaasCharge demoWorld demoRequest).calls =
            [[CreateAsaasCharge.rowOfPayment demoWorld "tenant_1" "O1" "C1" "T1"
              demoPayment]] := by decide
        have := mem_upsertBatches hrows
        rw [hb] at this
        simpa using this
      rw [hrows2]
      rfl)


/-! ## Go strings: trimming -/

theorem dropWhile_fixed_of_initial (p : Char → Bool) (l l2 : List Char)
    (hfix : l2.dropWhile p = l2) (hpre : l <+: l2) : l.dropWhile p = l := by
  cases l with
  | nil => rfl
  | cons a as =>
    obtain ⟨t, ht⟩ := hpre
    subst ht
    cases hp : p a with
    | false => simp [List.dropWhile, hp]
    | true =>
      simp only [List.cons_append, List.dropWhile, hp] at hfix
      have hlen := congrArg List.length hfix
      have hle := (List.dropWhile_sublist (l := as ++ t) p).length_le
      exfalso
      simp only [List.append_eq, List.length_cons] at hlen
      omega

theorem trimSpace_idempotent (s : String) : trimSpace (trimSpace s) = trimSpace s := by
  have hdata : ∀ x : String,
      trimSpace x = ⟨(x.data.dropWhile isSpace).rdropWhile isSpace⟩ := fun _ => rfl
  rw [hdata (trimSpace s), hdata s]
  congr 1
  show List.rdropWhile isSpace (List.dropWhile isSpace
    ((s.data.dropWhile isSpace).rdropWhile isSpace)) = _
  rw [dropWhile_fixed_of_initial isSpace _ (s.data.dropWhile isSpace)
    (List.dropWhile_idempotent _ _) (List.rdropWhile_prefix _ _)]
  exact List.rdropWhile_idempotent _ _

/-! ## The customer phase of `CreateAsaasCharge` -/

theorem submit_calls_afterCustomer (w : World) (client : Client) (o c k cust : String)
    (req : AsaasCreateChargeRequest) :
    ∀ call ∈ (CreateAsaasCharge.submit w client o c k cust req).calls,
      call.afterCustomer = true := by
  unfold CreateAsaasCharge.submit
  simp only []
  split
  · simp [Call.afterCustomer]
  · split
    · rename_i status body _ _
      have hp : ∀ call ∈ (CreateAsaasCharge.persist w client o c k cust req body).2,
          call.afterCustomer = true := by
        rw [persist_eq]
        repeat' split
        all_goals simp [Call.afterCustomer]
      split
      all_goals
        rename_i heq
        rw [heq] at hp
        simpa [Call.afterCustomer] using hp
    · simp [Call.afterCustomer]

/-- The handler either returns before it turns to the customer of the company, having
made at most the credential resolution, or runs the customer phase and, when that
yields a customer id, the submission phase. -/
theorem CreateAsaasCharge_customer_phase (w : World) (r : Request) :
    ((CreateAsaasCharge w r).calls = [] ∨
      (CreateAsaasCharge w r).calls =
        [Call.GetBillingIntegrationForOffice (trimSpace (r.query.get "accounting_office_id"))
          (normalizeProvider w "ASAAS")]) ∨
    ∃ client decoded,
      w.decodeCreateChargeRequest r.body = some decoded ∧
      trimSpace (r.query.get "company_id") ≠ "" ∧
      CreateAsaasCharge w r =
        match CreateAsaasCharge.resolveCustomer w client (newRequestID w)
            (trimSpace (r.query.get "company_id")) with
        | (.error early, calls) =>
          { resp := early
            calls := Call.GetBillingIntegrationForOffice
              (trimSpace (r.query.get "accounting_office_id"))
              (normalizeProvider w "ASAAS") :: calls }
        | (.ok cust, calls) =>
          { resp := (CreateAsaasCharge.submit w client
              (trimSpace (r.query.get "accounting_office_id"))
              (trimSpace (r.query.get "company_id"))
              (trimSpace (r.query.get "contract_id")) cust
              { decoded with DueDate := trimSpace decoded.DueDate }).resp
            calls := Call.GetBillingIntegrationForOffice
              (trimSpace (r.query.get "accounting_office_id"))
              (normalizeProvider w "ASAAS") ::
              (calls ++ (CreateAsaasCharge.submit w client
                (trimSpace (r.query.get "accounting_office_id"))
                (trimSpace (r.query.get "company_id"))
                (trimSpace (r.query.get "contract_id")) cust
                { decoded with DueDate := trimSpace decoded.DueDate }).calls) } := by
  generalize ho : CreateAsaasCharge w r = out
  unfold CreateAsaasCharge at ho
  simp only [] at ho
  split at ho
  · subst ho; left; left; rfl
  split at ho
  · subst ho; left; left; rfl
  rename_i hcompany
  split at ho
  · subst ho; left; left; rfl
  split at ho
  · subst ho; left; left; rfl
  rename_i decoded hdec
  split at ho
  · subst ho; left; left; rfl
  split at ho
  · subst ho; left; left; rfl
  split at ho
  · subst ho; left; left; rfl
  split at ho
  · subst ho; left; right; rfl
  rename_i cfg hcfg
  split at ho
  · subst ho; left; right; rfl
  right
  refine ⟨NewClient cfg.BaseAPI cfg.Token, decoded, hdec, hcompany, ?_⟩
  rw [← ho]


theorem resolveCustomer_calls_beforeSubmit (w : World) (client : Client)
    (rid companyID : String) :
    ∀ call ∈ (CreateAsaasCharge.resolveCustomer w client rid companyID).2,
      call.afterCustomer = false := by
  unfold CreateAsaasCharge.resolveCustomer
  simp only []
  repeat' split
  all_goals simp [Call.afterCustomer]

theorem resolveCustomer_mapped (w : World) (client : Client) (rid companyID id : String)
    (hmap : GetCompanyAsaasCustomerID w companyID = .ok id) (hid : trimSpace id ≠ "") :
    CreateAsaasCharge.resolveCustomer w client rid companyID =
      (.ok id, [Call.GetCompanyAsaasCustomerID companyID]) := by
  unfold CreateAsaasCharge.resolveCustomer
  simp only [hmap, if_neg hid]

theorem resolveCustomer_written (w : World) (client : Client) (rid companyID c id : String)
    (hmem : (c, id) ∈ mappingWrites (CreateAsaasCharge.resolveCustomer w client rid companyID).2)
    (hok : UpsertCompanyAsaasIntegration w c id = .ok ()) :
    c = companyID ∧ trimSpace id ≠ "" ∧
    (CreateAsaasCharge.resolveCustomer w client rid companyID).1 = .ok id ∧
    (createCustomers (CreateAsaasCharge.resolveCustomer w client rid companyID).2).length = 1 ∧
    mappingWrites (CreateAsaasCharge.resolveCustomer w client rid companyID).2 =
      [(companyID, id)] := by
  revert hmem
  unfold CreateAsaasCharge.resolveCustomer
  simp only []
  repeat' split
  all_goals simp [mappingWrites, createCustomers]
  all_goals
    intro h1 h2
    subst h1 h2
    simp_all

theorem resolveCustomer_write_failed (w : World) (client : Client)
    (rid companyID c id e : String)
    (hmem : (c, id) ∈ mappingWrites (CreateAsaasCharge.resolveCustomer w client rid companyID).2)
    (hfail : UpsertCompanyAsaasIntegration w c id = .error e) :
    ∃ payload,
      (CreateAsaasCharge.resolveCustomer w client rid companyID).1 =
        .error (writeJSON StatusBadGateway payload) ∧
      ("error", JVal.str "failed to persist asaas integration") ∈ payload ∧
      ("request_id", JVal.str rid) ∈ payload := by
  revert hmem
  unfold CreateAsaasCharge.resolveCustomer
  simp only []
  repeat' split
  all_goals simp [mappingWrites]
  all_goals
    intro h1 h2
    subst h1 h2
    simp_all
  all_goals exact ⟨_, rfl, by simp, by simp⟩

theorem resolveCustomer_profile (w : World) (client : Client) (rid companyID c : String)
    (hmem : Call.GetCompanyAsaasCustomerPayload c ∈
      (CreateAsaasCharge.resolveCustomer w client rid companyID).2) :
    c = companyID ∧
    (GetCompanyAsaasCustomerPayload w companyID = .ok none →
      (CreateAsaasCharge.resolveCustomer w client rid companyID).1 =
        .error (writeJSON StatusNotFound
          [("error", .str "company not found to create asaas customer")]) ∧
      createCustomers (CreateAsaasCharge.resolveCustomer w client rid companyID).2 = []) ∧
    (∀ e, GetCompanyAsaasCustomerPayload w companyID = .error e →
      (CreateAsaasCharge.resolveCustomer w client rid companyID).1 =
        .error (writeJSON StatusBadGateway
          [("error", .str "failed to load company data to create asaas customer")]) ∧
      createCustomers (CreateAsaasCharge.resolveCustomer w client rid companyID).2 = []) := by
  revert hmem
  unfold CreateAsaasCharge.resolveCustomer
  simp only []
  repeat' split
  all_goals simp_all [createCustomers]


theorem afterCustomer_projections (calls : List Call)
    (h : ∀ call ∈ calls, call.afterCustomer = true) :
    createCustomers calls = [] ∧ mappingWrites calls = [] := by
  induction calls with
  | nil => simp [createCustomers, mappingWrites]
  | cons c cs ih =>
    have hc := h c (by simp)
    have hcs := ih (fun call hcall => h call (by simp [hcall]))
    cases c <;> simp [Call.afterCustomer] at hc <;>
      simpa [createCustomers, mappingWrites] using hcs

theorem createCustomers_append (xs ys : List Call) :
    createCustomers (xs ++ ys) = createCustomers xs ++ createCustomers ys := by
  simp [createCustomers]

theorem mappingWrites_append (xs ys : List Call) :
    mappingWrites (xs ++ ys) = mappingWrites xs ++ mappingWrites ys := by
  simp [mappingWrites]

theorem MappingStore.after_eq_foldl (w : World) (calls : List Call) (m : MappingStore) :
    m.after w calls =
      (mappingWrites calls).foldl (fun st kv =>
        match UpsertCompanyAsaasIntegration w kv.1 kv.2 with
        | .ok _ => st.upsert kv.1 kv.2
        | .error _ => st) m := by
  unfold MappingStore.after
  induction calls generalizing m with
  | nil => simp [mappingWrites]
  | cons c cs ih =>
    cases c <;> simp [mappingWrites, List.foldl] <;> exact ih _

theorem MappingStore.lookup_upsert (m : MappingStore) (companyID id : String) :
    (m.upsert companyID id).lookup companyID = id := by
  simp [MappingStore.upsert, MappingStore.lookup]

/-- What a run that stored a mapping looks like: one customer creation, one mapping
write, and a store that maps the company to the stored id afterwards. -/
theorem CreateAsaasCharge_stored (w : World) (r : Request) (m : MappingStore)
    (id : String)
    (hstored : (trimSpace (r.query.get "company_id"), id) ∈
      mappingWrites (CreateAsaasCharge w r).calls)
    (hok : UpsertCompanyAsaasIntegration w (trimSpace (r.query.get "company_id")) id = .ok ()) :
    trimSpace id ≠ "" ∧
    (createCustomers (CreateAsaasCharge w r).calls).length = 1 ∧
    (m.after w (CreateAsaasCharge w r).calls).lookup (trimSpace (r.query.get "company_id")) = id := by
  rcases CreateAsaasCharge_customer_phase w r with (h0 | h1) | ⟨client, decoded, -, -, heq⟩
  · rw [h0] at hstored
    simp [mappingWrites] at hstored
  · rw [h1] at hstored
    simp [mappingWrites] at hstored
  · rcases hrc : CreateAsaasCharge.resolveCustomer w client (newRequestID w)
        (trimSpace (r.query.get "company_id")) with ⟨res, calls⟩
    rw [hrc] at heq
    have hw := resolveCustomer_written w client (newRequestID w)
      (trimSpace (r.query.get "company_id")) (trimSpace (r.query.get "company_id")) id
    rw [hrc] at hw
    cases res with
    | error early =>
      simp only [] at heq
      rw [heq] at hstored
      have hmem : (trimSpace (r.query.get "company_id"), id) ∈ mappingWrites calls := by
        simpa [mappingWrites] using hstored
      have := (hw hmem hok).2.2.1
      simp at this
    | ok cust =>
      simp only [] at heq
      obtain ⟨hcc, hmw⟩ := afterCustomer_projections _
        (submit_calls_afterCustomer w client (trimSpace (r.query.get "accounting_office_id"))
          (trimSpace (r.query.get "company_id")) (trimSpace (r.query.get "contract_id")) cust
          { decoded with DueDate := trimSpace decoded.DueDate })
      have hall : mappingWrites (CreateAsaasCharge w r).calls = mappingWrites calls := by
        rw [heq]
        show mappingWrites ([_] ++ (calls ++ _)) = _
        rw [mappingWrites_append, mappingWrites_append, hmw]
        simp [mappingWrites]
      have hallc : createCustomers (CreateAsaasCharge w r).calls = createCustomers calls := by
        rw [heq]
        show createCustomers ([_] ++ (calls ++ _)) = _
        rw [createCustomers_append, createCustomers_append, hcc]
        simp [createCustomers]
      rw [hall] at hstored
      obtain ⟨-, hid, -, hlen, hwrites⟩ := hw hstored hok
      refine ⟨hid, by rw [hallc]; exact hlen, ?_⟩
      rw [MappingStore.after_eq_foldl, hall, hwrites]
      simp only [List.foldl, hok]
      exact MappingStore.lookup_upsert _ _ _

/-- What a run that finds a mapping looks like: no customer creation, and every charge
it submits is for the mapped customer. -/
theorem CreateAsaasCharge_mapped (w : World) (r : Request) (id : String)
    (hmap : GetCompanyAsaasCustomerID w (trimSpace (r.query.get "company_id")) = .ok id)
    (hid : trimSpace id ≠ "") :
    createCustomers (CreateAsaasCharge w r).calls = [] ∧
    ∀ cl preq, (cl, preq) ∈ createPayments (CreateAsaasCharge w r).calls →
      preq.Customer = id := by
  rcases CreateAsaasCharge_customer_phase w r with (h0 | h1) | ⟨client, decoded, -, -, heq⟩
  · rw [h0]
    simp [createCustomers, createPayments]
  · rw [h1]
    simp [createCustomers, createPayments]
  · rw [resolveCustomer_mapped w client _ _ id hmap hid] at heq
    simp only [] at heq
    obtain ⟨hcc, -⟩ := afterCustomer_projections _
      (submit_calls_afterCustomer w client (trimSpace (r.query.get "accounting_office_id"))
        (trimSpace (r.query.get "company_id")) (trimSpace (r.query.get "contract_id")) id
        { decoded with DueDate := trimSpace decoded.DueDate })
    rw [heq]
    constructor
    · show createCustomers ([_, _] ++ _) = _
      rw [createCustomers_append, hcc]
      simp [createCustomers]
    · intro cl preq hmem
      have hmem2 : (cl, preq) ∈ createPayments ([Call.GetBillingIntegrationForOffice
          (trimSpace (r.query.get "accounting_office_id")) (normalizeProvider w "ASAAS"),
          Call.GetCompanyAsaasCustomerID (trimSpace (r.query.get "company_id"))] ++
          (CreateAsaasCharge.submit w client (trimSpace (r.query.get "accounting_office_id"))
            (trimSpace (r.query.get "company_id")) (trimSpace (r.query.get "contract_id")) id
            { decoded with DueDate := trimSpace decoded.DueDate }).calls) := hmem
      rw [createPayments_append, submit_createPayments] at hmem2
      simp [createPayments] at hmem2
      rw [hmem2.2]
      rfl

/-- C11. Over a mapping store that starts with no mapping for the company: when
`CreateAsaasCharge` runs twice in sequence for that company (the second run in a world
that answers the mapping lookup from the store the first run left) and the first run
stored the mapping of the customer it created, the provider's create-customer operation
is called exactly once over both runs, and every charge the second run submits is for
the customer id stored by the first. -/
theorem createCharge_customer_created_once (w1 w2 : World) (r1 r2 : Request)
    (m : MappingStore) (company id : String)
    (hr1 : trimSpace (r1.query.get "company_id") = company)
    (hr2 : trimSpace (r2.query.get "company_id") = company)
    (_hstart : m.lookup company = "")
    (_hserve1 : GetCompanyAsaasCustomerID w1 company = .ok (m.lookup company))
    (hstored : (company, id) ∈ mappingWrites (CreateAsaasCharge w1 r1).calls)
    (hok : UpsertCompanyAsaasIntegration w1 company id = .ok ())
    (hserve2 : GetCompanyAsaasCustomerID w2 company =
      .ok ((m.after w1 (CreateAsaasCharge w1 r1).calls).lookup company)) :
    (m.after w1 (CreateAsaasCharge w1 r1).calls).lookup company = id ∧
    (createCustomers ((CreateAsaasCharge w1 r1).calls ++
      (CreateAsaasCharge w2 r2).calls)).length = 1 ∧
    ∀ cl preq, (cl, preq) ∈ createPayments (CreateAsaasCharge w2 r2).calls →
      preq.Customer = id := by
  subst hr1
  obtain ⟨hid, hlen, hlook⟩ := CreateAsaasCharge_stored w1 r1 m id hstored hok
  rw [hlook] at hserve2
  rw [← hr2] at hserve2
  obtain ⟨hnone, hcust⟩ := CreateAsaasCharge_mapped w2 r2 id hserve2 hid
  refine ⟨hlook, ?_, hcust⟩
  rw [createCustomers_append, hnone, List.append_nil]
  exact hlen

/-- C11, exercised: two runs of the sample request over the empty store. -/
theorem createCharge_customer_created_once_witness :
    (MappingStore.after (storeWorld []) []
      (CreateAsaasCharge (storeWorld []) demoRequest).calls).lookup "C1" = "cus_9" ∧
    (createCustomers ((CreateAsaasCharge (storeWorld []) demoRequest).calls ++
      (CreateAsaasCharge secondRunWorld demoRequest).calls)).length = 1 ∧
    ∀ cl preq, (cl, preq) ∈ createPayments (CreateAsaasCharge secondRunWorld demoRequest).calls →
      preq.Customer = "cus_9" :=
  createCharge_customer_created_once (storeWorld []) secondRunWorld demoRequest demoRequest
    [] "C1" "cus_9" (by decide) (by decide) (by decide) rfl (by decide) rfl rfl


/-- The company profile read by `GetCompanyAsaasCustomerPayload` is refused when its name
or tax id is blank after trimming. -/
theorem GetCompanyAsaasCustomerPayload_blank (w : World) (companyID raw : String)
    (profile : CompanyAsaasCustomerPayload)
    (hcompany : trimSpace companyID ≠ "")
    (hrpc : RpcPublic w "rpc_get_company_asaas_customer_payload"
      [("p_company_id", trimSpace companyID)] = .ok raw)
    (hraw : trimSpace raw ≠ "" ∧ trimSpace raw ≠ "null")
    (hprofile : w.unmarshalCustomerPayload (trimSpace raw) = .ok profile)
    (hblank : trimSpace profile.Name = "" ∨ trimSpace profile.CpfCnpj = "") :
    GetCompanyAsaasCustomerPayload w companyID =
      .error "company payload missing name or cpfCnpj" := by
  unfold GetCompanyAsaasCustomerPayload
  simp only [hcompany, if_false, hrpc, hprofile]
  rw [if_neg (by simp [hraw.1, hraw.2]), if_pos hblank]

/-- What a run that loads the company profile and gets none, or an error, looks like. -/
theorem CreateAsaasCharge_profile (w : World) (r : Request) (companyID : String)
    (hload : Call.GetCompanyAsaasCustomerPayload companyID ∈ (CreateAsaasCharge w r).calls) :
    companyID = trimSpace (r.query.get "company_id") ∧ companyID ≠ "" ∧
    (GetCompanyAsaasCustomerPayload w companyID = .ok none →
      (CreateAsaasCharge w r).resp = writeJSON StatusNotFound
        [("error", .str "company not found to create asaas customer")] ∧
      createCustomers (CreateAsaasCharge w r).calls = [] ∧
      createPayments (CreateAsaasCharge w r).calls = []) ∧
    (∀ e, GetCompanyAsaasCustomerPayload w companyID = .error e →
      (CreateAsaasCharge w r).resp = writeJSON StatusBadGateway
        [("error", .str "failed to load company data to create asaas customer")] ∧
      createCustomers (CreateAsaasCharge w r).calls = [] ∧
      createPayments (CreateAsaasCharge w r).calls = []) := by
  rcases CreateAsaasCharge_customer_phase w r with
    (h0 | h1) | ⟨client, decoded, -, hcompany, heq⟩
  · rw [h0] at hload
    simp at hload
  · rw [h1] at hload
    simp at hload
  · have hcalls := resolveCustomer_calls w client (newRequestID w)
      (trimSpace (r.query.get "company_id"))
    have hprof := resolveCustomer_profile w client (newRequestID w)
      (trimSpace (r.query.get "company_id")) companyID
    rcases hrc : CreateAsaasCharge.resolveCustomer w client (newRequestID w)
        (trimSpace (r.query.get "company_id")) with ⟨res, calls⟩
    rw [hrc] at heq hcalls hprof
    have hmem : Call.GetCompanyAsaasCustomerPayload companyID ∈ calls := by
      cases res with
      | error early =>
        simp only [] at heq
        rw [heq] at hload
        simpa using hload
      | ok cust =>
        simp only [] at heq
        rw [heq] at hload
        simp only [List.mem_cons, List.mem_append] at hload
        rcases hload with h | h | h
        · cases h
        · exact h
        · have := submit_calls_afterCustomer w client _ _ _ _ _ _ h
          simp [Call.afterCustomer] at this
    obtain ⟨hc, hnone, herr⟩ := hprof hmem
    subst hc
    refine ⟨rfl, hcompany, ?_, ?_⟩
    · intro hn
      obtain ⟨hres, hcc⟩ := hnone hn
      simp only [] at hres
      subst hres
      simp only [] at heq
      rw [heq]
      refine ⟨rfl, ?_, ?_⟩
      · simpa [createCustomers] using hcc
      · simpa [createPayments] using hcalls.1
    · intro e he
      obtain ⟨hres, hcc⟩ := herr e he
      simp only [] at hres
      subst hres
      simp only [] at heq
      rw [heq]
      refine ⟨rfl, ?_, ?_⟩
      · simpa [createCustomers] using hcc
      · simpa [createPayments] using hcalls.1

/-- C12, as stated, fails: with no mapping and a company profile whose name is blank
after trimming, the handler answers 502, not 400. -/
theorem createCharge_profile_counterexample :
    GetCompanyAsaasCustomerID blankProfileWorld "C1" = .ok "" ∧
    (blankProfileWorld.unmarshalCustomerPayload "profile-acme").toOption.map
      (fun profile => trimSpace profile.Name) = some "" ∧
    (CreateAsaasCharge blankProfileWorld demoRequest).resp.status = 502 :=
  ⟨rfl, by decide, by decide⟩

/-- C12, amended. During customer auto-creation in `CreateAsaasCharge` (the handler
loads the company profile because no mapping exists): when the Tenant Data Store has no
profile for the company the handler fails with not-found (404), and when the profile's
name or tax id is blank after trimming it fails with a gateway error (502); in both
cases no provider customer is created and no charge is submitted. -/
theorem createCharge_profile_missing_or_blank (w : World) (r : Request) (companyID : String)
    (hload : Call.GetCompanyAsaasCustomerPayload companyID ∈ (CreateAsaasCharge w r).calls) :
    (GetCompanyAsaasCustomerPayload w companyID = .ok none →
      (CreateAsaasCharge w r).resp.status = 404 ∧
      createCustomers (CreateAsaasCharge w r).calls = [] ∧
      createPayments (CreateAsaasCharge w r).calls = []) ∧
    (∀ raw profile,
      RpcPublic w "rpc_get_company_asaas_customer_payload" [("p_company_id", companyID)]
        = .ok raw →
      trimSpace raw ≠ "" ∧ trimSpace raw ≠ "null" →
      w.unmarshalCustomerPayload (trimSpace raw) = .ok profile →
      trimSpace profile.Name = "" ∨ trimSpace profile.CpfCnpj = "" →
      (CreateAsaasCharge w r).resp.status = 502 ∧
      createCustomers (CreateAsaasCharge w r).calls = [] ∧
      createPayments (CreateAsaasCharge w r).calls = []) := by
  obtain ⟨hc, hne, hnone, herr⟩ := CreateAsaasCharge_profile w r companyID hload
  have htrim : trimSpace companyID = companyID := by
    rw [hc]; exact trimSpace_idempotent _
  constructor
  · intro hn
    obtain ⟨hresp, hcc, hcp⟩ := hnone hn
    rw [hresp]
    exact ⟨rfl, hcc, hcp⟩
  · intro raw profile hrpc hraw hprofile hblank
    have hfail := GetCompanyAsaasCustomerPayload_blank w companyID raw profile
      (by rw [htrim]; exact hne) (by rw [htrim]; exact hrpc) hraw hprofile hblank
    obtain ⟨hresp, hcc, hcp⟩ := herr _ hfail
    rw [hresp]
    exact ⟨rfl, hcc, hcp⟩

/-- C12, amended, exercised: a world without profile answers 404, a world with a blank
profile name answers 502. -/
theorem createCharge_profile_missing_or_blank_witness :
    ((CreateAsaasCharge noProfileWorld demoRequest).resp.status = 404 ∧
      createCustomers (CreateAsaasCharge noProfileWorld demoRequest).calls = [] ∧
      createPayments (CreateAsaasCharge noProfileWorld demoRequest).calls = []) ∧
    ((CreateAsaasCharge blankProfileWorld demoRequest).resp.status = 502 ∧
      createCustomers (CreateAsaasCharge blankProfileWorld demoRequest).calls = [] ∧
      createPayments (CreateAsaasCharge blankProfileWorld demoRequest).calls = []) :=
  ⟨(createCharge_profile_missing_or_blank noProfileWorld demoRequest "C1" (by decide)).1 rfl,
   (createCharge_profile_missing_or_blank blankProfileWorld demoRequest "C1" (by decide)).2
      "profile-acme" { Name := "  ", CpfCnpj := "12345678000199" } rfl (by decide) rfl
      (Or.inl (by decide))⟩

/-- C13. If `UpsertCompanyAsaasIntegration` fails (the handler calls it only after the
provider created the customer), the handler responds 502 with an error body that
carries the `request_id` of the run, and submits no charge, makes no list call and
upserts no row. -/
theorem createCharge_mapping_write_failure (w : World) (r : Request)
    (companyID id e : String)
    (hstore : (companyID, id) ∈ mappingWrites (CreateAsaasCharge w r).calls)
    (hfail : UpsertCompanyAsaasIntegration w companyID id = .error e) :
    (CreateAsaasCharge w r).resp.status = 502 ∧
    (∃ payload, (CreateAsaasCharge w r).resp.body = Body.json payload ∧
      ("error", JVal.str "failed to persist asaas integration") ∈ payload ∧
      ("request_id", JVal.str (newRequestID w)) ∈ payload) ∧
    createPayments (CreateAsaasCharge w r).calls = [] ∧
    listQueries (CreateAsaasCharge w r).calls = [] ∧
    upsertBatches (CreateAsaasCharge w r).calls = [] := by
  rcases CreateAsaasCharge_customer_phase w r with
    (h0 | h1) | ⟨client, decoded, -, -, heq⟩
  · rw [h0] at hstore
    simp [mappingWrites] at hstore
  · rw [h1] at hstore
    simp [mappingWrites] at hstore
  · have hcalls := resolveCustomer_calls w client (newRequestID w)
      (trimSpace (r.query.get "company_id"))
    have hwf := resolveCustomer_write_failed w client (newRequestID w)
      (trimSpace (r.query.get "company_id")) companyID id e
    rcases hrc : CreateAsaasCharge.resolveCustomer w client (newRequestID w)
        (trimSpace (r.query.get "company_id")) with ⟨res, calls⟩
    rw [hrc] at heq hcalls hwf
    have hmem : (companyID, id) ∈ mappingWrites calls := by
      cases res with
      | error early =>
        simp only [] at heq
        rw [heq] at hstore
        simpa [mappingWrites] using hstore
      | ok cust =>
        simp only [] at heq
        rw [heq] at hstore
        obtain ⟨-, hmw⟩ := afterCustomer_projections _
          (submit_calls_afterCustomer w client (trimSpace (r.query.get "accounting_office_id"))
            (trimSpace (r.query.get "company_id")) (trimSpace (r.query.get "contract_id")) cust
            { decoded with DueDate := trimSpace decoded.DueDate })
        have hstore2 : (companyID, id) ∈ mappingWrites ([Call.GetBillingIntegrationForOffice
            (trimSpace (r.query.get "accounting_office_id")) (normalizeProvider w "ASAAS")] ++
            (calls ++ (CreateAsaasCharge.submit w client
              (trimSpace (r.query.get "accounting_office_id"))
              (trimSpace (r.query.get "company_id")) (trimSpace (r.query.get "contract_id")) cust
              { decoded with DueDate := trimSpace decoded.DueDate }).calls)) := hstore
        rw [mappingWrites_append, mappingWrites_append, hmw] at hstore2
        simpa [mappingWrites] using hstore2
    obtain ⟨payload, hres, herror, hrid⟩ := hwf hmem hfail
    simp only [] at hres
    subst hres
    simp only [] at heq
    rw [heq]
    refine ⟨rfl, ⟨payload, rfl, herror, hrid⟩, ?_, ?_, ?_⟩
    · simpa [createPayments] using hcalls.1
    · simpa [listQueries] using hcalls.2.1
    · simpa [upsertBatches] using hcalls.2.2.2

/-- C13, exercised: the write procedure of the store is refused. -/
theorem createCharge_mapping_write_failure_witness :
    (CreateAsaasCharge mappingWriteFailWorld demoRequest).resp.status = 502 ∧
    (∃ payload, (CreateAsaasCharge mappingWriteFailWorld demoRequest).resp.body =
        Body.json payload ∧
      ("error", JVal.str "failed to persist asaas integration") ∈ payload ∧
      ("request_id", JVal.str "0a1b2c3d4e5f") ∈ payload) ∧
    createPayments (CreateAsaasCharge mappingWriteFailWorld demoRequest).calls = [] ∧
    listQueries (CreateAsaasCharge mappingWriteFailWorld demoRequest).calls = [] ∧
    upsertBatches (CreateAsaasCharge mappingWriteFailWorld demoRequest).calls = [] :=
  createCharge_mapping_write_failure mappingWriteFailWorld demoRequest "C1" "cus_9"
    "rpc_upsert_company_asaas_integration failed: rpc rpc_upsert_company_asaas_integration failed: HTTP 403: permission denied for function"
    (by decide) rfl


/-- The conflict answer of `CreateAsaasCustomer`. For a request with non-blank office
id, company id, name and tax id, when the mapping lookup returns a provider customer id
already mapped to the company, the handler responds 409 carrying that id, and calls
neither the credential resolver nor the provider's create-customer operation, nor writes
the mapping. -/
theorem createCustomer_existing_mapping_conflict (w : World) (r : Request)
    (decoded : AsaasCreateCustomerRequest) (existing : String)
    (hoffice : trimSpace (r.query.get "accounting_office_id") ≠ "")
    (hcompany : trimSpace (r.query.get "company_id") ≠ "")
    (hjson : w.decodeCreateCustomerRequest r.body = some decoded)
    (hname : trimSpace decoded.Name ≠ "")
    (htax : trimSpace decoded.CpfCnpj ≠ "")
    (hmap : GetCompanyAsaasCustomerID w (trimSpace (r.query.get "company_id")) = .ok existing)
    (hexists : trimSpace existing ≠ "") :
    (CreateAsaasCustomer w r).resp.status = 409 ∧
    (∃ payload, (CreateAsaasCustomer w r).resp.body = Body.json payload ∧
      ("asaas_customer_id", JVal.str existing) ∈ payload) ∧
    credentialLookups (CreateAsaasCustomer w r).calls = [] ∧
    createCustomers (CreateAsaasCustomer w r).calls = [] ∧
    mappingWrites (CreateAsaasCustomer w r).calls = [] := by
  have hreq : ¬ (trimSpace decoded.Name = "" ∨ trimSpace decoded.CpfCnpj = "") := by
    simp [hname, htax]
  generalize ho : CreateAsaasCustomer w r = out
  unfold CreateAsaasCustomer at ho
  simp only [hoffice, hcompany, hjson, if_false, hmap, if_neg hreq, ne_eq, hexists,
    not_false_eq_true, if_true] at ho
  subst ho
  refine ⟨rfl, ⟨_, rfl, by simp⟩, ?_, ?_, ?_⟩
  · simp [credentialLookups]
  · simp [createCustomers]
  · simp [mappingWrites]

/-- The conflict answer, exercised: company C1 is already mapped to cus_1. -/
theorem createCustomer_existing_mapping_conflict_witness :
    (CreateAsaasCustomer demoWorld { demoRequest with body := "acme" }).resp.status = 409 ∧
    (∃ payload, (CreateAsaasCustomer demoWorld { demoRequest with body := "acme" }).resp.body =
        Body.json payload ∧ ("asaas_customer_id", JVal.str "cus_1") ∈ payload) ∧
    credentialLookups (CreateAsaasCustomer demoWorld { demoRequest with body := "acme" }).calls
      = [] ∧
    createCustomers (CreateAsaasCustomer demoWorld { demoRequest with body := "acme" }).calls
      = [] ∧
    mappingWrites (CreateAsaasCustomer demoWorld { demoRequest with body := "acme" }).calls
      = [] :=
  createCustomer_existing_mapping_conflict demoWorld { demoRequest with body := "acme" }
    { Name := "ACME Ltda", CpfCnpj := "12345678000199", Company := true } "cus_1"
    (by decide) (by decide) (by decide) (by decide) (by decide) rfl (by decide)

/-- C14, the failing run. Company C1 is mapped to cus_1 and the lookup procedure answers
500: `CreateAsaasCustomer` goes on, creates the provider customer cus_9 and writes the
mapping of C1 over the existing one, where `CreateAsaasCharge` answers 502 and creates
nothing. -/
theorem createCustomer_lookup_failure_overwrites_mapping :
    MappingStore.lookup [("C1", "cus_1")] "C1" = "cus_1" ∧
    (∃ e, GetCompanyAsaasCustomerID lookupFailWorld "C1" = .error e) ∧
    (CreateAsaasCustomer lookupFailWorld { demoRequest with body := "acme" }).resp.status
      = 200 ∧
    (createCustomers
      (CreateAsaasCustomer lookupFailWorld { demoRequest with body := "acme" }).calls).length
      = 1 ∧
    mappingWrites (CreateAsaasCustomer lookupFailWorld { demoRequest with body := "acme" }).calls
      = [("C1", "cus_9")] ∧
    MappingStore.lookup (MappingStore.after lookupFailWorld [("C1", "cus_1")]
      (CreateAsaasCustomer lookupFailWorld { demoRequest with body := "acme" }).calls) "C1"
      = "cus_9" ∧
    (CreateAsaasCharge lookupFailWorld demoRequest).resp.status = 502 ∧
    createCustomers (CreateAsaasCharge lookupFailWorld demoRequest).calls = [] :=
  ⟨by decide, ⟨_, rfl⟩, by decide, by decide, by decide, by decide, by decide, by decide⟩

/-- C15. For a webhook event with a payment whose provider charge id matches an existing
row, `updateChargeFromWebhook` upserts exactly one row: tenant, office, company,
contract, provider installment id and installment number are those of the existing row;
provider charge id, value, net value, description, billing method, status, due date,
original due date, invoice URL, invoice number and external reference are those of the
event's payment; the raw payload is the JSON encoding of that payment. -/
theorem webhook_upserts_row_of_event (w : World) (event : AsaasWebhookEvent)
    (p : AsaasPaymentResponse) (existing : IamChargeRow)
    (hp : event.Payment = some p)
    (hrow : GetChargeByProviderID w "ASAAS" p.ID = .ok existing) :
    ∃ row, upsertBatches (updateChargeFromWebhook w event).2 = [[row]] ∧
      row.TenantID = existing.TenantID ∧
      row.AccountingOfficeID = existing.AccountingOfficeID ∧
      row.CompanyID = existing.CompanyID ∧
      row.ContractID = existing.ContractID ∧
      row.ProviderInstallmentID = existing.ProviderInstallmentID ∧
      row.InstallmentNumber = existing.InstallmentNumber ∧
      row.ProviderChargeID = p.ID ∧
      row.Value = p.Value ∧
      row.NetValue = some p.NetValue ∧
      row.Description = some p.Description ∧
      row.BillingType = some p.BillingType ∧
      row.Status = some p.Status ∧
      row.DueDate = some p.DueDate ∧
      row.OriginalDueDate = some p.OriginalDueDate ∧
      row.InvoiceURL = some p.InvoiceURL ∧
      row.InvoiceNumber = some p.InvoiceNumber ∧
      row.ExternalReference = some p.ExternalReference ∧
      row.ProviderPayload = w.marshalPayment p := by
  refine ⟨updateChargeFromWebhook.row w p existing, ?_, rfl, rfl, rfl, rfl, rfl, rfl, rfl, rfl,
    rfl, rfl, rfl, rfl, rfl, rfl, rfl, rfl, rfl, rfl⟩
  unfold updateChargeFromWebhook
  simp only [hp, hrow]
  split <;> simp [upsertBatches]

/-- C15, exercised: the event that reports pay_1 as received, over the row stored for it. -/
theorem webhook_upserts_row_of_event_witness :
    ∃ row, upsertBatches (updateChargeFromWebhook demoWorld
        { ID := "evt_1", Event := "PAYMENT_RECEIVED",
          Payment := some { demoPayment with Status := "RECEIVED" } }).2 = [[row]] ∧
      row.TenantID = "tenant_1" ∧ row.ProviderChargeID = "pay_1" ∧
      row.Status = some "RECEIVED" ∧ row.Value = 150 :=
  (webhook_upserts_row_of_event demoWorld
    { ID := "evt_1", Event := "PAYMENT_RECEIVED",
      Payment := some { demoPayment with Status := "RECEIVED" } }
    { demoPayment with Status := "RECEIVED" }
    { TenantID := "tenant_1", AccountingOfficeID := "O1", CompanyID := "C1",
      ContractID := "T1", Provider := "ASAAS", ProviderChargeID := "pay_1", Value := 150,
      BillingType := some "PIX", Status := some "PENDING", DueDate := some "2025-03-10",
      ProviderPayload := "pay_1" } rfl rfl).imp
    (fun _ h => ⟨h.1, h.2.1, h.2.2.2.2.2.2.2.1, h.2.2.2.2.2.2.2.2.2.2.2.2.1,
      h.2.2.2.2.2.2.2.2.1⟩)

/-- C16, the failing run. `CreateAsaasCharge` persisted the row of pay_1, a payment
without description, net value, original due date or invoice data; the store returns
that row; the webhook then carries the same payment with only its status set to
RECEIVED.  The row the webhook upserts differs from the persisted one in more than the
status: description, original due date, invoice URL, invoice number and external
reference turn from absent into empty strings, and net value from absent into 0. -/
theorem webhook_paid_rewrites_absent_columns :
    ∃ persisted updated,
      upsertBatches (CreateAsaasCharge demoWorld demoRequest).calls = [[persisted]] ∧
      GetChargeByProviderID demoWorld "ASAAS" "pay_1" = .ok persisted ∧
      upsertBatches (ReceiveAsaasWebhook demoWorld paidWebhookRequest).calls = [[updated]] ∧
      (persisted.Status, updated.Status) = (some "PENDING", some "RECEIVED") ∧
      (persisted.Description, updated.Description) = (none, some "") ∧
      (persisted.NetValue, updated.NetValue) = (none, some 0) ∧
      (persisted.OriginalDueDate, updated.OriginalDueDate) = (none, some "") ∧
      (persisted.InvoiceURL, updated.InvoiceURL) = (none, some "") ∧
      (persisted.InvoiceNumber, updated.InvoiceNumber) = (none, some "") ∧
      (persisted.ExternalReference, updated.ExternalReference) = (none, some "") :=
  ⟨CreateAsaasCharge.rowOfPayment demoWorld "tenant_1" "O1" "C1" "T1" demoPayment,
   updateChargeFromWebhook.row demoWorld { demoPayment with Status := "RECEIVED" }
     (CreateAsaasCharge.rowOfPayment demoWorld "tenant_1" "O1" "C1" "T1" demoPayment),
   by decide, rfl, by decide, by decide, by decide, by decide, by decide, by decide,
   by decide, by decide⟩

/-- C17. For every accepted webhook request (no secret configured, or the token
matches) whose event carries a payment for which the charges table has no matching row
(`GetChargeByProviderID` fails), `ReceiveAsaasWebhook` responds with status 200 and makes
no upsert and no delete on the charges table. -/
theorem webhook_unknown_charge_no_mutation (w : World) (r : Request)
    (event : AsaasWebhookEvent) (p : AsaasPaymentResponse) (e : String)
    (hauth : w.getenv "ASAAS_WEBHOOK_SECRET" = "" ∨
      r.headerGet "asaas-access-token" = w.getenv "ASAAS_WEBHOOK_SECRET")
    (hjson : w.decodeWebhookEvent r.body = some event)
    (hp : event.Payment = some p)
    (hmiss : GetChargeByProviderID w "ASAAS" p.ID = .error e) :
    (ReceiveAsaasWebhook w r).resp.status = 200 ∧
    upsertBatches (ReceiveAsaasWebhook w r).calls = [] ∧
    chargeDeletes (ReceiveAsaasWebhook w r).calls = [] := by
  have hpass : ¬ (w.getenv "ASAAS_WEBHOOK_SECRET" ≠ "" ∧
      r.headerGet "asaas-access-token" ≠ w.getenv "ASAAS_WEBHOOK_SECRET") := by
    rcases hauth with h | h
    · simp [h]
    · simp [h]
  have hupd : updateChargeFromWebhook w event =
      (.ok (), [Call.GetChargeByProviderID "ASAAS" p.ID]) := by
    unfold updateChargeFromWebhook
    simp only [hp, hmiss]
  generalize ho : ReceiveAsaasWebhook w r = out
  unfold ReceiveAsaasWebhook at ho
  simp only [if_neg hpass, hjson, hp, hupd] at ho
  subst ho
  exact ⟨rfl, by simp [upsertBatches], by simp [chargeDeletes]⟩

/-- C17, exercised: pay_1 is reported while the table holds no row for it. -/
theorem webhook_unknown_charge_no_mutation_witness :
    (ReceiveAsaasWebhook unknownChargeWorld paidWebhookRequest).resp.status = 200 ∧
    upsertBatches (ReceiveAsaasWebhook unknownChargeWorld paidWebhookRequest).calls = [] ∧
    chargeDeletes (ReceiveAsaasWebhook unknownChargeWorld paidWebhookRequest).calls = [] :=
  webhook_unknown_charge_no_mutation unknownChargeWorld paidWebhookRequest
    { ID := "evt_1", Event := "PAYMENT_RECEIVED",
      Payment := some { demoPayment with Status := "RECEIVED" } }
    { demoPayment with Status := "RECEIVED" } "failed to fetch charge: no rows returned"
    (Or.inl (by decide)) (by decide) rfl rfl

/-- C18, the failing run. The event reports pay_1 while the charges table holds no row
for it: the handler looks the row up, upserts nothing, and still acknowledges the event
with processed = true. -/
theorem webhook_unknown_charge_reported_processed :
    (ReceiveAsaasWebhook unknownChargeWorld paidWebhookRequest).calls =
      [Call.GetChargeByProviderID "ASAAS" "pay_1"] ∧
    (ReceiveAsaasWebhook unknownChargeWorld paidWebhookRequest).resp.status = 200 ∧
    (ReceiveAsaasWebhook unknownChargeWorld paidWebhookRequest).resp.body =
      Body.json [("received", .bool true), ("processed", .bool true),
        ("payment_id", .str "pay_1"), ("status", .str "RECEIVED")] := by
  decide

/-- The status codes `ReceiveAsaasWebhook` answers with once the token check passed. -/
theorem webhook_status_after_check (w : World) (r : Request)
    (hpass : ¬ (w.getenv "ASAAS_WEBHOOK_SECRET" ≠ "" ∧
      r.headerGet "asaas-access-token" ≠ w.getenv "ASAAS_WEBHOOK_SECRET")) :
    (ReceiveAsaasWebhook w r).resp.status = 400 ∨
    (ReceiveAsaasWebhook w r).resp.status = 200 ∨
    (ReceiveAsaasWebhook w r).resp.status = 500 := by
  generalize ho : ReceiveAsaasWebhook w r = out
  unfold ReceiveAsaasWebhook at ho
  simp only [if_neg hpass] at ho
  split at ho
  · subst ho; left; rfl
  · split at ho
    · subst ho; right; left; rfl
    · split at ho
      · subst ho; right; right; rfl
      · subst ho; right; left; rfl

/-- C19. When `ASAAS_WEBHOOK_SECRET` is non-empty, `ReceiveAsaasWebhook` responds 401 if
and only if the `asaas-access-token` header differs from the secret; in that case it
makes no call and its outcome does not depend on the body; an absent header differs.
When the secret is empty, no request is answered 401. -/
theorem webhook_secret_check (w : World) (r : Request) :
    (w.getenv "ASAAS_WEBHOOK_SECRET" ≠ "" →
      ((ReceiveAsaasWebhook w r).resp.status = 401 ↔
        r.headerGet "asaas-access-token" ≠ w.getenv "ASAAS_WEBHOOK_SECRET") ∧
      (r.headerGet "asaas-access-token" ≠ w.getenv "ASAAS_WEBHOOK_SECRET" →
        (ReceiveAsaasWebhook w r).calls = [] ∧
        ∀ body, ReceiveAsaasWebhook w { r with body := body } = ReceiveAsaasWebhook w r) ∧
      (r.header.find? (fun kv => kv.1 == "Asaas-Access-Token") = none →
        (ReceiveAsaasWebhook w r).resp.status = 401)) ∧
    (w.getenv "ASAAS_WEBHOOK_SECRET" = "" → (ReceiveAsaasWebhook w r).resp.status ≠ 401) := by
  have hreject : w.getenv "ASAAS_WEBHOOK_SECRET" ≠ "" → ∀ r' : Request,
      r'.headerGet "asaas-access-token" ≠ w.getenv "ASAAS_WEBHOOK_SECRET" →
      ReceiveAsaasWebhook w r' =
        { resp := httpError "\x7b\"error\":\"Unauthorized\"\x7d" StatusUnauthorized
          calls := [] } := by
    intro hs r' hh
    unfold ReceiveAsaasWebhook
    simp only [if_pos (And.intro hs hh)]
  constructor
  · intro hs
    refine ⟨⟨?_, ?_⟩, ?_, ?_⟩
    · intro h401
      by_contra hh
      have hpass : ¬ (w.getenv "ASAAS_WEBHOOK_SECRET" ≠ "" ∧
          r.headerGet "asaas-access-token" ≠ w.getenv "ASAAS_WEBHOOK_SECRET") :=
        fun h => h.2 hh
      rcases webhook_status_after_check w r hpass with h | h | h <;>
        rw [h] at h401 <;> exact absurd h401 (by decide)
    · intro hh
      rw [hreject hs r hh]
      rfl
    · intro hh
      refine ⟨by rw [hreject hs r hh], ?_⟩
      intro body
      rw [hreject hs r hh, hreject hs { r with body := body } hh]
    · intro habsent
      have hget : r.headerGet "asaas-access-token" = "" := by
        have hkey : canonicalHeaderKey "asaas-access-token" = "Asaas-Access-Token" := by
          decide
        unfold Request.headerGet Values.get
        rw [hkey, habsent]
      have hh : r.headerGet "asaas-access-token" ≠ w.getenv "ASAAS_WEBHOOK_SECRET" := by
        rw [hget]
        exact fun h => hs h.symm
      rw [hreject hs r hh]
      rfl
  · intro hs
    have hpass : ¬ (w.getenv "ASAAS_WEBHOOK_SECRET" ≠ "" ∧
        r.headerGet "asaas-access-token" ≠ w.getenv "ASAAS_WEBHOOK_SECRET") :=
      fun h => h.1 hs
    rcases webhook_status_after_check w r hpass with h | h | h <;>
      rw [h] <;> decide

/-- C19, exercised: with the secret configured a request without token is answered 401
without any call, a request with the token is not; without secret no 401 is answered. -/
theorem webhook_secret_check_witness :
    ((ReceiveAsaasWebhook securedWorld paidWebhookRequest).resp.status = 401 ∧
      (ReceiveAsaasWebhook securedWorld paidWebhookRequest).calls = []) ∧
    (ReceiveAsaasWebhook securedWorld
      { paidWebhookRequest with header := [("Asaas-Access-Token", "s3cret")] }).resp.status
        ≠ 401 ∧
    (ReceiveAsaasWebhook demoWorld paidWebhookRequest).resp.status ≠ 401 :=
  ⟨⟨((webhook_secret_check securedWorld paidWebhookRequest).1 (by decide)).2.2 (by decide),
    ((((webhook_secret_check securedWorld paidWebhookRequest).1 (by decide)).2.1)
      (by decide)).1⟩,
   fun h => (((webhook_secret_check securedWorld
      { paidWebhookRequest with header := [("Asaas-Access-Token", "s3cret")] }).1
        (by decide)).1.1 h) (by decide),
   (webhook_secret_check demoWorld paidWebhookRequest).2 (by decide)⟩

/-- A run of `UpdateAsaasCharge` in which the provider answered the update call: the
answer is passed through, after the credential resolution, the update call and, for a
2xx answer, the calls that mirror it into the charges table. -/
theorem UpdateAsaasCharge_answered (w : World) (r : Request) (cl : Client)
    (paymentID : String) (ureq : UpdatePaymentRequest) (status : Int) (body : Bytes)
    (hcall : Call.UpdatePayment cl paymentID ureq ∈ (UpdateAsaasCharge w r).calls)
    (hans : cl.UpdatePayment w paymentID ureq = .ok (status, body)) :
    UpdateAsaasCharge w r =
      { resp := { contentType := "application/json", status := status, body := .raw body }
        calls := Call.GetBillingIntegrationForOffice
            (trimSpace (r.query.get "accounting_office_id")) (normalizeProvider w "ASAAS") ::
          Call.UpdatePayment cl paymentID ureq ::
          (if status ≥ 200 ∧ status < 300 then UpdateAsaasCharge.sync w body else []) } := by
  have hsync : ∀ b, ∀ c ∈ UpdateAsaasCharge.sync w b,
      c ≠ Call.UpdatePayment cl paymentID ureq := by
    intro b
    unfold UpdateAsaasCharge.sync
    simp only []
    repeat' split
    all_goals simp
  generalize ho : UpdateAsaasCharge w r = out at hcall ⊢
  unfold UpdateAsaasCharge at ho
  simp only [] at ho
  split at ho
  · subst ho; simp at hcall
  split at ho
  · subst ho; simp at hcall
  split at ho
  · subst ho; simp at hcall
  split at ho
  · subst ho; simp at hcall
  split at ho
  · subst ho; simp at hcall
  split at ho
  · rename_i e herr
    subst ho
    simp at hcall
    obtain ⟨h1, h2, h3⟩ := hcall
    subst h1 h2 h3
    rw [hans] at herr
    cases herr
  · rename_i status2 body2 hok
    subst ho
    simp only [List.mem_cons] at hcall
    rcases hcall with h | h | h
    · cases h
    · cases h
      rw [hans] at hok
      cases hok
      rfl
    · exfalso
      split at h
      · exact hsync _ _ h rfl
      · simp at h

/-- C20. When the provider answers the update call with a 2xx status and a payment that
decodes with a non-blank id, and `GetChargeByProviderID` finds the internal row of that
id, `UpdateAsaasCharge` upserts exactly one row: tenant, office, company and contract are
those of the existing row; provider charge id and value are those of the provider's
answer; description, billing method, status, due date, original due date, invoice URL,
invoice number and external reference are the trimmed values of the provider's answer
(a column whose trimmed value is empty is absent). -/
theorem updateCharge_mirrors_answer (w : World) (r : Request) (cl : Client)
    (paymentID : String) (ureq : UpdatePaymentRequest) (status : Int) (body : Bytes)
    (updated : AsaasPaymentResponse) (existing : IamChargeRow)
    (hcall : Call.UpdatePayment cl paymentID ureq ∈ (UpdateAsaasCharge w r).calls)
    (hans : cl.UpdatePayment w paymentID ureq = .ok (status, body))
    (hacc : 200 ≤ status ∧ status ≤ 299)
    (hdec : w.unmarshalPayment body = (updated, none))
    (hid : trimSpace updated.ID ≠ "")
    (hrow : GetChargeByProviderID w "ASAAS" updated.ID = .ok existing) :
    ∃ row, upsertBatches (UpdateAsaasCharge w r).calls = [[row]] ∧
      row.TenantID = existing.TenantID ∧
      row.AccountingOfficeID = existing.AccountingOfficeID ∧
      row.CompanyID = existing.CompanyID ∧
      row.ContractID = existing.ContractID ∧
      row.ProviderChargeID = updated.ID ∧
      row.Value = updated.Value ∧
      row.Description = trimmedValue updated.Description ∧
      row.BillingType = trimmedValue updated.BillingType ∧
      row.Status = trimmedValue updated.Status ∧
      row.DueDate = trimmedValue updated.DueDate ∧
      row.OriginalDueDate = trimmedValue updated.OriginalDueDate ∧
      row.InvoiceURL = trimmedValue updated.InvoiceURL ∧
      row.InvoiceNumber = trimmedValue updated.InvoiceNumber ∧
      row.ExternalReference = trimmedValue updated.ExternalReference := by
  refine ⟨UpdateAsaasCharge.row w updated existing, ?_, rfl, rfl, rfl, rfl, rfl, rfl, rfl, rfl,
    rfl, rfl, rfl, rfl, rfl, rfl⟩
  have hacc2 : status ≥ 200 ∧ status < 300 := by omega
  rw [UpdateAsaasCharge_answered w r cl paymentID ureq status body hcall hans]
  simp only [if_pos hacc2]
  unfold UpdateAsaasCharge.sync
  simp only [hdec, hid, hrow, ne_eq, not_false_eq_true, and_self, if_true]
  simp [upsertBatches]

/-- C20, exercised: the provider accepts a new due date for pay_1. -/
theorem updateCharge_mirrors_answer_witness :
    ∃ row, upsertBatches (UpdateAsaasCharge demoWorld updateRequest).calls = [[row]] ∧
      row.TenantID = "tenant_1" ∧ row.ProviderChargeID = "pay_1" ∧ row.Value = 150 ∧
      row.Status = some "PENDING" ∧ row.Description = none :=
  (updateCharge_mirrors_answer demoWorld updateRequest demoClient "pay_1"
    { DueDate := some "2025-04-10" } 200 "created-pay_1" demoPayment
    { TenantID := "tenant_1", AccountingOfficeID := "O1", CompanyID := "C1",
      ContractID := "T1", Provider := "ASAAS", ProviderChargeID := "pay_1", Value := 150,
      BillingType := some "PIX", Status := some "PENDING", DueDate := some "2025-03-10",
      ProviderPayload := "pay_1" }
    (by decide) rfl (by decide) rfl (by decide) rfl).imp
    (fun _ h => ⟨h.1, h.2.1, h.2.2.2.2.2.1, h.2.2.2.2.2.2.1,
      h.2.2.2.2.2.2.2.2.2.1.trans (by decide), h.2.2.2.2.2.2.2.1.trans (by decide)⟩)

/-! ## The update and delete synchronisers -/

/-- The batches that the mirroring calls of `UpdateAsaasCharge` hand to `UpsertCharges`:
none when the lookup fails, otherwise the single row built from the answer. -/
theorem sync_upsertBatches (w : World) (body : Bytes) :
    upsertBatches (UpdateAsaasCharge.sync w body) = [] ∨
    ∃ charge, GetChargeByProviderID w "ASAAS" (w.unmarshalPayment body).1.ID = .ok charge ∧
      upsertBatches (UpdateAsaasCharge.sync w body) =
        [[UpdateAsaasCharge.row w (w.unmarshalPayment body).1 charge]] := by
  unfold UpdateAsaasCharge.sync
  simp only []
  split
  · split
    · left; simp [upsertBatches]
    · rename_i charge hc
      right
      exact ⟨charge, hc, by simp [upsertBatches]⟩
  · left; simp [upsertBatches]

/-- Every batch that a run of `UpdateAsaasCharge` hands to `UpsertCharges` is a batch of
its mirroring calls for some provider answer. -/
theorem UpdateAsaasCharge_upsertBatches (w : World) (r : Request) :
    upsertBatches (UpdateAsaasCharge w r).calls = [] ∨
    ∃ body, upsertBatches (UpdateAsaasCharge w r).calls =
      upsertBatches (UpdateAsaasCharge.sync w body) := by
  generalize ho : UpdateAsaasCharge w r = out
  unfold UpdateAsaasCharge at ho
  simp only [] at ho
  repeat' split at ho
  all_goals subst ho
  all_goals simp [upsertBatches]
  all_goals (right; exact ⟨_, rfl⟩)

/-- C21. For every answer (status, body) of the provider to the update call,
`UpdateAsaasCharge` responds with exactly that status and body, whatever the row lookup
and the upsert do; and when the row lookup returns an error (as it does when no row is
found) no batch is handed to `UpsertCharges`. -/
theorem updateCharge_passes_through (w : World) (r : Request) (cl : Client)
    (paymentID : String) (ureq : UpdatePaymentRequest) (status : Int) (body : Bytes)
    (hcall : Call.UpdatePayment cl paymentID ureq ∈ (UpdateAsaasCharge w r).calls)
    (hans : cl.UpdatePayment w paymentID ureq = .ok (status, body)) :
    (UpdateAsaasCharge w r).resp =
      { contentType := "application/json", status := status, body := .raw body } ∧
    ((∃ e, GetChargeByProviderID w "ASAAS" (w.unmarshalPayment body).1.ID = .error e) →
      upsertBatches (UpdateAsaasCharge w r).calls = []) := by
  rw [UpdateAsaasCharge_answered w r cl paymentID ureq status body hcall hans]
  refine ⟨rfl, ?_⟩
  rintro ⟨e, he⟩
  simp only [upsertBatches, List.filterMap_cons]
  split
  · rcases sync_upsertBatches w body with h | ⟨charge, hc, -⟩
    · simpa [upsertBatches] using h
    · rw [he] at hc; cases hc
  · simp

/-- C21, exercised: the provider accepts the update of pay_1 and the charges table holds
no row for it. -/
theorem updateCharge_passes_through_witness :
    (UpdateAsaasCharge unknownChargeWorld updateRequest).resp =
      { contentType := "application/json", status := 200, body := .raw "created-pay_1" } ∧
    upsertBatches (UpdateAsaasCharge unknownChargeWorld updateRequest).calls = [] :=
  let h := updateCharge_passes_through unknownChargeWorld updateRequest demoClient "pay_1"
    { DueDate := some "2025-04-10" } 200 "created-pay_1" (by decide) rfl
  ⟨h.1, h.2 ⟨"failed to fetch charge: no rows returned", rfl⟩⟩

/-- The runs of `DeleteAsaasCharge`: either no row deletion is requested, and a provider
answer of the run, if any, is neither 200 nor 204 and is passed on as an error; or the
trace is the credential resolution, a provider deletion answered with 200 or 204, and
the row deletion, and the response is the success answer. -/
theorem DeleteAsaasCharge_shape (w : World) (r : Request) :
    (chargeDeletes (DeleteAsaasCharge w r).calls = [] ∧
      ∀ cl id status body, Call.DeletePayment cl id ∈ (DeleteAsaasCharge w r).calls →
        cl.DeletePayment w id = .ok (status, body) →
        (status ≠ 200 ∧ status ≠ 204) ∧
        (DeleteAsaasCharge w r).resp = httpError body status) ∨
    ∃ cl id status body,
      (DeleteAsaasCharge w r).calls =
        [Call.GetBillingIntegrationForOffice (trimSpace (r.query.get "accounting_office_id"))
          (normalizeProvider w "ASAAS"),
         Call.DeletePayment cl id, Call.DeleteChargeByProviderID "ASAAS" id] ∧
      cl.DeletePayment w id = .ok (status, body) ∧ (status = 200 ∨ status = 204) ∧
      (DeleteAsaasCharge w r).resp = deletedResponse id := by
  generalize ho : DeleteAsaasCharge w r = out
  unfold DeleteAsaasCharge at ho
  simp only [] at ho
  split at ho
  · subst ho; left; simp [chargeDeletes]
  split at ho
  · subst ho; left; simp [chargeDeletes]
  split at ho
  · subst ho; left; simp [chargeDeletes]
  split at ho
  · rename_i e he
    subst ho; left
    simp only [chargeDeletes, List.filterMap_cons, List.filterMap_nil, true_and]
    intro cl id status body hmem hans
    simp only [List.mem_cons, List.mem_singleton, Call.DeletePayment.injEq, reduceCtorEq,
      false_or, List.mem_nil_iff, or_false] at hmem
    obtain ⟨rfl, rfl⟩ := hmem
    rw [he] at hans
    cases hans
  · rename_i statusCode body hans
    split at ho
    · rename_i hfail
      subst ho; left
      simp only [chargeDeletes, List.filterMap_cons, List.filterMap_nil, true_and]
      intro cl id status body2 hmem hans2
      simp only [List.mem_cons, List.mem_singleton, Call.DeletePayment.injEq, reduceCtorEq,
        false_or, List.mem_nil_iff, or_false] at hmem
      obtain ⟨rfl, rfl⟩ := hmem
      rw [hans] at hans2
      cases hans2
      exact ⟨by simpa [StatusOK, StatusNoContent] using hfail, rfl⟩
    · rename_i hok
      subst ho; right
      refine ⟨_, _, statusCode, body, rfl, hans, ?_, rfl⟩
      simp only [StatusOK, StatusNoContent, ne_eq, not_and_or, not_not] at hok
      exact hok

/-- C22, as stated, fails for a success status other than 200 and 204: the provider
answers the deletion of pay_1 with 202, and `DeleteAsaasCharge` passes that answer on as
an error instead of responding 200 with `success`, and requests no row deletion. -/
theorem deleteCharge_row_deleted_after_provider_success_counterexample :
    demoClient.DeletePayment deleteAcceptedWorld "pay_1" = .ok (202, "deletion-scheduled") ∧
    (DeleteAsaasCharge deleteAcceptedWorld deleteRequest).calls =
      [Call.GetBillingIntegrationForOffice "O1" "ASAAS", Call.DeletePayment demoClient "pay_1"] ∧
    (DeleteAsaasCharge deleteAcceptedWorld deleteRequest).resp =
      httpError "deletion-scheduled" 202 ∧
    (DeleteAsaasCharge deleteAcceptedWorld deleteRequest).resp ≠ deletedResponse "pay_1" :=
  ⟨rfl, by decide, by decide, by decide⟩

/-- C22, amended. `DeleteAsaasCharge` requests the deletion of the internal row only as
the last call of a run whose provider deletion was answered with status 200 or 204,
never when the provider call returned an error or another status.  Whenever the provider
answered 200 or 204 the response is the success answer with the identifier of the
payment and the row deletion is requested once, whatever `DeleteChargeByProviderID`
returns; every other answer of the provider, another 2xx status included, is passed on
as an error with its status and body. -/
theorem deleteCharge_row_deleted_after_provider_success (w : World) (r : Request) :
    (∀ provider id, (provider, id) ∈ chargeDeletes (DeleteAsaasCharge w r).calls →
      ∃ cl status body,
        (DeleteAsaasCharge w r).calls =
          [Call.GetBillingIntegrationForOffice
            (trimSpace (r.query.get "accounting_office_id")) (normalizeProvider w "ASAAS"),
           Call.DeletePayment cl id, Call.DeleteChargeByProviderID provider id] ∧
        cl.DeletePayment w id = .ok (status, body) ∧ (status = 200 ∨ status = 204)) ∧
    (∀ cl id, Call.DeletePayment cl id ∈ (DeleteAsaasCharge w r).calls →
      (∀ e, cl.DeletePayment w id = .error e →
        chargeDeletes (DeleteAsaasCharge w r).calls = []) ∧
      (∀ status body, cl.DeletePayment w id = .ok (status, body) →
        ¬ (status = 200 ∨ status = 204) →
        (DeleteAsaasCharge w r).resp = httpError body status ∧
        chargeDeletes (DeleteAsaasCharge w r).calls = []) ∧
      (∀ status body, cl.DeletePayment w id = .ok (status, body) →
        status = 200 ∨ status = 204 →
        (DeleteAsaasCharge w r).resp = deletedResponse id ∧
        chargeDeletes (DeleteAsaasCharge w r).calls = [("ASAAS", id)])) := by
  rcases DeleteAsaasCharge_shape w r with
    ⟨hnone, hfail⟩ | ⟨cl0, id0, st0, b0, hcalls, hans0, hst0, hresp⟩
  · refine ⟨?_, ?_⟩
    · intro provider id hmem
      rw [hnone] at hmem
      cases hmem
    · intro cl id hmem
      refine ⟨fun _ _ => hnone, ?_, ?_⟩
      · intro status body hans _
        exact ⟨(hfail cl id status body hmem hans).2, hnone⟩
      · intro status body hans hst
        have := (hfail cl id status body hmem hans).1
        omega
  · refine ⟨?_, ?_⟩
    · intro provider id hmem
      rw [hcalls] at hmem
      simp only [chargeDeletes, List.filterMap_cons, List.filterMap_nil, List.mem_singleton,
        Prod.mk.injEq] at hmem
      obtain ⟨rfl, rfl⟩ := hmem
      exact ⟨cl0, st0, b0, hcalls, hans0, hst0⟩
    · intro cl id hmem
      rw [hcalls] at hmem
      simp only [List.mem_cons, List.mem_singleton, Call.DeletePayment.injEq, reduceCtorEq,
        false_or, List.mem_nil_iff, or_false] at hmem
      obtain ⟨rfl, rfl⟩ := hmem
      refine ⟨?_, ?_, ?_⟩
      · intro e he
        rw [he] at hans0
        cases hans0
      · intro status body hans hst
        rw [hans0] at hans
        cases hans
        exact absurd hst0 hst
      · intro status body _ _
        refine ⟨hresp, ?_⟩
        rw [hcalls]
        simp [chargeDeletes]

/-- C22, amended, exercised: the provider deletes pay_1 and the charges table refuses the
deletion of the row; a provider that answers 404; and a provider that answers 202. -/
theorem deleteCharge_row_deleted_after_provider_success_witness :
    DeleteChargeByProviderID deleteFailWorld "ASAAS" "pay_1" =
      .error "failed to delete charge: connection reset by peer" ∧
    (DeleteAsaasCharge deleteFailWorld deleteRequest).resp = deletedResponse "pay_1" ∧
    chargeDeletes (DeleteAsaasCharge deleteFailWorld deleteRequest).calls =
      [("ASAAS", "pay_1")] ∧
    chargeDeletes (DeleteAsaasCharge deleteRefusedWorld deleteRequest).calls = [] ∧
    (DeleteAsaasCharge deleteAcceptedWorld deleteRequest).resp =
      httpError "deletion-scheduled" 202 :=
  ⟨rfl,
   (((deleteCharge_row_deleted_after_provider_success deleteFailWorld deleteRequest).2
      demoClient "pay_1" (by decide)).2.2 200 "deleted-pay_1" rfl (Or.inl rfl)).1,
   (((deleteCharge_row_deleted_after_provider_success deleteFailWorld deleteRequest).2
      demoClient "pay_1" (by decide)).2.2 200 "deleted-pay_1" rfl (Or.inl rfl)).2,
   (((deleteCharge_row_deleted_after_provider_success deleteRefusedWorld deleteRequest).2
      demoClient "pay_1" (by decide)).2.1 404 "payment-not-found" rfl (by decide)).2,
   (((deleteCharge_row_deleted_after_provider_success deleteAcceptedWorld deleteRequest).2
      demoClient "pay_1" (by decide)).2.1 202 "deletion-scheduled" rfl (by decide)).1⟩

/-! ## The credential resolver -/

/-- What the three `Order` clauses of the credential query say of two rows, column by
column. -/
theorem precedes_query_iff (t : BillingIntegrationsTable) (o p : String)
    (a b : BillingIntegrationRow) :
    t.precedes (GetBillingIntegrationForOffice.query o p).order a b = true ↔
      (b.IsDefault = true → a.IsDefault = true) ∧
      (b.IsDefault = a.IsDefault → t.instant b.UpdatedAt ≤ t.instant a.UpdatedAt) ∧
      (b.IsDefault = a.IsDefault → t.instant b.UpdatedAt = t.instant a.UpdatedAt →
        t.instant b.CreatedAt ≤ t.instant a.CreatedAt) := by
  simp only [GetBillingIntegrationForOffice.query, BillingIntegrationsTable.precedes,
    BillingIntegrationsTable.columnLe]
  generalize t.instant a.UpdatedAt = ua
  generalize t.instant b.UpdatedAt = ub
  generalize t.instant a.CreatedAt = ca
  generalize t.instant b.CreatedAt = cb
  cases a.IsDefault <;> cases b.IsDefault <;> simp
  all_goals (split <;> omega)


/-- The order of the credential query relates any two rows, one way or the other. -/
theorem precedes_query_total (t : BillingIntegrationsTable) (o p : String)
    (a b : BillingIntegrationRow) :
    t.precedes (GetBillingIntegrationForOffice.query o p).order a b = true ∨
    t.precedes (GetBillingIntegrationForOffice.query o p).order b a = true := by
  rw [precedes_query_iff, precedes_query_iff]
  generalize t.instant a.UpdatedAt = ua
  generalize t.instant b.UpdatedAt = ub
  generalize t.instant a.CreatedAt = ca
  generalize t.instant b.CreatedAt = cb
  cases a.IsDefault <;> cases b.IsDefault <;> simp <;> omega

/-- The order of the credential query is transitive. -/
theorem precedes_query_trans (t : BillingIntegrationsTable) (o p : String)
    (a b c : BillingIntegrationRow)
    (hab : t.precedes (GetBillingIntegrationForOffice.query o p).order a b = true)
    (hbc : t.precedes (GetBillingIntegrationForOffice.query o p).order b c = true) :
    t.precedes (GetBillingIntegrationForOffice.query o p).order a c = true := by
  rw [precedes_query_iff] at hab hbc ⊢
  generalize t.instant a.UpdatedAt = ua at *
  generalize t.instant b.UpdatedAt = ub at *
  generalize t.instant c.UpdatedAt = uc at *
  generalize t.instant a.CreatedAt = ca at *
  generalize t.instant b.CreatedAt = cb at *
  generalize t.instant c.CreatedAt = cc at *
  cases ha : a.IsDefault <;> cases hb : b.IsDefault <;> cases hc : c.IsDefault <;>
    simp_all <;> omega

/-- The `Eq` filters of the credential query keep the active rows of the office and
provider. -/
theorem query_filter_iff (o p : String) (row : BillingIntegrationRow) :
    (GetBillingIntegrationForOffice.query o p).eq.all
        (fun kv => row.column kv.1 == kv.2) = true ↔
      row.IsActive = true ∧ row.AccountingOfficeID = o ∧ row.Provider = p := by
  simp only [GetBillingIntegrationForOffice.query, List.all_cons, List.all_nil,
    BillingIntegrationRow.column, Bool.and_true, Bool.and_eq_true, beq_iff_eq]
  cases row.IsActive <;> simp

/-- The answer of the store to the credential query: nothing when no row of the table
passes the filters, otherwise one row that passes them and that the order places
first. -/
theorem run_query (t : BillingIntegrationsTable) (o p : String) :
    ((∀ row ∈ t.rows, ¬ (row.IsActive = true ∧ row.AccountingOfficeID = o ∧
        row.Provider = p)) ∧
      t.run (GetBillingIntegrationForOffice.query o p) = .ok []) ∨
    ∃ best, t.run (GetBillingIntegrationForOffice.query o p) = .ok [best] ∧
      (best ∈ t.rows ∧ best.IsActive = true ∧ best.AccountingOfficeID = o ∧
        best.Provider = p) ∧
      ∀ other ∈ t.rows, other.IsActive = true → other.AccountingOfficeID = o →
        other.Provider = p →
        t.precedes (GetBillingIntegrationForOffice.query o p).order best other = true := by
  haveI : IsTotal BillingIntegrationRow
      (fun a b => t.precedes (GetBillingIntegrationForOffice.query o p).order a b = true) :=
    ⟨precedes_query_total t o p⟩
  haveI : IsTrans BillingIntegrationRow
      (fun a b => t.precedes (GetBillingIntegrationForOffice.query o p).order a b = true) :=
    ⟨precedes_query_trans t o p⟩
  have hrun : t.run (GetBillingIntegrationForOffice.query o p) =
      .ok (((t.rows.filter (fun row => (GetBillingIntegrationForOffice.query o p).eq.all
          (fun kv => row.column kv.1 == kv.2))).insertionSort
        (fun a b => t.precedes (GetBillingIntegrationForOffice.query o p).order a b = true)).take
          1) := by
    unfold BillingIntegrationsTable.run
    rw [if_neg (by simp [GetBillingIntegrationForOffice.query]),
      if_neg (by simp [GetBillingIntegrationForOffice.query, BillingIntegrationsTable.columns])]
    rfl
  rw [hrun]
  have hmem : ∀ row, row ∈ t.rows.filter (fun row =>
      (GetBillingIntegrationForOffice.query o p).eq.all
        (fun kv => row.column kv.1 == kv.2)) ↔
      row ∈ t.rows ∧ row.IsActive = true ∧ row.AccountingOfficeID = o ∧ row.Provider = p := by
    intro row
    rw [List.mem_filter, query_filter_iff]
  generalize t.rows.filter (fun row => (GetBillingIntegrationForOffice.query o p).eq.all
      (fun kv => row.column kv.1 == kv.2)) = l at hmem
  have hsorted := List.sorted_insertionSort
    (fun a b => t.precedes (GetBillingIntegrationForOffice.query o p).order a b = true) l
  have hperm := List.perm_insertionSort
    (fun a b => t.precedes (GetBillingIntegrationForOffice.query o p).order a b = true) l
  generalize List.insertionSort
    (fun a b => t.precedes (GetBillingIntegrationForOffice.query o p).order a b = true) l = s
    at hsorted hperm
  cases s with
  | nil =>
    left
    have hl : l = [] := hperm.symm.eq_nil
    subst hl
    refine ⟨?_, rfl⟩
    intro row hrow hc
    have := (hmem row).mpr ⟨hrow, hc⟩
    cases this
  | cons x rest =>
    right
    refine ⟨x, rfl, (hmem x).mp (hperm.subset (by simp)), ?_⟩
    intro other hother hact hoff hprov
    have hin := hperm.symm.subset ((hmem other).mpr ⟨hother, hact, hoff, hprov⟩)
    rcases List.mem_cons.mp hin with h | h
    · subst h
      rcases precedes_query_total t o p other other with h | h <;> exact h
    · exact List.rel_of_sorted_cons hsorted other h


/-- `GetBillingIntegrationForOffice` over a world whose store answers from the table `t`:
the errors for a blank argument apart, it returns the first row of the store's answer to
its query, and the not-found error when the answer is empty. -/
theorem GetBillingIntegrationForOffice_of_table (w : World) (t : BillingIntegrationsTable)
    (office provider : String) (hclient : w.iamClient = true)
    (hstore : ∀ q, w.selectBillingIntegrations q = t.run q) :
    GetBillingIntegrationForOffice w office provider =
      if trimSpace office = "" then .error "accounting_office_id vazio"
      else if w.toUpper (trimSpace provider) = "" then .error "provider vazio"
      else match t.run (GetBillingIntegrationForOffice.query (trimSpace office)
          (w.toUpper (trimSpace provider))) with
        | .error e => .error e
        | .ok [] => .error "billing integration not found"
        | .ok (row :: _) => .ok row := by
  unfold GetBillingIntegrationForOffice
  simp only [hclient, hstore, Bool.not_true, Bool.false_eq_true, if_false]

/-- C23. Over a store that answers read queries from a table,
`GetBillingIntegrationForOffice` returns only an active row of the table whose office is
the trimmed office and whose provider is the trimmed, upper-cased provider, and that row
is first among those rows in the order is_default descending, updated_at descending,
created_at descending; for non-blank arguments it returns a row whenever such a row
exists; when exactly one of those rows is default it returns that one whatever the
timestamps; when none is default the row it returns is the most recently updated; and
with no such row it returns an error. -/
theorem credential_resolution_order (w : World) (t : BillingIntegrationsTable)
    (office provider : String) (hclient : w.iamClient = true)
    (hstore : ∀ q, w.selectBillingIntegrations q = t.run q) :
    (∀ row, GetBillingIntegrationForOffice w office provider = .ok row →
      (row ∈ t.rows ∧ row.IsActive = true ∧ row.AccountingOfficeID = trimSpace office ∧
        row.Provider = w.toUpper (trimSpace provider)) ∧
      ∀ other ∈ t.rows, other.IsActive = true →
        other.AccountingOfficeID = trimSpace office →
        other.Provider = w.toUpper (trimSpace provider) →
          (other.IsDefault = true → row.IsDefault = true) ∧
          (other.IsDefault = row.IsDefault →
            t.instant other.UpdatedAt ≤ t.instant row.UpdatedAt) ∧
          (other.IsDefault = row.IsDefault →
            t.instant other.UpdatedAt = t.instant row.UpdatedAt →
            t.instant other.CreatedAt ≤ t.instant row.CreatedAt)) ∧
    (trimSpace office ≠ "" → w.toUpper (trimSpace provider) ≠ "" →
      (∃ row ∈ t.rows, row.IsActive = true ∧ row.AccountingOfficeID = trimSpace office ∧
        row.Provider = w.toUpper (trimSpace provider)) →
      ∃ row, GetBillingIntegrationForOffice w office provider = .ok row) ∧
    (trimSpace office ≠ "" → w.toUpper (trimSpace provider) ≠ "" →
      ∀ a ∈ t.rows, a.IsActive = true → a.AccountingOfficeID = trimSpace office →
        a.Provider = w.toUpper (trimSpace provider) → a.IsDefault = true →
        (∀ other ∈ t.rows, other.IsActive = true →
          other.AccountingOfficeID = trimSpace office →
          other.Provider = w.toUpper (trimSpace provider) →
          other.IsDefault = true → other = a) →
        GetBillingIntegrationForOffice w office provider = .ok a) ∧
    ((∀ other ∈ t.rows, other.IsActive = true →
        other.AccountingOfficeID = trimSpace office →
        other.Provider = w.toUpper (trimSpace provider) → other.IsDefault = false) →
      ∀ row, GetBillingIntegrationForOffice w office provider = .ok row →
        ∀ other ∈ t.rows, other.IsActive = true →
          other.AccountingOfficeID = trimSpace office →
          other.Provider = w.toUpper (trimSpace provider) →
          t.instant other.UpdatedAt ≤ t.instant row.UpdatedAt) ∧
    ((∀ row ∈ t.rows, row.IsActive = true → row.AccountingOfficeID = trimSpace office →
        row.Provider ≠ w.toUpper (trimSpace provider)) →
      ∃ e, GetBillingIntegrationForOffice w office provider = .error e) := by
  rw [GetBillingIntegrationForOffice_of_table w t office provider hclient hstore]
  rcases run_query t (trimSpace office) (w.toUpper (trimSpace provider)) with
    ⟨hempty, hsel⟩ | ⟨best, hsel, hb, hbest⟩
  · rw [hsel]
    have hno : ∀ row, ¬ ((if trimSpace office = "" then
          (Except.error "accounting_office_id vazio" : Except String BillingIntegrationRow)
        else if w.toUpper (trimSpace provider) = "" then .error "provider vazio"
        else .error "billing integration not found") = .ok row) := by
      intro row h
      split at h
      · cases h
      · split at h <;> cases h
    refine ⟨fun row h => absurd h (hno row), ?_, ?_, fun _ row h => absurd h (hno row), ?_⟩
    · rintro _ _ ⟨row, hrow, hact, hoff, hprov⟩
      exact absurd ⟨hact, hoff, hprov⟩ (hempty row hrow)
    · intro _ _ a ha hact hoff hprov
      exact absurd ⟨hact, hoff, hprov⟩ (hempty a ha)
    · intro _
      split
      · exact ⟨_, rfl⟩
      · split <;> exact ⟨_, rfl⟩
  · rw [hsel]
    have hfirst : ∀ other ∈ t.rows, other.IsActive = true →
        other.AccountingOfficeID = trimSpace office →
        other.Provider = w.toUpper (trimSpace provider) →
          (other.IsDefault = true → best.IsDefault = true) ∧
          (other.IsDefault = best.IsDefault →
            t.instant other.UpdatedAt ≤ t.instant best.UpdatedAt) ∧
          (other.IsDefault = best.IsDefault →
            t.instant other.UpdatedAt = t.instant best.UpdatedAt →
            t.instant other.CreatedAt ≤ t.instant best.CreatedAt) := by
      intro other hother hact hoff hprov
      exact (precedes_query_iff t _ _ best other).mp (hbest other hother hact hoff hprov)
    have hok : ∀ row, (if trimSpace office = "" then
          (Except.error "accounting_office_id vazio" : Except String BillingIntegrationRow)
        else if w.toUpper (trimSpace provider) = "" then .error "provider vazio"
        else .ok best) = .ok row → row = best := by
      intro row h
      split at h
      · cases h
      · split at h
        · cases h
        · simp only [Except.ok.injEq] at h
          exact h.symm
    refine ⟨?_, ?_, ?_, ?_, ?_⟩
    · intro row h
      rw [hok row h]
      exact ⟨hb, hfirst⟩
    · intro ho hp _
      exact ⟨best, by simp [ho, hp]⟩
    · intro ho hp a ha hact hoff hprov hdef honly
      have hbd := (hfirst a ha hact hoff hprov).1 hdef
      have := honly best hb.1 hb.2.1 hb.2.2.1 hb.2.2.2 hbd
      simp [ho, hp, this]
    · intro hnodef row h other hother hact hoff hprov
      rw [hok row h]
      refine (hfirst other hother hact hoff hprov).2.1 ?_
      rw [hnodef other hother hact hoff hprov, hnodef best hb.1 hb.2.1 hb.2.2.1 hb.2.2.2]
    · intro hno2
      exact absurd hb.2.2.2 (hno2 best hb.1 hb.2.1 hb.2.2.1)

/-- C23, exercised on the sample table: office O1 resolves to its default row although
another active row is newer, office O2 (no default row) to its most recently updated
row, and office O3 (no active row) to an error. -/
theorem credential_resolution_order_witness :
    GetBillingIntegrationForOffice (tableWorld demoIntegrations) " O1 " "asaas" =
      .ok defaultIntegration ∧
    (demoIntegrations.instant staleIntegration.UpdatedAt ≤
      demoIntegrations.instant recentIntegration.UpdatedAt) ∧
    (∃ e, GetBillingIntegrationForOffice (tableWorld demoIntegrations) "O3" "ASAAS" =
        .error e) :=
  ⟨(credential_resolution_order (tableWorld demoIntegrations) demoIntegrations
      " O1 " "asaas" rfl (fun _ => rfl)).2.2.1 (by decide) (by decide)
      defaultIntegration (by decide) rfl (by decide) (by decide) rfl (by decide),
   (credential_resolution_order (tableWorld demoIntegrations) demoIntegrations
      "O2" "ASAAS" rfl (fun _ => rfl)).2.2.2.1 (by decide) recentIntegration rfl
      staleIntegration (by decide) rfl (by decide) (by decide),
   (credential_resolution_order (tableWorld demoIntegrations) demoIntegrations
      "O3" "ASAAS" rfl (fun _ => rfl)).2.2.2.2 (by decide)⟩

/-! ## Credential failures in the handlers -/

/-- C24, the failing runs. With no active credential row for the office,
`DeleteAsaasCharge` answers 500 where `UpdateAsaasCharge`, `CreateAsaasCharge` and
`UpdateAsaasCustomerByID` answer 404; with a credential row whose token is blank it
calls the client method and answers 500 where the three answer 400, `UpdateAsaasCharge`
after the credential resolution alone. -/
theorem deleteCharge_credential_failures_answer_500 :
    (DeleteAsaasCharge noCredentialWorld deleteRequest).resp =
      httpError "\x7b\"error\":\"billing integration not found\"\x7d" 500 ∧
    (UpdateAsaasCharge noCredentialWorld updateRequest).resp.status = 404 ∧
    (CreateAsaasCharge noCredentialWorld demoRequest).resp.status = 404 ∧
    (UpdateAsaasCustomerByID noCredentialWorld customerUpdateRequest).resp.status = 404 ∧
    (CreateAsaasCharge blankTokenWorld demoRequest).resp.status = 400 ∧
    (UpdateAsaasCustomerByID blankTokenWorld customerUpdateRequest).resp.status = 400 ∧
    (DeleteAsaasCharge blankTokenWorld deleteRequest).resp =
      httpError "\x7b\"error\":\"failed to delete payment: asaas token is empty\"\x7d" 500 ∧
    (DeleteAsaasCharge blankTokenWorld deleteRequest).calls =
      [Call.GetBillingIntegrationForOffice "O1" "ASAAS",
       Call.DeletePayment { BaseURL := "https://api.example", Token := "" } "pay_1"] ∧
    (UpdateAsaasCharge blankTokenWorld updateRequest).resp.status = 400 ∧
    (UpdateAsaasCharge blankTokenWorld updateRequest).calls =
      [Call.GetBillingIntegrationForOffice "O1" "ASAAS"] := by
  decide

/-! ## The provider code -/

/-- C25. For every string whose trimmed, upper-cased form starts with ASAAS or with the
misspelling ASSAS, `normalizeProvider` returns ASAAS. -/
theorem normalizeProvider_collapses_brand (w : World) (p : String)
    (h : "ASAAS".data <+: (w.toUpper (trimSpace p)).data ∨
      "ASSAS".data <+: (w.toUpper (trimSpace p)).data) :
    normalizeProvider w p = "ASAAS" := by
  unfold normalizeProvider
  simp only []
  rw [if_pos]
  rcases h with h | h
  · simp [List.isPrefixOf_iff_prefix.mpr h]
  · simp [List.isPrefixOf_iff_prefix.mpr h]

/-- C25, exercised on a lower-case misspelling with white space and a suffix, and on a
mixed-case name with another suffix. -/
theorem normalizeProvider_collapses_brand_witness :
    normalizeProvider demoWorld "  assas_sandbox " = "ASAAS" ∧
    normalizeProvider demoWorld "Asaas-prod" = "ASAAS" :=
  ⟨normalizeProvider_collapses_brand demoWorld "  assas_sandbox " (Or.inr (by decide)),
   normalizeProvider_collapses_brand demoWorld "Asaas-prod" (Or.inl (by decide))⟩

/-! ## The charges table -/

/-- The conflict target that `UpsertCharges` names reads the key of the unique
constraint: two rows agree on it exactly when they have the same key. -/
theorem conflictKey_request_iff (rows : List IamChargeRow) (a b : IamChargeRow) :
    a.conflictKey (splitOnChar (UpsertCharges.request rows).onConflict (Char.ofNat 0x2C)) =
      b.conflictKey (splitOnChar (UpsertCharges.request rows).onConflict (Char.ofNat 0x2C)) ↔
    chargeKey a = chargeKey b := by
  have hsplit : splitOnChar (UpsertCharges.request rows).onConflict (Char.ofNat 0x2C) =
      ["tenant_id", "provider", "provider_charge_id"] := by
    show splitOnChar "tenant_id,provider,provider_charge_id" (Char.ofNat 0x2C) = _
    decide
  rw [hsplit]
  simp [IamChargeRow.conflictKey, IamChargeRow.column, chargeKey]

/-- The row that an upsert writes over a stored row has the key of the row sent. -/
theorem chargeKey_mergeOnto (new old : IamChargeRow) :
    chargeKey (new.mergeOnto old) = chargeKey new := rfl

/-- The charges table after the store applied the upsert of a single row `new`, in terms
of the key of the unique constraint. -/
theorem exec_request_single (t : ChargesTable) (new : IamChargeRow) :
    t.exec (UpsertCharges.request [new]) =
      if t.any (fun x => chargeKey x == chargeKey new) then
        t.map (fun x => if chargeKey x == chargeKey new then new.mergeOnto x else x)
      else t ++ [new] := by
  have hk : ∀ x : IamChargeRow,
      (x.conflictKey (splitOnChar (UpsertCharges.request [new]).onConflict (Char.ofNat 0x2C)) ==
        new.conflictKey (splitOnChar (UpsertCharges.request [new]).onConflict
          (Char.ofNat 0x2C))) = (chargeKey x == chargeKey new) := by
    intro x
    rw [Bool.eq_iff_iff, beq_iff_eq, beq_iff_eq]
    exact conflictKey_request_iff [new] x new
  unfold ChargesTable.exec
  rw [if_pos (by rfl)]
  show ChargesTable.upsertRow _ t new = _
  unfold ChargesTable.upsertRow
  simp only [hk]


/-- Overwriting the rows of a key leaves the keys of a table as they are. -/
theorem map_chargeKey_overwrite (t : ChargesTable) (new : IamChargeRow) :
    (t.map (fun x => if chargeKey x == chargeKey new then new.mergeOnto x else x)).map
        chargeKey = t.map chargeKey := by
  induction t with
  | nil => rfl
  | cons x xs ih =>
    simp only [List.map_cons, ih, List.cons.injEq, and_true]
    by_cases h : chargeKey x = chargeKey new
    · simp [h, chargeKey_mergeOnto]
    · simp [h]

/-- An upsert of a single row keeps the unique constraint. -/
theorem exec_keysUnique (t : ChargesTable) (new : IamChargeRow) (h : t.keysUnique) :
    (t.exec (UpsertCharges.request [new])).keysUnique := by
  rw [exec_request_single]
  unfold ChargesTable.keysUnique at *
  split
  · rw [map_chargeKey_overwrite]; exact h
  · rename_i hany
    rw [List.map_append, List.map_singleton]
    refine List.Nodup.append h (List.nodup_singleton _) ?_
    simp only [List.disjoint_singleton, List.mem_map, not_exists, not_and]
    intro x hx hk
    apply hany
    simp only [List.any_eq_true, beq_iff_eq]
    exact ⟨x, hx, hk⟩

/-- Overwriting the rows of the key of `new` leaves under that key the stored rows of
the key, each with the columns of `new` written over it. -/
theorem overwrite_filter_key (t : ChargesTable) (new : IamChargeRow) :
    (t.map (fun x => if chargeKey x == chargeKey new then new.mergeOnto x else x)).filter
        (fun x => chargeKey x == chargeKey new) =
      (t.filter (fun x => chargeKey x == chargeKey new)).map (fun x => new.mergeOnto x) := by
  induction t with
  | nil => rfl
  | cons x xs ih =>
    by_cases hx : chargeKey x = chargeKey new
    · rw [List.map_cons, if_pos (by simpa using hx),
        List.filter_cons_of_pos (by simp [chargeKey_mergeOnto]),
        List.filter_cons_of_pos (by simpa using hx), List.map_cons, ih]
    · rw [List.map_cons, if_neg (by simpa using hx),
        List.filter_cons_of_neg (by simpa using hx),
        List.filter_cons_of_neg (by simpa using hx), ih]

/-- Over a table with unique keys at most one row has a given key. -/
theorem filter_key_of_keysUnique (t : ChargesTable) (k : String × String × String)
    (h : t.keysUnique) :
    t.filter (fun x => chargeKey x == k) = [] ∨
    ∃ old, t.filter (fun x => chargeKey x == k) = [old] := by
  induction t with
  | nil => left; rfl
  | cons x xs ih =>
    unfold ChargesTable.keysUnique at h ih
    rw [List.map_cons, List.nodup_cons] at h
    by_cases hx : chargeKey x = k
    · right
      refine ⟨x, ?_⟩
      rw [List.filter_cons_of_pos (by simpa using hx)]
      have : xs.filter (fun y => chargeKey y == k) = [] := by
        rw [List.filter_eq_nil_iff]
        intro y hy hk
        exact h.1 (List.mem_map.mpr ⟨y, hy, (by simpa using hk : chargeKey y = k).trans hx.symm⟩)
      rw [this]
    · rw [List.filter_cons_of_neg (by simpa using hx)]
      exact ih h.2

/-- After the upsert of a single row `new` the table holds one row under its key: `new`
itself if the key was free, and otherwise the stored row of that key with the columns of
`new` written over it. -/
theorem exec_filter_key (t : ChargesTable) (new : IamChargeRow) (h : t.keysUnique) :
    (t.filter (fun x => chargeKey x == chargeKey new) = [] ∧
      (t.exec (UpsertCharges.request [new])).filter
        (fun x => chargeKey x == chargeKey new) = [new]) ∨
    ∃ old, t.filter (fun x => chargeKey x == chargeKey new) = [old] ∧
      (t.exec (UpsertCharges.request [new])).filter
        (fun x => chargeKey x == chargeKey new) = [new.mergeOnto old] := by
  rw [exec_request_single]
  rcases filter_key_of_keysUnique t (chargeKey new) h with hnone | ⟨old, hold⟩
  · left
    refine ⟨hnone, ?_⟩
    have hany : ¬ t.any (fun x => chargeKey x == chargeKey new) = true := by
      intro hany
      obtain ⟨x, hx, hk⟩ := List.any_eq_true.mp hany
      have : x ∈ t.filter (fun x => chargeKey x == chargeKey new) :=
        List.mem_filter.mpr ⟨hx, hk⟩
      rw [hnone] at this
      cases this
    rw [if_neg hany, List.filter_append, hnone]
    simp
  · right
    refine ⟨old, hold, ?_⟩
    have hany : t.any (fun x => chargeKey x == chargeKey new) = true := by
      have : old ∈ t.filter (fun x => chargeKey x == chargeKey new) := by
        rw [hold]; simp
      obtain ⟨hx, hk⟩ := List.mem_filter.mp this
      exact List.any_eq_true.mpr ⟨old, hx, hk⟩
    rw [if_pos hany, overwrite_filter_key t new, hold]
    rfl

/-- An upsert of a single row leaves the rows of other keys as they were. -/
theorem exec_filter_other (t : ChargesTable) (new : IamChargeRow) :
    (t.exec (UpsertCharges.request [new])).filter (fun x => chargeKey x != chargeKey new) =
      t.filter (fun x => chargeKey x != chargeKey new) := by
  rw [exec_request_single]
  split
  · clear * -
    induction t with
    | nil => rfl
    | cons x xs ih =>
      by_cases hx : chargeKey x = chargeKey new
      · rw [List.map_cons, if_pos (by simpa using hx),
          List.filter_cons_of_neg (by simp [chargeKey_mergeOnto]),
          List.filter_cons_of_neg (by simpa using hx), ih]
      · rw [List.map_cons, if_neg (by simpa using hx),
          List.filter_cons_of_pos (by simpa using hx),
          List.filter_cons_of_pos (by simpa using hx), ih]
  · simp [List.filter_append]

/-- The error result of `UpsertCharges` is the first component of its run over any
table. -/
theorem over_fst (w : World) (t : ChargesTable) (rows : List IamChargeRow) :
    (UpsertCharges.over w t rows).1 = UpsertCharges w rows := by
  unfold UpsertCharges UpsertCharges.over
  split
  · rfl
  split
  · rfl
  split <;> rfl

/-- A call of `UpsertCharges` with a single row that returns no error has handed its
upsert to the store, which applied it. -/
theorem over_single_ok (w : World) (t : ChargesTable) (row : IamChargeRow)
    (h : UpsertCharges w [row] = .ok ()) :
    (UpsertCharges.over w t [row]).2 = t.exec (UpsertCharges.request [row]) := by
  rw [← over_fst w t [row]] at h
  unfold UpsertCharges.over at h ⊢
  by_cases hc : w.iamClient = true
  · simp only [hc, Bool.not_true, Bool.false_eq_true, if_false, List.length_singleton,
      one_ne_zero] at h ⊢
    generalize w.upsertChargesExec (UpsertCharges.request [row]) = u at h ⊢
    cases u with
    | error e => simp at h
    | ok _ => rfl
  · simp [hc] at h

/-- The columns of the row that an upsert of `new` writes over the stored row `old`. -/
theorem mergeOnto_columns (new old : IamChargeRow) :
    (new.mergeOnto old).TenantID = new.TenantID ∧
    (new.mergeOnto old).AccountingOfficeID = new.AccountingOfficeID ∧
    (new.mergeOnto old).CompanyID = new.CompanyID ∧
    (new.mergeOnto old).ContractID = new.ContractID ∧
    (new.mergeOnto old).Provider = new.Provider ∧
    (new.mergeOnto old).ProviderChargeID = new.ProviderChargeID ∧
    (new.mergeOnto old).Value = new.Value ∧
    (∀ col ∈ IamChargeRow.optionalText,
      (∀ v, col new = some v → col (new.mergeOnto old) = some v) ∧
      (col new = none → col (new.mergeOnto old) = col old)) ∧
    ((∀ n, new.InstallmentNumber = some n → (new.mergeOnto old).InstallmentNumber = some n) ∧
      (new.InstallmentNumber = none →
        (new.mergeOnto old).InstallmentNumber = old.InstallmentNumber)) ∧
    ((∀ v, new.NetValue = some v → (new.mergeOnto old).NetValue = some v) ∧
      (new.NetValue = none → (new.mergeOnto old).NetValue = old.NetValue)) ∧
    (new.ProviderPayload ≠ "" → (new.mergeOnto old).ProviderPayload = new.ProviderPayload) ∧
    (new.ProviderPayload = "" → (new.mergeOnto old).ProviderPayload = old.ProviderPayload) := by
  refine ⟨rfl, rfl, rfl, rfl, rfl, rfl, rfl, ?_, ?_, ?_, ?_, ?_⟩
  · intro col hcol
    simp only [IamChargeRow.optionalText, List.mem_cons, List.mem_nil_iff, or_false] at hcol
    rcases hcol with h | h | h | h | h | h | h | h | h <;> subst h <;>
      simp only [IamChargeRow.mergeOnto, keepStored] <;>
      constructor <;> intro h1 <;> (try intro h2) <;> simp_all
  · simp only [IamChargeRow.mergeOnto, keepStored]
    constructor <;> intro h1 <;> (try intro h2) <;> simp_all
  · simp only [IamChargeRow.mergeOnto, keepStored]
    constructor <;> intro h1 <;> (try intro h2) <;> simp_all
  · intro h
    simp [IamChargeRow.mergeOnto, h]
  · intro h
    simp [IamChargeRow.mergeOnto, h]

/-- C26, as stated, fails: pay_1 is upserted with billing type PIX and then, under the
same key, with a row that holds no billing type.  Both calls return no error and the
table holds one row for the key, whose billing type is still PIX and not that of the
second row. -/
theorem upsertCharges_same_key_overwrites_counterexample :
    chargeKey pendingRow = chargeKey receivedRow ∧
    UpsertCharges demoWorld [pendingRow] = .ok () ∧
    UpsertCharges demoWorld [receivedRow] = .ok () ∧
    (UpsertCharges.over demoWorld (UpsertCharges.over demoWorld [] [pendingRow]).2
      [receivedRow]).2 = [{ pendingRow with Status := some "RECEIVED" }] ∧
    receivedRow.BillingType = none ∧
    (∀ row ∈ (UpsertCharges.over demoWorld (UpsertCharges.over demoWorld [] [pendingRow]).2
      [receivedRow]).2, row.BillingType = some "PIX" ∧ row.BillingType ≠ receivedRow.BillingType) :=
  ⟨by decide, rfl, rfl, by decide, by decide, by decide⟩

/-- C26, amended. Over a charges table with unique keys, a call of `UpsertCharges` with
`r1` followed by a call with a row `r2` of the same key, both returning no error, leaves
exactly one row with that key.  In it the six identifier columns and value are those of
`r2`, and so is every optional column for which `r2` holds a value; an optional column
that `r2` leaves absent is not sent and keeps the value the row had after the first
call.  The rows of other keys are as they were. -/
theorem upsertCharges_same_key_overwrites (w1 w2 : World) (t : ChargesTable)
    (r1 r2 : IamChargeRow) (hunique : t.keysUnique) (hkey : chargeKey r1 = chargeKey r2)
    (hfirst : UpsertCharges w1 [r1] = .ok ()) (hsecond : UpsertCharges w2 [r2] = .ok ()) :
    ∃ row1 row2,
      (UpsertCharges.over w1 t [r1]).2.filter (fun x => chargeKey x == chargeKey r2) =
        [row1] ∧
      (UpsertCharges.over w2 (UpsertCharges.over w1 t [r1]).2 [r2]).2.filter
        (fun x => chargeKey x == chargeKey r2) = [row2] ∧
      row2.TenantID = r2.TenantID ∧
      row2.AccountingOfficeID = r2.AccountingOfficeID ∧
      row2.CompanyID = r2.CompanyID ∧
      row2.ContractID = r2.ContractID ∧
      row2.Provider = r2.Provider ∧
      row2.ProviderChargeID = r2.ProviderChargeID ∧
      row2.Value = r2.Value ∧
      (∀ col ∈ IamChargeRow.optionalText,
        (∀ v, col r2 = some v → col row2 = some v) ∧
        (col r2 = none → col row2 = col row1)) ∧
      ((∀ n, r2.InstallmentNumber = some n → row2.InstallmentNumber = some n) ∧
        (r2.InstallmentNumber = none → row2.InstallmentNumber = row1.InstallmentNumber)) ∧
      ((∀ v, r2.NetValue = some v → row2.NetValue = some v) ∧
        (r2.NetValue = none → row2.NetValue = row1.NetValue)) ∧
      (r2.ProviderPayload ≠ "" → row2.ProviderPayload = r2.ProviderPayload) ∧
      (r2.ProviderPayload = "" → row2.ProviderPayload = row1.ProviderPayload) ∧
      (UpsertCharges.over w2 (UpsertCharges.over w1 t [r1]).2 [r2]).2.filter
        (fun x => chargeKey x != chargeKey r2) =
        t.filter (fun x => chargeKey x != chargeKey r2) := by
  have h1 := over_single_ok w1 t r1 hfirst
  have h2 := over_single_ok w2 (UpsertCharges.over w1 t [r1]).2 r2 hsecond
  rw [h2, h1]
  have hu1 := exec_keysUnique t r1 hunique
  have hk1 : ∃ row1, (t.exec (UpsertCharges.request [r1])).filter
      (fun x => chargeKey x == chargeKey r2) = [row1] := by
    rw [← hkey]
    rcases exec_filter_key t r1 hunique with ⟨-, h⟩ | ⟨old, -, h⟩
    · exact ⟨_, h⟩
    · exact ⟨_, h⟩
  obtain ⟨row1, hrow1⟩ := hk1
  have hother : ((t.exec (UpsertCharges.request [r1])).exec (UpsertCharges.request [r2])).filter
      (fun x => chargeKey x != chargeKey r2) =
      t.filter (fun x => chargeKey x != chargeKey r2) := by
    rw [exec_filter_other, ← hkey, exec_filter_other]
  rcases exec_filter_key (t.exec (UpsertCharges.request [r1])) r2 hu1 with
    ⟨hnone, -⟩ | ⟨old, hold, hnew⟩
  · rw [hrow1] at hnone
    cases hnone
  · rw [hrow1] at hold
    simp only [List.cons.injEq, and_true] at hold
    subst hold
    obtain ⟨c1, c2, c3, c4, c5, c6, c7, c8, c9, c10, c11, c12⟩ := mergeOnto_columns r2 row1
    exact ⟨row1, r2.mergeOnto row1, hrow1, hnew, c1, c2, c3, c4, c5, c6, c7, c8, c9, c10,
      c11, c12, hother⟩

/-- C26, amended, exercised: pay_1 is upserted as pending and then as received into a
table that holds pay_0; the status is that of the second row, the billing type, which
the second row leaves absent, that of the first. -/
theorem upsertCharges_same_key_overwrites_witness :
    ∃ row1 row2,
      (UpsertCharges.over demoWorld [otherRow] [pendingRow]).2.filter
        (fun x => chargeKey x == chargeKey receivedRow) = [row1] ∧
      (UpsertCharges.over demoWorld (UpsertCharges.over demoWorld [otherRow] [pendingRow]).2
        [receivedRow]).2.filter (fun x => chargeKey x == chargeKey receivedRow) = [row2] ∧
      row2.Value = 150 ∧
      (UpsertCharges.over demoWorld (UpsertCharges.over demoWorld [otherRow] [pendingRow]).2
        [receivedRow]).2.filter (fun x => chargeKey x != chargeKey receivedRow) =
        [otherRow] :=
  (upsertCharges_same_key_overwrites demoWorld demoWorld [otherRow] pendingRow receivedRow
    (show (List.map chargeKey [otherRow]).Nodup by decide) (by decide) rfl rfl).imp
    (fun _ h => h.imp (fun _ k =>
      ⟨k.1, k.2.1, k.2.2.2.2.2.2.2.2.1.trans (by decide),
       k.2.2.2.2.2.2.2.2.2.2.2.2.2.2.trans (by decide)⟩))

/-! ## Customer updates -/

/-- The refusal condition of the handlers, on the trimmed request, is the empty update
of the specification on the decoded request. -/
theorem isEmpty_trimmed_iff (req : AsaasUpdateCustomerRequest) :
    UpdateAsaasCustomer.isEmpty (UpdateAsaasCustomer.trimmed req) = true ↔ emptyUpdate req := by
  simp only [UpdateAsaasCustomer.isEmpty, UpdateAsaasCustomer.trimmed, emptyUpdate,
    Bool.and_eq_true, beq_iff_eq]
  tauto

/-- Once past the refusal, the update begins with the credential resolution and never
answers with the refusal. -/
theorem send_calls_ne_nil (w : World) (o c : String) (req : AsaasUpdateCustomerRequest) :
    (UpdateAsaasCustomer.send w o c req).calls.head? =
      some (Call.GetBillingIntegrationForOffice o (normalizeProvider w "ASAAS")) ∧
    (UpdateAsaasCustomer.send w o c req).resp ≠ emptyUpdateRejection := by
  unfold UpdateAsaasCustomer.send
  simp only []
  repeat' split
  all_goals simp [emptyUpdateRejection, writeJSON, StatusBadRequest, StatusNotFound,
    StatusBadGateway]

/-- C27. Given a non-blank office, a decodable body and the identifier the handler
requires, `UpdateAsaasCustomerByID` and `UpdateAsaasCustomerByCompanyID` answer with the
refusal (400, at least one field is required) exactly when the update is empty, and then
make no call at all; an update that is not empty passes the check, and the handler goes
on to its first call (the credential resolution, respectively the mapping lookup). -/
theorem updateCustomer_empty_update_rejected (w : World) (r : Request)
    (req : AsaasUpdateCustomerRequest)
    (hoffice : trimSpace (r.query.get "accounting_office_id") ≠ "")
    (hdec : w.decodeUpdateCustomerRequest r.body = some req) :
    (trimSpace (r.urlParams.get "id") ≠ "" →
      ((UpdateAsaasCustomerByID w r).resp = emptyUpdateRejection ↔ emptyUpdate req) ∧
      (emptyUpdate req → (UpdateAsaasCustomerByID w r).calls = []) ∧
      (¬ emptyUpdate req → (UpdateAsaasCustomerByID w r).calls.head? =
        some (Call.GetBillingIntegrationForOffice
          (trimSpace (r.query.get "accounting_office_id")) (normalizeProvider w "ASAAS")))) ∧
    (trimSpace (r.query.get "company_id") ≠ "" →
      ((UpdateAsaasCustomerByCompanyID w r).resp = emptyUpdateRejection ↔ emptyUpdate req) ∧
      (emptyUpdate req → (UpdateAsaasCustomerByCompanyID w r).calls = []) ∧
      (¬ emptyUpdate req → (UpdateAsaasCustomerByCompanyID w r).calls.head? =
        some (Call.GetCompanyAsaasCustomerID (trimSpace (r.query.get "company_id"))))) := by
  constructor
  · intro hid
    by_cases he : emptyUpdate req
    · have hb := (isEmpty_trimmed_iff req).mpr he
      simp [UpdateAsaasCustomerByID, hoffice, hid, hdec, hb, he, emptyUpdateRejection]
      exact he
    · have hb : UpdateAsaasCustomer.isEmpty (UpdateAsaasCustomer.trimmed req) = false := by
        rw [← Bool.not_eq_true]; exact fun h => he ((isEmpty_trimmed_iff req).mp h)
      have hs := send_calls_ne_nil w (trimSpace (r.query.get "accounting_office_id"))
        (trimSpace (r.urlParams.get "id")) (UpdateAsaasCustomer.trimmed req)
      simp [UpdateAsaasCustomerByID, hoffice, hid, hdec, hb, he, hs.1, hs.2]
  · intro hid
    by_cases he : emptyUpdate req
    · have hb := (isEmpty_trimmed_iff req).mpr he
      simp [UpdateAsaasCustomerByCompanyID, hoffice, hid, hdec, hb, he, emptyUpdateRejection]
      exact he
    · have hb : UpdateAsaasCustomer.isEmpty (UpdateAsaasCustomer.trimmed req) = false := by
        rw [← Bool.not_eq_true]; exact fun h => he ((isEmpty_trimmed_iff req).mp h)
      simp only [UpdateAsaasCustomerByCompanyID, hoffice, hid, hdec, hb, he, if_false,
        Bool.false_eq_true, false_iff, not_false_eq_true, true_implies, false_implies, true_and]
      generalize GetCompanyAsaasCustomerID w (trimSpace (r.query.get "company_id")) = g
      rcases g with e | id
      · simp [emptyUpdateRejection, writeJSON, StatusBadRequest, StatusBadGateway]
      · by_cases hblank : trimSpace id = ""
        · simp [hblank, emptyUpdateRejection, writeJSON, StatusBadRequest, StatusNotFound]
        · have hs := send_calls_ne_nil w (trimSpace (r.query.get "accounting_office_id"))
            id (UpdateAsaasCustomer.trimmed req)
          simp [hblank, hs.2]

/-- C27, exercised: a body whose fields are blank text is refused without a call, and a
body that only sets the company flag to false passes the check. -/
theorem updateCustomer_empty_update_rejected_witness :
    (UpdateAsaasCustomerByID demoWorld blankCustomerUpdateRequest).resp =
      emptyUpdateRejection ∧
    (UpdateAsaasCustomerByID demoWorld blankCustomerUpdateRequest).calls = [] ∧
    (UpdateAsaasCustomerByCompanyID demoWorld flagCompanyUpdateRequest).calls.head? =
      some (Call.GetCompanyAsaasCustomerID "C1") :=
  ⟨((updateCustomer_empty_update_rejected demoWorld blankCustomerUpdateRequest
      { Name := "  ", Observations := "\t" } (by decide) rfl).1 (by decide)).1.mpr (by decide),
   ((updateCustomer_empty_update_rejected demoWorld blankCustomerUpdateRequest
      { Name := "  ", Observations := "\t" } (by decide) rfl).1 (by decide)).2.1 (by decide),
   ((updateCustomer_empty_update_rejected demoWorld flagCompanyUpdateRequest
      { Company := some false } (by decide) rfl).2 (by decide)).2.2 (by decide)⟩

/-! ## Normal form of the provider code -/

/-- C28, as stated, fails: on a name with white space before its first underscore
`normalizeProvider` keeps that white space, which a second pass trims, so the second
pass changes the result of the first. -/
theorem normalizeProvider_second_pass_differs :
    normalizeProvider demoWorld "ab _c" = "AB " ∧
    normalizeProvider demoWorld (normalizeProvider demoWorld "ab _c") = "AB" ∧
    normalizeProvider demoWorld (normalizeProvider demoWorld "ab _c") ≠
      normalizeProvider demoWorld "ab _c" := by
  decide

/-- `normalizeProvider` on a string that trimming and upper-casing leave unchanged. -/
theorem normalizeProvider_of_fixed (w : World) (r : String)
    (h : w.toUpper (trimSpace r) = r) :
    normalizeProvider w r =
      if "ASSAS".data.isPrefixOf r.data || "ASAAS".data.isPrefixOf r.data then "ASAAS"
      else if r.data.contains (Char.ofNat 0x5F) &&
          0 < (r.data.takeWhile (fun c => c != Char.ofNat 0x5F)).length then
        ⟨r.data.takeWhile (fun c => c != Char.ofNat 0x5F)⟩
      else r := by
  unfold normalizeProvider
  simp only [h]

/-- C28, amended. `normalizeProvider` leaves its own result unchanged whenever that
result carries no surrounding white space and upper-casing leaves it unchanged, as for
the literal ASAAS that every call site passes. -/
theorem normalizeProvider_idempotent_on_clean_results (w : World) (p : String)
    (htrim : trimSpace (normalizeProvider w p) = normalizeProvider w p)
    (hupper : w.toUpper (normalizeProvider w p) = normalizeProvider w p) :
    normalizeProvider w (normalizeProvider w p) = normalizeProvider w p := by
  rw [normalizeProvider_of_fixed w _ (by rw [htrim, hupper])]
  clear htrim hupper
  generalize hr : normalizeProvider w p = r
  unfold normalizeProvider at hr
  simp only [] at hr
  split at hr
  · subst hr
    decide
  · rename_i hpre
    split at hr
    · rename_i hcut
      subst hr
      have hpre2 : ("ASSAS".data.isPrefixOf
            ((w.toUpper (trimSpace p)).data.takeWhile (fun c => c != Char.ofNat 0x5F)) ||
          "ASAAS".data.isPrefixOf
            ((w.toUpper (trimSpace p)).data.takeWhile (fun c => c != Char.ofNat 0x5F))) =
          false := by
        rw [Bool.eq_false_iff]
        intro h
        apply hpre
        simp only [Bool.or_eq_true, List.isPrefixOf_iff_prefix] at h ⊢
        rcases h with h | h
        · exact Or.inl (h.trans (List.takeWhile_prefix _))
        · exact Or.inr (h.trans (List.takeWhile_prefix _))
      have hnone : ((w.toUpper (trimSpace p)).data.takeWhile
          (fun c => c != Char.ofNat 0x5F)).contains (Char.ofNat 0x5F) = false := by
        rw [Bool.eq_false_iff]
        intro h
        have hm := List.mem_takeWhile_imp (List.elem_iff.mp h)
        simp at hm
      simp only [hpre2, hnone, Bool.false_eq_true, if_false, Bool.false_and]
    · rename_i hcut
      subst hr
      rw [if_neg hpre, if_neg hcut]

/-- C28, amended, exercised on the literal of the call sites and on a name with a suffix
after an underscore. -/
theorem normalizeProvider_idempotent_on_clean_results_witness :
    normalizeProvider demoWorld (normalizeProvider demoWorld "ASAAS") =
      normalizeProvider demoWorld "ASAAS" ∧
    normalizeProvider demoWorld (normalizeProvider demoWorld " pagarme_sandbox") =
      normalizeProvider demoWorld " pagarme_sandbox" :=
  ⟨normalizeProvider_idempotent_on_clean_results demoWorld "ASAAS" (by decide) (by decide),
   normalizeProvider_idempotent_on_clean_results demoWorld " pagarme_sandbox" (by decide)
     (by decide)⟩

/-! ## Columns of the persisted rows -/

/-- C29. After an accepted create whose list call and tenant lookup succeed and whose
list holds a record with a non-blank id, the batch handed to `UpsertCharges` holds one
row per listed record with a non-blank id, in order, and in each of them every optional
text column is the trimmed value of the provider (absent when that is empty), net value
and installment number are absent exactly when the provider's value is 0, and value is
the provider's value. -/
theorem createCharge_listed_row_columns (w : World) (r : Request) (cl lc : Client)
    (preq : CreatePaymentRequest) (status listStatus : Int) (body listBody : Bytes)
    (params : Values) (tenantID : String)
    (hsub : (cl, preq) ∈ createPayments (CreateAsaasCharge w r).calls)
    (hans : cl.CreatePayment w preq = .ok (status, body))
    (hacc : 200 ≤ status ∧ status ≤ 299)
    (hlist : Call.ListPayments lc params ∈ (CreateAsaasCharge w r).calls)
    (hlans : lc.ListPayments w params = .ok (listStatus, listBody))
    (hten : GetCompanyTenantID w (trimSpace (r.query.get "company_id")) = .ok tenantID)
    (hsome : ∃ p ∈ (w.unmarshalPaymentsList listBody).1.Data, trimSpace p.ID ≠ "") :
    ∃ rows, upsertBatches (CreateAsaasCharge w r).calls = [rows] ∧
      List.Forall₂ (fun (row : IamChargeRow) (p : AsaasPaymentResponse) =>
          row.ProviderChargeID = p.ID ∧
          row.Description = trimmedValue p.Description ∧
          row.BillingType = trimmedValue p.BillingType ∧
          row.Status = trimmedValue p.Status ∧
          row.DueDate = trimmedValue p.DueDate ∧
          row.OriginalDueDate = trimmedValue p.OriginalDueDate ∧
          row.InvoiceURL = trimmedValue p.InvoiceURL ∧
          row.InvoiceNumber = trimmedValue p.InvoiceNumber ∧
          row.ExternalReference = trimmedValue p.ExternalReference ∧
          row.ProviderInstallmentID = trimmedValue p.Installment ∧
          row.NetValue = (if p.NetValue = 0 then none else some p.NetValue) ∧
          row.InstallmentNumber =
            (if p.InstallmentNumber = 0 then none else some p.InstallmentNumber) ∧
          row.Value = p.Value)
        rows ((w.unmarshalPaymentsList listBody).1.Data.filter
          (fun p => trimSpace p.ID ≠ "")) := by
  have hacc2 : 200 ≤ status ∧ status < 300 := by omega
  refine ⟨_, CreateAsaasCharge_reconciled_batches w r cl lc preq status listStatus body
    listBody params tenantID hsub hans hacc2 hlist hlans hten, ?_⟩
  rw [rowsToPersist_eq]
  obtain ⟨p0, hp0, hid0⟩ := hsome
  have hne : (w.unmarshalPaymentsList listBody).1.Data.filter
      (fun p => trimSpace p.ID ≠ "") ≠ [] := by
    intro h
    have : p0 ∈ (w.unmarshalPaymentsList listBody).1.Data.filter
        (fun p => trimSpace p.ID ≠ "") := by
      simp [List.mem_filter, hp0, hid0]
    rw [h] at this
    cases this
  rw [if_neg hne]
  rw [List.forall₂_map_left_iff]
  apply List.forall₂_same.mpr
  intro p _
  refine ⟨rfl, rfl, rfl, rfl, rfl, rfl, rfl, rfl, rfl, rfl, ?_, ?_, rfl⟩
  · by_cases h : p.NetValue = 0 <;> simp [CreateAsaasCharge.rowOfPayment, h]
  · by_cases h : p.InstallmentNumber = 0 <;> simp [CreateAsaasCharge.rowOfPayment, h]

/-- C29, exercised on a list answer with two payments of the customer. -/
theorem createCharge_listed_row_columns_witness :
    ∃ rows, upsertBatches (CreateAsaasCharge twoChargesWorld demoRequest).calls = [rows] ∧
      List.Forall₂ (fun (row : IamChargeRow) (p : AsaasPaymentResponse) =>
          row.ProviderChargeID = p.ID ∧
          row.Description = trimmedValue p.Description ∧
          row.BillingType = trimmedValue p.BillingType ∧
          row.Status = trimmedValue p.Status ∧
          row.DueDate = trimmedValue p.DueDate ∧
          row.OriginalDueDate = trimmedValue p.OriginalDueDate ∧
          row.InvoiceURL = trimmedValue p.InvoiceURL ∧
          row.InvoiceNumber = trimmedValue p.InvoiceNumber ∧
          row.ExternalReference = trimmedValue p.ExternalReference ∧
          row.ProviderInstallmentID = trimmedValue p.Installment ∧
          row.NetValue = (if p.NetValue = 0 then none else some p.NetValue) ∧
          row.InstallmentNumber =
            (if p.InstallmentNumber = 0 then none else some p.InstallmentNumber) ∧
          row.Value = p.Value)
        rows ((twoChargesWorld.unmarshalPaymentsList "list-pay_1").1.Data.filter
          (fun p => trimSpace p.ID ≠ "")) :=
  createCharge_listed_row_columns twoChargesWorld demoRequest demoClient demoClient
    demoPaymentRequest 200 200 "created-pay_1" "list-pay_1"
    [("customer", "cus_1"), ("limit", "100"), ("offset", "0")] "tenant_1"
    (by decide) rfl (by decide) (by decide) rfl rfl ⟨demoPayment, by decide, by decide⟩

/-- C30. No row that `UpdateAsaasCharge` hands to `UpsertCharges` carries a provider
installment id or an installment number; the row of the webhook path copies both from
the existing row. -/
theorem updateCharge_row_without_installment (w : World) (r : Request)
    (rows : List IamChargeRow) (row : IamChargeRow)
    (hbatch : rows ∈ upsertBatches (UpdateAsaasCharge w r).calls) (hrow : row ∈ rows) :
    (row.ProviderInstallmentID = none ∧ row.InstallmentNumber = none) ∧
    ∀ (p : AsaasPaymentResponse) (existing : IamChargeRow),
      (updateChargeFromWebhook.row w p existing).ProviderInstallmentID =
        existing.ProviderInstallmentID ∧
      (updateChargeFromWebhook.row w p existing).InstallmentNumber =
        existing.InstallmentNumber := by
  refine ⟨?_, fun p existing => ⟨rfl, rfl⟩⟩
  rcases UpdateAsaasCharge_upsertBatches w r with h | ⟨body, h⟩
  · rw [h] at hbatch; cases hbatch
  · rw [h] at hbatch
    rcases sync_upsertBatches w body with h2 | ⟨charge, -, h2⟩
    · rw [h2] at hbatch; cases hbatch
    · rw [h2] at hbatch
      simp only [List.mem_singleton] at hbatch
      subst hbatch
      simp only [List.mem_singleton] at hrow
      subst hrow
      exact ⟨rfl, rfl⟩

/-- C30, exercised: pay_1 is the second payment of the plan ins_1 in the charges table
and in the answer of the provider, and the upserted row carries neither column. -/
theorem updateCharge_row_without_installment_witness :
    (UpdateAsaasCharge.row installmentUpdateWorld
      { demoPayment with Installment := "ins_1", InstallmentNumber := 2 }
      { pendingRow with ProviderInstallmentID := some "ins_1",
                        InstallmentNumber := some 2 }).ProviderInstallmentID = none ∧
    (UpdateAsaasCharge.row installmentUpdateWorld
      { demoPayment with Installment := "ins_1", InstallmentNumber := 2 }
      { pendingRow with ProviderInstallmentID := some "ins_1",
                        InstallmentNumber := some 2 }).InstallmentNumber = none :=
  (updateCharge_row_without_installment installmentUpdateWorld updateRequest
    [UpdateAsaasCharge.row installmentUpdateWorld
      { demoPayment with Installment := "ins_1", InstallmentNumber := 2 }
      { pendingRow with ProviderInstallmentID := some "ins_1", InstallmentNumber := some 2 }]
    (UpdateAsaasCharge.row installmentUpdateWorld
      { demoPayment with Installment := "ins_1", InstallmentNumber := 2 }
      { pendingRow with ProviderInstallmentID := some "ins_1", InstallmentNumber := some 2 })
    (by decide) (by decide)).1

end ChargesService
